import Mathlib

/-! PGR: inventário de riscos, classificação e plano de ação.

Shallow embedding of `pgr-profissional.js`.  The application keeps its data in the
object `ESTADO` and in the page (the rows of the tables `corpoInventarioRiscos` and
`corpoPlanoAcao`, the statistics panel).  Both are part of the state modelled here,
because the code reads the rows back into `ESTADO.riscos` before it counts or plans.

Conventions of the embedding:
* JavaScript numbers that are counters, ids or scores are `Nat`; a score that is `NaN`
  in the program is `none`.
* A property lookup that yields `undefined` is `none`.
* A handler that ends in an uncaught `TypeError` yields the state reached at the throw
  together with `excecao := true`.
* `alert` messages are returned in `alerta`; the answer of a `confirm` dialog is a
  `Bool` argument.
-/

namespace PGR

/-! ## Constants -/

/-- Value stored under a key of `CLASSIFICACAO_RISCO`. -/
structure Classificacao where
  nivel : String
  classe : String
  cor : String
deriving DecidableEq, Repr

/-- Own entries of the object `MATRIZ_PROBABILIDADE`.  A key that is absent (or that is
only inherited from `Object.prototype`) does not give a number, and the product it
enters is `NaN`; this is `none`. -/
def MATRIZ_PROBABILIDADE (chave : String) : Option Nat :=
  if chave = "Baixa" then some 1
  else if chave = "Média" then some 2
  else if chave = "Alta" then some 3
  else none

/-- Own entries of the object `MATRIZ_SEVERIDADE`, with the same reading of `none`. -/
def MATRIZ_SEVERIDADE (chave : String) : Option Nat :=
  if chave = "Leve" then some 1
  else if chave = "Moderada" then some 2
  else if chave = "Grave" then some 3
  else if chave = "Fatal" then some 4
  else none

/-- The object `CLASSIFICACAO_RISCO`: eight numeric keys; any other key is `undefined`. -/
def CLASSIFICACAO_RISCO (valor : Nat) : Option Classificacao :=
  if valor = 1 then some { nivel := "Baixo", classe := "baixo", cor := "#10b981" }
  else if valor = 2 then some { nivel := "Baixo", classe := "baixo", cor := "#10b981" }
  else if valor = 3 then some { nivel := "Médio", classe := "medio", cor := "#f59e0b" }
  else if valor = 4 then some { nivel := "Médio", classe := "medio", cor := "#f59e0b" }
  else if valor = 6 then some { nivel := "Médio", classe := "medio", cor := "#f59e0b" }
  else if valor = 8 then some { nivel := "Alto", classe := "alto", cor := "#ef4444" }
  else if valor = 9 then some { nivel := "Alto", classe := "alto", cor := "#ef4444" }
  else if valor = 12 then some { nivel := "Alto", classe := "alto", cor := "#ef4444" }
  else none

/-- Values offered by the `campo-probabilidade` select (the keys of `MATRIZ_PROBABILIDADE`). -/
def probabilidades : List String := ["Baixa", "Média", "Alta"]

/-- Values offered by the `campo-severidade` select (the keys of `MATRIZ_SEVERIDADE`). -/
def severidades : List String := ["Leve", "Moderada", "Grave", "Fatal"]

/-- Values offered by the `campo-tipo-risco` select. -/
def tiposRisco : List String := ["Acidente", "Físico", "Químico", "Biológico", "Ergonômico"]

/-- The expression `MATRIZ_PROBABILIDADE[p] * MATRIZ_SEVERIDADE[s]`; `none` is `NaN`. -/
def valorRisco (probabilidade severidade : String) : Option Nat :=
  match MATRIZ_PROBABILIDADE probabilidade, MATRIZ_SEVERIDADE severidade with
  | some p, some s => some (p * s)
  | _, _ => none

/-- The lookup `CLASSIFICACAO_RISCO[valorRisco]`; `CLASSIFICACAO_RISCO[NaN]` is `undefined`. -/
def classificar (probabilidade severidade : String) : Option Classificacao :=
  match valorRisco probabilidade severidade with
  | some valor => CLASSIFICACAO_RISCO valor
  | none => none

/-! ## Data model -/

/-- Element of `ESTADO.riscos`. -/
structure Risco where
  id : Nat
  atividade : String
  perigo : String
  tipoRisco : String
  fonte : String
  consequencias : String
  probabilidade : String
  severidade : String
  foto : Option String
deriving DecidableEq, Repr

/-- Row `tr[data-risco-id]` of the inventory table: the id attribute and the current
values of its seven form fields.  The level badge and the photo preview of the row are
display only and are not modelled. -/
structure Linha where
  riscoId : Nat
  atividade : String
  perigo : String
  tipoRisco : String
  fonte : String
  consequencias : String
  probabilidade : String
  severidade : String
deriving DecidableEq, Repr

/-- Value of `acao.medida`.  `medidas[risco.tipoRisco]` is a text for the five own keys;
for a key that the object literal inherits from `Object.prototype` it is that inherited
member, which is truthy and is returned as it is. -/
inductive Medida where
  | texto (s : String)
  | herdada (chave : String)
deriving DecidableEq, Repr

/-- Object returned by `gerarAcaoParaRisco`; also a row of the plan table, whose
`responsavel`, `prazo` and `status` cells can be edited. -/
structure Acao where
  risco : String
  medida : Medida
  prioridade : String
  responsavel : String
  prazo : String
  status : String
deriving DecidableEq, Repr

/-- The four counters shown in the statistics panel. -/
structure Painel where
  totalRiscos : Nat
  riscosAltos : Nat
  riscosMedios : Nat
  riscosBaixos : Nat
deriving DecidableEq, Repr

/-- The object `ESTADO` and the parts of the page the code reads or writes. -/
structure Estado where
  riscos : List Risco
  contadorRiscos : Nat
  planoAcaoGerado : Bool
  dadosModificados : Bool
  corpoInventarioRiscos : List Linha
  corpoPlanoAcao : List Acao
  painel : Painel
deriving DecidableEq, Repr

/-- State when the script is loaded: the literal `ESTADO` and empty tables. -/
def estadoInicial : Estado :=
  { riscos := [], contadorRiscos := 0, planoAcaoGerado := false, dadosModificados := false,
    corpoInventarioRiscos := [], corpoPlanoAcao := [],
    painel := { totalRiscos := 0, riscosAltos := 0, riscosMedios := 0, riscosBaixos := 0 } }

/-- Outcome of running a handler. -/
structure Resultado where
  estado : Estado
  alerta : Option String
  excecao : Bool
deriving DecidableEq, Repr

/-! ## Inventory -/

/-- `const x = lista.find(p); if (x) { x := f x }`: the first element that satisfies `p`
is modified in place, and nothing happens when there is none. -/
def alterarPrimeiro {α : Type} (p : α → Bool) (f : α → α) : List α → List α
  | [] => []
  | a :: l => if p a then f a :: l else a :: alterarPrimeiro p f l

/-- `document.querySelector` for the selector `tr[data-risco-id="id"]`. -/
def querySelector (linhas : List Linha) (id : Nat) : Option Linha :=
  linhas.find? (fun tr => tr.riscoId == id)

/-- Value a select element shows for `valor`: the option with that value, or the first
option when there is none. -/
def valorSelect (opcoes : List String) (valor : String) : String :=
  if valor ∈ opcoes then valor else opcoes.headD ""

/-- Row that `renderizarRisco` builds for `risco`.  The texts are taken to be free of
markup, so that a textarea holds the text it was given. -/
def linhaDoRisco (risco : Risco) : Linha :=
  { riscoId := risco.id,
    atividade := risco.atividade,
    perigo := risco.perigo,
    tipoRisco := valorSelect tiposRisco risco.tipoRisco,
    fonte := risco.fonte,
    consequencias := risco.consequencias,
    probabilidade := valorSelect probabilidades risco.probabilidade,
    severidade := valorSelect severidades risco.severidade }

/-- `renderizarRisco`: `none` when `classificacao` is `undefined`, because reading
`classificacao.classe` throws before the row is attached to the table. -/
def renderizarRisco (e : Estado) (risco : Risco) : Option Estado :=
  match classificar risco.probabilidade risco.severidade with
  | none => none
  | some _ =>
    some { e with corpoInventarioRiscos := e.corpoInventarioRiscos ++ [linhaDoRisco risco] }

/-- The seven assignments of `salvarAlteracoesRisco`, from the fields of the row. -/
def salvarCampos (tr : Linha) (risco : Risco) : Risco :=
  { risco with
    atividade := tr.atividade,
    perigo := tr.perigo,
    tipoRisco := tr.tipoRisco,
    fonte := tr.fonte,
    consequencias := tr.consequencias,
    probabilidade := tr.probabilidade,
    severidade := tr.severidade }

/-- `salvarAlteracoesRisco(riscoId, tr)`. -/
def salvarAlteracoesRisco (e : Estado) (riscoId : Nat) (tr : Linha) : Estado :=
  { e with riscos := alterarPrimeiro (fun r => r.id == riscoId) (salvarCampos tr) e.riscos }

/-- `recalcularNivelRisco(riscoId, tr)`: throws on an undefined classification, before
the array is touched; otherwise stores the two select values in the first entry with
that id. -/
def recalcularNivelRisco (e : Estado) (riscoId : Nat) (tr : Linha) : Resultado :=
  match classificar tr.probabilidade tr.severidade with
  | none => { estado := e, alerta := none, excecao := true }
  | some _ =>
    let alterar := fun (risco : Risco) =>
      { risco with probabilidade := tr.probabilidade, severidade := tr.severidade }
    { estado := { e with riscos := alterarPrimeiro (fun r => r.id == riscoId) alterar e.riscos },
      alerta := none, excecao := false }

/-- Body of the loop below for the entry with the given id:
`tr = querySelector(..); if (tr) salvarAlteracoesRisco(risco.id, tr)`. -/
def sincronizarRisco (e : Estado) (id : Nat) : Estado :=
  match querySelector e.corpoInventarioRiscos id with
  | some tr => salvarAlteracoesRisco e id tr
  | none => e

/-- The loop `ESTADO.riscos.forEach(risco => ...)` that opens `atualizarEstatisticas` and
precedes the sort in `gerarPlanoAcao`: every entry is refreshed from its row.  The ids
do not change during the loop, so it runs over the ids found at its start. -/
def sincronizarRiscos (e : Estado) : Estado :=
  (e.riscos.map (fun risco => risco.id)).foldl sincronizarRisco e

/-- Second loop of `atualizarEstatisticas`: the three counters, or `none` when an
entry has no classification and `classificacao.nivel` throws. -/
def contarNiveis : List Risco → Nat × Nat × Nat → Option (Nat × Nat × Nat)
  | [], totais => some totais
  | risco :: resto, (totalAlto, totalMedio, totalBaixo) =>
    match classificar risco.probabilidade risco.severidade with
    | none => none
    | some classificacao =>
      if classificacao.nivel = "Alto" then contarNiveis resto (totalAlto + 1, totalMedio, totalBaixo)
      else if classificacao.nivel = "Médio" then contarNiveis resto (totalAlto, totalMedio + 1, totalBaixo)
      else contarNiveis resto (totalAlto, totalMedio, totalBaixo + 1)

/-- `atualizarEstatisticas`. -/
def atualizarEstatisticas (e : Estado) : Resultado :=
  let e1 := sincronizarRiscos e
  match contarNiveis e1.riscos (0, 0, 0) with
  | none => { estado := e1, alerta := none, excecao := true }
  | some (totalAlto, totalMedio, totalBaixo) =>
    { estado := { e1 with painel :=
        { totalRiscos := e1.riscos.length, riscosAltos := totalAlto,
          riscosMedios := totalMedio, riscosBaixos := totalBaixo } },
      alerta := none, excecao := false }

/-- The object literal `riscoExemplo` for the given id. -/
def riscoExemplo (id : Nat) : Risco :=
  { id := id,
    atividade := "Trabalho em Altura - Montagem de Estruturas Metálicas",
    perigo := "Queda de diferença de nível superior a 2,00m",
    tipoRisco := "Acidente",
    fonte := "Execução de atividades em andaimes, plataformas elevadas e estruturas sem proteção coletiva adequada conforme NR-35",
    consequencias := "Lesões graves, fraturas múltiplas, trauma cranioencefálico, lesões de coluna vertebral, risco de óbito",
    probabilidade := "Alta",
    severidade := "Fatal",
    foto := none }

/-- The object literal `novoRisco` for the given id. -/
def novoRisco (id : Nat) : Risco :=
  { id := id,
    atividade := "",
    perigo := "",
    tipoRisco := "Acidente",
    fonte := "",
    consequencias := "",
    probabilidade := "Média",
    severidade := "Moderada",
    foto := none }

/-- `adicionarRiscoExemplo`. -/
def adicionarRiscoExemplo (e : Estado) : Resultado :=
  let e1 := { e with contadorRiscos := e.contadorRiscos + 1 }
  let risco := riscoExemplo e1.contadorRiscos
  let e2 := { e1 with riscos := e1.riscos ++ [risco] }
  match renderizarRisco e2 risco with
  | none => { estado := e2, alerta := none, excecao := true }
  | some e3 => atualizarEstatisticas e3

/-- `adicionarNovoRisco`; the timer that scrolls to the new row changes no state. -/
def adicionarNovoRisco (e : Estado) : Resultado :=
  let e1 := { e with contadorRiscos := e.contadorRiscos + 1 }
  let risco := novoRisco e1.contadorRiscos
  let e2 := { e1 with riscos := e1.riscos ++ [risco] }
  match renderizarRisco e2 risco with
  | none => { estado := e2, alerta := none, excecao := true }
  | some e3 =>
    let r := atualizarEstatisticas e3
    if r.excecao then r
    else { estado := { r.estado with dadosModificados := true }, alerta := none, excecao := false }

/-- `removerRisco(riscoId)`, with the answer given to the confirmation dialog. -/
def removerRisco (e : Estado) (riscoId : Nat) (confirmado : Bool) : Resultado :=
  if !confirmado then { estado := e, alerta := none, excecao := false }
  else
    let e1 := { e with riscos := e.riscos.filter (fun r => r.id != riscoId) }
    let e2 := { e1 with corpoInventarioRiscos :=
      e1.corpoInventarioRiscos.eraseP (fun tr => tr.riscoId == riscoId) }
    let r := atualizarEstatisticas e2
    if r.excecao then r
    else
      { estado := { r.estado with dadosModificados := true, planoAcaoGerado := false },
        alerta := none, excecao := false }

/-! ## Action plan -/

/-- Names that every object literal inherits from `Object.prototype`. -/
def chavesHerdadas : List String :=
  ["constructor", "hasOwnProperty", "isPrototypeOf", "propertyIsEnumerable",
   "toLocaleString", "toString", "valueOf", "__proto__", "__defineGetter__",
   "__defineSetter__", "__lookupGetter__", "__lookupSetter__"]

/-- `gerarMedidasPrioritarias`. -/
def gerarMedidasPrioritarias (risco : Risco) : Medida :=
  if risco.tipoRisco = "Acidente" then
    Medida.texto ("AÇÃO IMEDIATA REQUERIDA: 1) Avaliar necessidade de PARALISAÇÃO IMEDIATA da atividade até implementação de controles adequados (NR-01, item 1.4.1); 2) Implementar proteção coletiva prioritária (guarda-corpo rígido, sistemas de ancoragem, plataformas de proteção conforme NR-18); 3) Realizar Análise Preliminar de Riscos (APR) com participação dos trabalhadores envolvidos; 4) Ministrar Diálogo Diário de Segurança (DDS) específico sobre o risco identificado; 5) Disponibilizar EPIs adequados com Certificado de Aprovação (CA) válido e treinamento de uso correto; 6) Garantir capacitação técnica conforme NR aplicável (ex: NR-35 para trabalho em altura); 7) Designar supervisor de segurança para acompanhamento contínuo da atividade; 8) Estabelecer procedimento operacional padrão (POP) detalhado; 9) Implementar sistema de permissão de trabalho (PT); 10) Documentar todas as medidas implementadas para fins de comprovação pericial.")
  else if risco.tipoRisco = "Físico" then
    Medida.texto ("CONTROLE IMEDIATO NECESSÁRIO: 1) Isolar completamente a fonte geradora do agente físico (" ++ risco.fonte ++ "); 2) Implementar controles de engenharia (enclausuramento, barreiras acústicas, isolamento térmico) conforme aplicável; 3) Realizar avaliação quantitativa ambiental imediata por profissional habilitado com equipamentos calibrados; 4) Estabelecer sistema de rodízio de pessoal para minimização do tempo de exposição; 5) Fornecer EPIs adequados ao agente (protetores auriculares tipo concha ou inserção, vestimentas aluminizadas, etc.) com CA válido; 6) Implementar programa de monitoramento contínuo das condições ambientais; 7) Submeter trabalhadores expostos a exames médicos ocupacionais específicos (audiometria, espirometria, etc.); 8) Sinalizar adequadamente áreas de risco; 9) Elaborar relatório técnico de avaliação ambiental; 10) Revisar PPRA/PGR com as novas condições identificadas.")
  else if risco.tipoRisco = "Químico" then
    Medida.texto ("MEDIDAS EMERGENCIAIS: 1) Avaliar possibilidade de SUBSTITUIÇÃO do produto químico por alternativa menos tóxica ou nociva (prioridade máxima na hierarquia de controles); 2) Se inviável a substituição, implementar sistema de ventilação local exaustora (VLE) dimensionado tecnicamente; 3) Armazenar produtos em local ventilado, sinalizado e com contenção de vazamentos; 4) Disponibilizar Ficha de Informações de Segurança de Produtos Químicos (FISPQ) em local visível e acessível; 5) Fornecer EPIs específicos: proteção respiratória com filtro químico adequado (verificar CA e tipo de filtro), luvas de proteção química, óculos de segurança, vestimentas impermeáveis; 6) Realizar treinamento obrigatório sobre manuseio seguro de produtos químicos; 7) Implementar procedimentos de emergência para derramamentos e exposições; 8) Providenciar chuveiro de emergência e lava-olhos quando aplicável; 9) Estabelecer procedimentos rigorosos de higiene ocupacional; 10) Realizar monitoramento biológico dos trabalhadores expostos conforme NR-07.")
  else if risco.tipoRisco = "Biológico" then
    Medida.texto ("CONTROLE BIOSSANITÁRIO URGENTE: 1) Avaliar eliminação completa da fonte de exposição ao agente biológico; 2) Implementar barreiras físicas de isolamento e contenção; 3) Estabelecer protocolos rigorosos de higiene e assepsia; 4) Fornecer EPIs de biossegurança adequados (máscaras N95/PFF2, luvas, aventais, óculos de proteção); 5) Disponibilizar instalações sanitárias adequadas com água potável, sabão e papel toalha; 6) Implementar vacinação profilática quando existente e indicada; 7) Estabelecer procedimentos para descarte adequado de resíduos biológicos conforme normas ANVISA/CONAMA; 8) Ministrar treinamento sobre riscos biológicos e medidas preventivas; 9) Implementar controle médico rigoroso com exames laboratoriais periódicos; 10) Providenciar local apropriado para refeições, separado das áreas de risco.")
  else if risco.tipoRisco = "Ergonômico" then
    Medida.texto ("INTERVENÇÃO ERGONÔMICA PRIORITÁRIA: 1) Realizar Análise Ergonômica do Trabalho (AET) completa conforme NR-17, conduzida por profissional especializado; 2) Adequar imediatamente mobiliário, bancadas e postos de trabalho às dimensões antropométricas dos trabalhadores; 3) Implementar ferramentas ergonômicas e dispositivos auxiliares para redução de sobrecarga física; 4) Estabelecer pausas regulares e obrigatórias durante a jornada (mínimo 10 minutos a cada 50 minutos de trabalho repetitivo); 5) Implantar programa de ginástica laboral preparatória e compensatória; 6) Realizar rodízio de tarefas para evitar sobrecarga de grupos musculares específicos; 7) Providenciar treinamento postural e técnicas de movimentação manual de cargas; 8) Ajustar iluminação, temperatura e ventilação conforme parâmetros da NR-17; 9) Reduzir ritmo de trabalho quando identificado como causador de sobrecarga; 10) Acompanhamento médico ocupacional específico para distúrbios osteomusculares.")
  else if risco.tipoRisco ∈ chavesHerdadas then Medida.herdada risco.tipoRisco
  else
    Medida.texto ("AÇÃO IMEDIATA: Implementar controles seguindo hierarquia da NR-01 (eliminação, substituição, controles de engenharia, controles administrativos, EPI). Realizar ART específica para intervenção técnica em " ++ risco.atividade ++ ". Documentar integralmente todas as medidas implementadas.")

/-- `gerarMedidasProgramadas`. -/
def gerarMedidasProgramadas (risco : Risco) : Medida :=
  Medida.texto ("AÇÃO PROGRAMADA: 1) Revisar e atualizar Procedimento Operacional Padrão (POP) específico para " ++ risco.atividade ++ ", incorporando melhores práticas de segurança; 2) Intensificar programa de treinamento e capacitação dos trabalhadores, com reciclagem periódica; 3) Implementar sinalização de segurança adequada e visível conforme NR-26; 4) Realizar inspeções periódicas programadas (semanal ou quinzenal) nas atividades e equipamentos envolvidos; 5) Verificar sistematicamente a adequação, disponibilidade e estado de conservação dos EPIs; 6) Implementar supervisão técnica contínua durante execução das atividades de risco; 7) Estabelecer sistema de registro de não-conformidades e incidentes; 8) Realizar reuniões periódicas da CIPA/equipe de SST para discussão do risco; 9) Avaliar tecnicamente a viabilidade de controles de engenharia adicionais; 10) Manter documentação atualizada e disponível para fiscalização.")

/-- `gerarMedidasMonitoramento`. -/
def gerarMedidasMonitoramento (risco : Risco) : Medida :=
  Medida.texto ("MONITORAMENTO CONTÍNUO: 1) Manter programa de monitoramento sistemático das condições de " ++ risco.atividade ++ "; 2) Realizar inspeções periódicas mensais para verificação da manutenção das condições seguras; 3) Executar manutenção preventiva regular de equipamentos, ferramentas e dispositivos de segurança; 4) Reforçar orientações de segurança em Diálogos Diários de Segurança (DDS); 5) Manter registro atualizado de treinamentos e capacitações; 6) Documentar adequadamente todas as atividades e inspeções realizadas; 7) Revisar periodicamente (semestral) a avaliação de risco considerando mudanças em processos ou tecnologias; 8) Manter canal de comunicação aberto para reporte de condições inseguras pelos trabalhadores; 9) Garantir disponibilidade permanente de EPIs adequados; 10) Integrar o monitoramento deste risco nas rotinas da equipe de SST e supervisão operacional.")

/-- `gerarAcaoParaRisco(risco, classificacao)` for a defined `classificacao`. -/
def gerarAcaoParaRisco (risco : Risco) (classificacao : Classificacao) : Acao :=
  let (medida, prioridade, prazo) :=
    if classificacao.nivel = "Alto" then
      (gerarMedidasPrioritarias risco, "Imediata", "24-48 horas")
    else if classificacao.nivel = "Médio" then
      (gerarMedidasProgramadas risco, "Urgente", "7-15 dias corridos")
    else
      (gerarMedidasMonitoramento risco, "Programada", "30-60 dias corridos")
  { risco := risco.atividade ++ " - " ++ risco.perigo,
    medida := medida,
    prioridade := prioridade,
    responsavel := "Engenheiro de Segurança do Trabalho / Equipe de SST",
    prazo := prazo,
    status := "Pendente" }

/-- The comparison function `(a, b) => valorB - valorA` handed to `sort`.  A `NaN`
result counts as `+0`, as `sort` reads it. -/
def compararRiscos (a b : Risco) : Int :=
  match valorRisco a.probabilidade a.severidade, valorRisco b.probabilidade b.severidade with
  | some valorA, some valorB => (valorB : Int) - (valorA : Int)
  | _, _ => 0

/-- `Array.prototype.sort(comparefn)` on a copy of the list.  The language requires the
sort to be stable, which fixes the result whenever `comparefn` is a consistent
comparison; the result is computed here by insertion, an element staying in front of
the elements it does not have to follow. -/
def sort {α : Type} (comparefn : α → α → Int) (lista : List α) : List α :=
  lista.insertionSort (fun a b => comparefn a b ≤ 0)

/-- `[...ESTADO.riscos].sort(...)` of `gerarPlanoAcao`. -/
def riscosOrdenados (riscos : List Risco) : List Risco :=
  sort compararRiscos riscos

/-- Item generated for one entry in the loop of `gerarPlanoAcao`; `none` when its
classification is `undefined` and `gerarAcaoParaRisco` throws. -/
def acaoDoRisco (risco : Risco) : Option Acao :=
  (classificar risco.probabilidade risco.severidade).map (gerarAcaoParaRisco risco)

/-- The loop `riscosOrdenados.forEach(...)` of `gerarPlanoAcao`: rows already in the plan
table, the entries still to be handled; the flag tells that `gerarAcaoParaRisco` threw
on an undefined `classificacao`. -/
def renderizarAcoes : List Acao → List Risco → List Acao × Bool
  | corpo, [] => (corpo, false)
  | corpo, risco :: resto =>
    match acaoDoRisco risco with
    | none => (corpo, true)
    | some acao => renderizarAcoes (corpo ++ [acao]) resto

/-- `gerarPlanoAcao`, with the answer that would be given to the confirmation dialog
shown when a plan already exists. -/
def gerarPlanoAcao (e : Estado) (confirmado : Bool) : Resultado :=
  if e.riscos.length = 0 then
    { estado := e,
      alerta := some "Não há riscos cadastrados.\n\nAdicione pelo menos um risco ao inventário antes de gerar o plano de ação.",
      excecao := false }
  else if e.planoAcaoGerado && !confirmado then
    { estado := e, alerta := none, excecao := false }
  else
    let e1 := { e with corpoPlanoAcao := [] }
    let e2 := sincronizarRiscos e1
    match renderizarAcoes e2.corpoPlanoAcao (riscosOrdenados e2.riscos) with
    | (corpo, true) => { estado := { e2 with corpoPlanoAcao := corpo }, alerta := none, excecao := true }
    | (corpo, false) =>
      { estado := { e2 with corpoPlanoAcao := corpo, planoAcaoGerado := true },
        alerta := none, excecao := false }

/-! ## Sequences of operations -/

/-- Operations on the inventory: the two ways of adding an entry, the functions run by
the change handlers of a row, an edit of a row in the page, and removal. -/
inductive Operacao where
  | exemplo
  | novo
  | editarLinha (tr : Linha)
  | salvar (riscoId : Nat) (tr : Linha)
  | recalcular (riscoId : Nat) (tr : Linha)
  | estatisticas
  | modificado
  | remover (riscoId : Nat) (confirmado : Bool)
deriving DecidableEq, Repr

/-- State after one operation.  After an uncaught exception the page goes on with the
state reached at the throw. -/
def executar (e : Estado) : Operacao → Estado
  | .exemplo => (adicionarRiscoExemplo e).estado
  | .novo => (adicionarNovoRisco e).estado
  | .editarLinha tr =>
    { e with corpoInventarioRiscos :=
        alterarPrimeiro (fun l => l.riscoId == tr.riscoId) (fun _ => tr) e.corpoInventarioRiscos }
  | .salvar riscoId tr => salvarAlteracoesRisco e riscoId tr
  | .recalcular riscoId tr => (recalcularNivelRisco e riscoId tr).estado
  | .estatisticas => (atualizarEstatisticas e).estado
  | .modificado => { e with dadosModificados := true }
  | .remover riscoId confirmado => (removerRisco e riscoId confirmado).estado

/-- Whether the operation is one of the two that add an entry. -/
def ehAdicao : Operacao → Bool
  | .exemplo => true
  | .novo => true
  | _ => false

/-- State after a sequence of operations. -/
def executarTodas (e : Estado) (ops : List Operacao) : Estado :=
  ops.foldl executar e

/-- Id of the entry that an operation adds: the id of the entry it pushes at the end
of the list. -/
def idAtribuido (e : Estado) : Operacao → Option Nat
  | .exemplo => (adicionarRiscoExemplo e).estado.riscos.getLast?.map (fun r => r.id)
  | .novo => (adicionarNovoRisco e).estado.riscos.getLast?.map (fun r => r.id)
  | _ => none

/-- Ids given to new entries along a sequence of operations, oldest first. -/
def idsAtribuidos (e : Estado) : List Operacao → List Nat
  | [] => []
  | op :: ops => (idAtribuido e op).toList ++ idsAtribuidos (executar e op) ops

/-- The ids of the stored entries are pairwise distinct and none exceeds the counter. -/
def IdsValidos (e : Estado) : Prop :=
  (e.riscos.map (fun r => r.id)).Nodup ∧ ∀ r ∈ e.riscos, r.id ≤ e.contadorRiscos

/-- State reached when the example entry has been added and the text of its activity
field has then been replaced in the page, no change handler having run yet. -/
def estadoCampoEditado : Estado :=
  executar (adicionarRiscoExemplo estadoInicial).estado
    (.editarLinha { linhaDoRisco (riscoExemplo 1) with atividade := "Concretagem" })

/-- Whether every row of the inventory table shows the values of the stored entry it
belongs to, and ids do not run ahead of the counter. -/
def sincronizado (e : Estado) : Bool :=
  e.riscos.all (fun r => decide (r.id ≤ e.contadorRiscos)) &&
  e.corpoInventarioRiscos.all (fun tr => decide (tr.riscoId ≤ e.contadorRiscos)) &&
  e.corpoInventarioRiscos.all (fun tr =>
    match e.riscos.find? (fun r => r.id == tr.riscoId) with
    | none => true
    | some r =>
      decide (tr.atividade = r.atividade ∧ tr.perigo = r.perigo ∧ tr.tipoRisco = r.tipoRisco ∧
        tr.fonte = r.fonte ∧ tr.consequencias = r.consequencias ∧
        tr.probabilidade = r.probabilidade ∧ tr.severidade = r.severidade))

/-- Whether the two fields that decide the score hold values of their enumerations. -/
def valido (risco : Risco) : Bool :=
  decide (risco.probabilidade ∈ probabilidades) && decide (risco.severidade ∈ severidades)

/-- Score of an entry with valid fields (0 stands for `NaN`). -/
def pontuacao (risco : Risco) : Nat :=
  (valorRisco risco.probabilidade risco.severidade).getD 0

/-! ## Photo upload -/

/-- `CONFIG.MAX_FILE_SIZE`. -/
def MAX_FILE_SIZE : Nat := 5 * 1024 * 1024

/-- `CONFIG.ACCEPTED_IMAGE_TYPES`. -/
def ACCEPTED_IMAGE_TYPES : List String :=
  ["image/jpeg", "image/jpg", "image/png", "image/webp"]

/-- The `File` picked in the input of a row: its MIME type, its size in bytes and the
data URL that `readAsDataURL` produces from its content. -/
structure Arquivo where
  type : String
  size : Nat
  dataURL : String
deriving DecidableEq, Repr

/-- The two checks of `uploadFoto`: the alert shown when the file is refused, `none`
when the file passes both. -/
def validarArquivo (arquivo : Arquivo) : Option String :=
  if !(ACCEPTED_IMAGE_TYPES.contains arquivo.type) then
    some "Formato de arquivo não suportado.\n\nApenas imagens JPEG, PNG e WebP são aceitas."
  else if arquivo.size > MAX_FILE_SIZE then
    some ("Arquivo muito grande.\n\nTamanho máximo: " ++
      toString (MAX_FILE_SIZE / 1024 / 1024) ++ "MB")
  else none

/-- `uploadFoto(event, riscoId)` up to the call of `readAsDataURL`: nothing happens
without a file, a refused file gives an alert, and for an accepted file the read is
started; the second component is the read in progress (the id and the data URL that
`reader.onload` will receive). -/
def uploadFoto (e : Estado) (arquivo : Option Arquivo) (riscoId : Nat) :
    Resultado × Option (Nat × String) :=
  match arquivo with
  | none => ({ estado := e, alerta := none, excecao := false }, none)
  | some a =>
    match validarArquivo a with
    | some mensagem => ({ estado := e, alerta := some mensagem, excecao := false }, none)
    | none => ({ estado := e, alerta := none, excecao := false }, some (riscoId, a.dataURL))

/-- The handler `reader.onload` of `uploadFoto`, run on the state found when the read
completes.  The preview element lives in the row of the entry; without that row
`previewDiv` is `null` and writing its `innerHTML` throws. -/
def readerOnload (e : Estado) (riscoId : Nat) (result : String) : Resultado :=
  let anexar := fun (risco : Risco) => { risco with foto := some result }
  let e1 := { e with riscos := alterarPrimeiro (fun r => r.id == riscoId) anexar e.riscos }
  match querySelector e1.corpoInventarioRiscos riscoId with
  | none => { estado := e1, alerta := none, excecao := true }
  | some _ => { estado := { e1 with dadosModificados := true }, alerta := none, excecao := false }

/-! ## Form, storage and validation -/

/-- Values of the thirteen form fields that `coletarDadosFormulario` reads; the page is
taken to have all of them. -/
structure Formulario where
  razaoSocial : String
  cnpj : String
  nomeObra : String
  enderecoObra : String
  cnae : String
  grauRisco : String
  numTrabalhadores : String
  nomeResponsavel : String
  creaResponsavel : String
  artResponsavel : String
  dataElaboracao : String
  dataRevisao : String
  versaoDocumento : String
deriving DecidableEq, Repr

/-- The object `dados` that `salvarDadosLocal` serialises. -/
structure DadosSalvos where
  formulario : Formulario
  riscos : List Risco
  versao : String
  dataSalvamento : String
deriving DecidableEq, Repr

/-- What `localStorage.getItem(CONFIG.STORAGE_KEY)` holds: nothing, a text that
`JSON.parse` rejects, or the serialisation of a `dados` object, which `JSON.parse`
gives back as it was.  Texts that parse to a value of another shape are outside the
model. -/
inductive Armazenado where
  | ausente
  | malformado
  | dados (d : DadosSalvos)
deriving DecidableEq, Repr

/-- The application: `ESTADO` with the tables of the page, the form, whether
`localStorage` works (`verificarSuporteLocalStorage`) and the stored item. -/
structure Aplicacao where
  estado : Estado
  formulario : Formulario
  suporte : Bool
  item : Armazenado
deriving DecidableEq, Repr

/-- Outcome of a handler that works on the form or the storage; these handlers catch
their exceptions. -/
structure ResultadoApp where
  app : Aplicacao
  alerta : Option String
deriving DecidableEq, Repr

/-- `CONFIG.VERSION`. -/
def VERSION : String := "2.0"

/-- `coletarDadosFormulario`: the values of the thirteen fields. -/
def coletarDadosFormulario (ap : Aplicacao) : Formulario := ap.formulario

/-- `preencherFormulario(dados)`: a field takes the saved value when that value is not
the empty string, and keeps its value otherwise. -/
def preencherFormulario (atual salvo : Formulario) : Formulario :=
  let preencher := fun (valorAtual valorSalvo : String) =>
    if valorSalvo = "" then valorAtual else valorSalvo
  { razaoSocial := preencher atual.razaoSocial salvo.razaoSocial,
    cnpj := preencher atual.cnpj salvo.cnpj,
    nomeObra := preencher atual.nomeObra salvo.nomeObra,
    enderecoObra := preencher atual.enderecoObra salvo.enderecoObra,
    cnae := preencher atual.cnae salvo.cnae,
    grauRisco := preencher atual.grauRisco salvo.grauRisco,
    numTrabalhadores := preencher atual.numTrabalhadores salvo.numTrabalhadores,
    nomeResponsavel := preencher atual.nomeResponsavel salvo.nomeResponsavel,
    creaResponsavel := preencher atual.creaResponsavel salvo.creaResponsavel,
    artResponsavel := preencher atual.artResponsavel salvo.artResponsavel,
    dataElaboracao := preencher atual.dataElaboracao salvo.dataElaboracao,
    dataRevisao := preencher atual.dataRevisao salvo.dataRevisao,
    versaoDocumento := preencher atual.versaoDocumento salvo.versaoDocumento }

/-- `salvarDadosLocal`; `agora` is the text of `new Date().toISOString()` and `gravado`
tells whether `localStorage.setItem` accepts the item (it throws when the quota is
exceeded). -/
def salvarDadosLocal (ap : Aplicacao) (agora : String) (gravado : Bool) : ResultadoApp :=
  if !ap.suporte then
    { app := ap,
      alerta := some "Seu navegador não suporta armazenamento local.\n\nUse a função de exportar dados (JSON) como alternativa." }
  else
    let dados : DadosSalvos :=
      { formulario := coletarDadosFormulario ap,
        riscos := ap.estado.riscos,
        versao := VERSION,
        dataSalvamento := agora }
    if !gravado then
      { app := ap,
        alerta := some "Erro ao salvar dados.\n\nVerifique o console para mais informações." }
    else
      { app := { ap with
          item := Armazenado.dados dados,
          estado := { ap.estado with dadosModificados := false } },
        alerta := none }

/-- The loop `dados.riscos.forEach(...)` of `carregarDadosLocal`: every entry gets the
next id, is pushed and rendered; the flag tells that `renderizarRisco` threw. -/
def carregarRiscos (e : Estado) : List Risco → Estado × Bool
  | [] => (e, false)
  | risco :: resto =>
    let e1 := { e with contadorRiscos := e.contadorRiscos + 1 }
    let risco1 := { risco with id := e1.contadorRiscos }
    let e2 := { e1 with riscos := e1.riscos ++ [risco1] }
    match renderizarRisco e2 risco1 with
    | none => (e2, true)
    | some e3 => carregarRiscos e3 resto

/-- `carregarDadosLocal`, with the answer that would be given to the confirmation
dialog shown when there are unsaved changes.  Every exception raised after the storage
is read ends in the `catch` block, which shows the alert of the load error. -/
def carregarDadosLocal (ap : Aplicacao) (confirmado : Bool) : ResultadoApp :=
  if !ap.suporte then
    { app := ap, alerta := some "Seu navegador não suporta armazenamento local." }
  else
    match ap.item with
    | Armazenado.ausente => { app := ap, alerta := some "Nenhum dado salvo encontrado." }
    | Armazenado.malformado =>
      if ap.estado.dadosModificados && !confirmado then { app := ap, alerta := none }
      else
        { app := ap,
          alerta := some "Erro ao carregar dados.\n\nO arquivo pode estar corrompido." }
    | Armazenado.dados d =>
      if ap.estado.dadosModificados && !confirmado then { app := ap, alerta := none }
      else
        let formulario := preencherFormulario ap.formulario d.formulario
        let e1 := { ap.estado with corpoInventarioRiscos := [], riscos := [], contadorRiscos := 0 }
        match carregarRiscos e1 d.riscos with
        | (e2, true) =>
          { app := { ap with formulario := formulario, estado := e2 },
            alerta := some "Erro ao carregar dados.\n\nO arquivo pode estar corrompido." }
        | (e2, false) =>
          let r := atualizarEstatisticas e2
          if r.excecao then
            { app := { ap with formulario := formulario, estado := r.estado },
              alerta := some "Erro ao carregar dados.\n\nO arquivo pode estar corrompido." }
          else
            { app := { ap with
                formulario := formulario,
                estado := { r.estado with dadosModificados := false } },
              alerta := none }

/-- Code points that `String.prototype.trim` removes: the white space and the line
terminators of the language. -/
def espacoEmBranco (c : Char) : Bool :=
  c.toNat ∈ [0x0009, 0x000A, 0x000B, 0x000C, 0x000D, 0x0020, 0x00A0, 0x1680, 0x2000,
    0x2001, 0x2002, 0x2003, 0x2004, 0x2005, 0x2006, 0x2007, 0x2008, 0x2009, 0x200A,
    0x2028, 0x2029, 0x202F, 0x205F, 0x3000, 0xFEFF]

/-- `String.prototype.trim`. -/
def trim (s : String) : String :=
  String.mk (((s.toList.dropWhile espacoEmBranco).reverse.dropWhile espacoEmBranco).reverse)

/-- The array `camposObrigatorios` of `validarDadosMinimos`, each label with the value
of its field. -/
def camposObrigatorios (f : Formulario) : List (String × String) :=
  [(f.razaoSocial, "Razão Social"),
   (f.nomeObra, "Nome da Obra"),
   (f.enderecoObra, "Endereço da Obra"),
   (f.nomeResponsavel, "Nome do Responsável Técnico"),
   (f.creaResponsavel, "CREA do Responsável")]

/-- The array `camposFaltantes` after the loop of `validarDadosMinimos`: the labels of
the fields whose trimmed value is the empty string. -/
def camposFaltantes (f : Formulario) : List String :=
  (camposObrigatorios f).filterMap
    (fun campo => if trim campo.1 = "" then some campo.2 else none)

/-- `validarDadosMinimos`: the returned boolean and the alert shown, if any.  `gerarPDF`
returns at once when the boolean is `false`. -/
def validarDadosMinimos (ap : Aplicacao) : Bool × Option String :=
  if (camposFaltantes ap.formulario).length > 0 then
    (false, some ("Preencha os campos obrigatórios:\n\n• " ++
      "\n• ".intercalate (camposFaltantes ap.formulario)))
  else if ap.estado.riscos.length = 0 then
    (false, some "Adicione pelo menos um risco ao inventário antes de gerar o PDF.")
  else (true, none)

/-- The `nivel` of the classification recomputed for an entry, `none` when there is no
classification. -/
def nivelDoRisco (risco : Risco) : Option String :=
  (classificar risco.probabilidade risco.severidade).map (fun c => c.nivel)

/-- The entries as the loop of `carregarDadosLocal` numbers them: the ids that follow
`contador`, in the order of the list. -/
def renumerar (contador : Nat) : List Risco → List Risco
  | [] => []
  | risco :: resto => { risco with id := contador + 1 } :: renumerar (contador + 1) resto

/-- Whether the three selects of the row built for the entry show the entry's own
values: category, probability and severity are among the options. -/
def opcoesValidas (risco : Risco) : Bool :=
  valido risco && decide (risco.tipoRisco ∈ tiposRisco)

/-- Whether a text can be put into the markup of a row and read back from the textarea
as it was: no `<`, no `&`, no carriage return, no NUL, and no line feed in front. -/
def textoSimples (s : String) : Bool :=
  s.toList.all (fun c => decide (c.toNat ∉ [0, 13, 38, 60])) &&
  decide (s.toList.head? ≠ some (Char.ofNat 10))

/-- Whether the four texts of an entry are simple in this sense. -/
def textosSimples (risco : Risco) : Bool :=
  textoSimples risco.atividade && textoSimples risco.perigo &&
  textoSimples risco.fonte && textoSimples risco.consequencias

/-- A form with every field empty. -/
def formularioVazio : Formulario :=
  { razaoSocial := "", cnpj := "", nomeObra := "", enderecoObra := "", cnae := "",
    grauRisco := "", numTrabalhadores := "", nomeResponsavel := "", creaResponsavel := "",
    artResponsavel := "", dataElaboracao := "", dataRevisao := "", versaoDocumento := "" }

/-! ## Priorities, tiers and sessions -/

/-- The three values of `nivel` in `CLASSIFICACAO_RISCO`. -/
def niveis : List String := ["Baixo", "Médio", "Alto"]

/-- The class `classePrioridade` that `renderizarAcao` gives to the priority badge: one
class for each of three priority texts and `prioridade-monitoramento` for any other. -/
def classePrioridade (prioridade : String) : String :=
  if prioridade = "Imediata" then "prioridade-imediata"
  else if prioridade = "Urgente" then "prioridade-urgente"
  else if prioridade = "Programada" then "prioridade-programada"
  else "prioridade-monitoramento"

/-- Rank of a priority in the order Imediata > Urgente > Programada; 0 for any other
text. -/
def ordemPrioridade (prioridade : String) : Nat :=
  if prioridade = "Imediata" then 3
  else if prioridade = "Urgente" then 2
  else if prioridade = "Programada" then 1
  else 0

/-- An inventory that holds the given entries, each with the row built for it, and a
counter that has reached their number. -/
def estadoComRiscos (riscos : List Risco) : Estado :=
  { estadoInicial with
    riscos := riscos,
    contadorRiscos := riscos.length,
    corpoInventarioRiscos := riscos.map linhaDoRisco }

/-- An entry of category Ergonômico with probability Baixa and severity Leve (tier
Baixo), with the given id. -/
def riscoErgonomicoBaixo (id : Nat) : Risco :=
  { novoRisco id with
    atividade := "Digitação",
    perigo := "Postura inadequada",
    tipoRisco := "Ergonômico",
    probabilidade := "Baixa",
    severidade := "Leve" }

/-- Operations of a session: the operations on the inventory, plan generation, the end
of a photo read, saving and loading. -/
inductive OperacaoApp where
  | inventario (op : Operacao)
  | plano (confirmado : Bool)
  | foto (riscoId : Nat) (result : String)
  | salvar (agora : String) (gravado : Bool)
  | carregar (confirmado : Bool)
deriving DecidableEq, Repr

/-- Application after one operation of a session. -/
def executarApp (ap : Aplicacao) : OperacaoApp → Aplicacao
  | .inventario op => { ap with estado := executar ap.estado op }
  | .plano confirmado => { ap with estado := (gerarPlanoAcao ap.estado confirmado).estado }
  | .foto riscoId result => { ap with estado := (readerOnload ap.estado riscoId result).estado }
  | .salvar agora gravado => (salvarDadosLocal ap agora gravado).app
  | .carregar confirmado => (carregarDadosLocal ap confirmado).app

/-- Application after a sequence of operations of a session. -/
def executarTodasApp (ap : Aplicacao) (ops : List OperacaoApp) : Aplicacao :=
  ops.foldl executarApp ap

/-- Whether the operation is a load. -/
def ehCarga : OperacaoApp → Bool
  | .carregar _ => true
  | _ => false

/-- The application when the script is loaded, with a working storage that holds
nothing. -/
def aplicacaoInicial : Aplicacao :=
  { estado := estadoInicial, formulario := formularioVazio, suporte := true,
    item := Armazenado.ausente }

/-! ## Scoring and classification -/

theorem mem_probabilidades {p : String} :
    p ∈ probabilidades ↔ p = "Baixa" ∨ p = "Média" ∨ p = "Alta" := by
  simp [probabilidades]

theorem mem_severidades {s : String} :
    s ∈ severidades ↔ s = "Leve" ∨ s = "Moderada" ∨ s = "Grave" ∨ s = "Fatal" := by
  simp [severidades]

theorem MATRIZ_PROBABILIDADE_eq_some {p : String} {a : Nat} (h : MATRIZ_PROBABILIDADE p = some a) :
    p ∈ probabilidades ∧ 1 ≤ a ∧ a ≤ 3 := by
  unfold MATRIZ_PROBABILIDADE at h
  rw [mem_probabilidades]
  split_ifs at h with h1 h2 h3 <;> simp at h <;> subst h <;> simp [*]

theorem MATRIZ_SEVERIDADE_eq_some {s : String} {b : Nat} (h : MATRIZ_SEVERIDADE s = some b) :
    s ∈ severidades ∧ 1 ≤ b ∧ b ≤ 4 := by
  unfold MATRIZ_SEVERIDADE at h
  rw [mem_severidades]
  split_ifs at h with h1 h2 h3 h4 <;> simp at h <;> subst h <;> simp [*]

theorem valorRisco_eq_some {p s : String} {v : Nat} (h : valorRisco p s = some v) :
    ∃ a b, MATRIZ_PROBABILIDADE p = some a ∧ MATRIZ_SEVERIDADE s = some b ∧ v = a * b := by
  unfold valorRisco at h
  split at h
  · rename_i a b ha hb
    exact ⟨a, b, ha, hb, by simpa using h.symm⟩
  · simp at h

theorem classificar_some_of_mem {p s : String} (hp : p ∈ probabilidades) (hs : s ∈ severidades) :
    ∃ c, classificar p s = some c ∧ (c.nivel = "Baixo" ∨ c.nivel = "Médio" ∨ c.nivel = "Alto") := by
  rw [mem_probabilidades] at hp
  rw [mem_severidades] at hs
  rcases hp with rfl | rfl | rfl <;> rcases hs with rfl | rfl | rfl | rfl <;>
    exact ⟨_, rfl, by decide⟩

/-- C1: for every probability among Baixa, Média, Alta and every severity among Leve,
Moderada, Grave, Fatal the lookup `CLASSIFICACAO_RISCO[MATRIZ_PROBABILIDADE[p] *
MATRIZ_SEVERIDADE[s]]` is defined, its `nivel` is one of Baixo, Médio, Alto, and two
entries that agree on probability and severity get the same classification whatever
their other fields. -/
theorem classificar_definida (p s : String) (hp : p ∈ probabilidades) (hs : s ∈ severidades) :
    (∃ c, classificar p s = some c ∧ (c.nivel = "Baixo" ∨ c.nivel = "Médio" ∨ c.nivel = "Alto")) ∧
    ∀ r₁ r₂ : Risco, r₁.probabilidade = p → r₁.severidade = s →
      r₂.probabilidade = p → r₂.severidade = s →
      classificar r₁.probabilidade r₁.severidade = classificar r₂.probabilidade r₂.severidade := by
  exact ⟨classificar_some_of_mem hp hs, fun r₁ r₂ h1 h2 h3 h4 => by rw [h1, h2, h3, h4]⟩

/-- Instance of C1 at probability Alta and severity Fatal. -/
theorem classificar_definida_witness :
    ∃ c, classificar "Alta" "Fatal" = some c ∧
      (c.nivel = "Baixo" ∨ c.nivel = "Médio" ∨ c.nivel = "Alto") :=
  (classificar_definida "Alta" "Fatal" (by decide) (by decide)).1

/-- C2: for every probability and severity of the enumerations the tier is Baixo when
the score is 1 or 2, Médio when it is 3, 4 or 6 and Alto when it is 8, 9 or 12; the six
pairs named by the specification get the stated tiers. -/
theorem classificar_tabela (p s : String) (hp : p ∈ probabilidades) (hs : s ∈ severidades) :
    (∃ v c, valorRisco p s = some v ∧ classificar p s = some c ∧
      (((v = 1 ∨ v = 2) ∧ c.nivel = "Baixo") ∨
       ((v = 3 ∨ v = 4 ∨ v = 6) ∧ c.nivel = "Médio") ∨
       ((v = 8 ∨ v = 9 ∨ v = 12) ∧ c.nivel = "Alto"))) ∧
    (valorRisco "Alta" "Fatal" = some 12 ∧
      (classificar "Alta" "Fatal").map (fun c => c.nivel) = some "Alto") ∧
    (valorRisco "Baixa" "Leve" = some 1 ∧
      (classificar "Baixa" "Leve").map (fun c => c.nivel) = some "Baixo") ∧
    (valorRisco "Média" "Moderada" = some 4 ∧
      (classificar "Média" "Moderada").map (fun c => c.nivel) = some "Médio") ∧
    (valorRisco "Alta" "Leve" = some 3 ∧
      (classificar "Alta" "Leve").map (fun c => c.nivel) = some "Médio") ∧
    (valorRisco "Média" "Grave" = some 6 ∧
      (classificar "Média" "Grave").map (fun c => c.nivel) = some "Médio") ∧
    (valorRisco "Alta" "Grave" = some 9 ∧
      (classificar "Alta" "Grave").map (fun c => c.nivel) = some "Alto") := by
  refine ⟨?_, by decide, by decide, by decide, by decide, by decide, by decide⟩
  rw [mem_probabilidades] at hp
  rw [mem_severidades] at hs
  rcases hp with rfl | rfl | rfl <;> rcases hs with rfl | rfl | rfl | rfl <;>
    exact ⟨_, _, rfl, rfl, by decide⟩

/-- Instance of C2 at probability Baixa and severity Moderada (score 2, tier Baixo). -/
theorem classificar_tabela_witness :
    ∃ v c, valorRisco "Baixa" "Moderada" = some v ∧ classificar "Baixa" "Moderada" = some c ∧
      (((v = 1 ∨ v = 2) ∧ c.nivel = "Baixo") ∨
       ((v = 3 ∨ v = 4 ∨ v = 6) ∧ c.nivel = "Médio") ∨
       ((v = 8 ∨ v = 9 ∨ v = 12) ∧ c.nivel = "Alto")) :=
  (classificar_tabela "Baixa" "Moderada" (by decide) (by decide)).1

/-- C3: the ordinals are Baixa=1, Média=2, Alta=3 and Leve=1, Moderada=2, Grave=3,
Fatal=4; the score is their product; the scores of the 12 combinations are exactly
1, 2, 3, 4, 6, 8, 9, 12; every score lies in 1..12 and is none of 5, 7, 10, 11. -/
theorem valorRisco_produto :
    (MATRIZ_PROBABILIDADE "Baixa" = some 1 ∧ MATRIZ_PROBABILIDADE "Média" = some 2 ∧
      MATRIZ_PROBABILIDADE "Alta" = some 3) ∧
    (MATRIZ_SEVERIDADE "Leve" = some 1 ∧ MATRIZ_SEVERIDADE "Moderada" = some 2 ∧
      MATRIZ_SEVERIDADE "Grave" = some 3 ∧ MATRIZ_SEVERIDADE "Fatal" = some 4) ∧
    (∀ p s a b, MATRIZ_PROBABILIDADE p = some a → MATRIZ_SEVERIDADE s = some b →
      valorRisco p s = some (a * b)) ∧
    (∀ v, (∃ p ∈ probabilidades, ∃ s ∈ severidades, valorRisco p s = some v) ↔
      v ∈ [1, 2, 3, 4, 6, 8, 9, 12]) ∧
    (∀ p s v, valorRisco p s = some v →
      1 ≤ v ∧ v ≤ 12 ∧ v ≠ 5 ∧ v ≠ 7 ∧ v ≠ 10 ∧ v ≠ 11) := by
  refine ⟨by decide, by decide, ?_, ?_, ?_⟩
  · intro p s a b ha hb
    simp [valorRisco, ha, hb]
  · intro v
    constructor
    · rintro ⟨p, hp, s, hs, h⟩
      rw [mem_probabilidades] at hp
      rw [mem_severidades] at hs
      rcases hp with rfl | rfl | rfl <;> rcases hs with rfl | rfl | rfl | rfl <;>
        · have h' : _ = v := Option.some.inj h
          subst h'
          decide
    · intro hv
      simp only [List.mem_cons, List.mem_singleton, List.not_mem_nil, or_false] at hv
      rcases hv with rfl | rfl | rfl | rfl | rfl | rfl | rfl | rfl
      · exact ⟨"Baixa", by decide, "Leve", by decide, by decide⟩
      · exact ⟨"Baixa", by decide, "Moderada", by decide, by decide⟩
      · exact ⟨"Baixa", by decide, "Grave", by decide, by decide⟩
      · exact ⟨"Baixa", by decide, "Fatal", by decide, by decide⟩
      · exact ⟨"Média", by decide, "Grave", by decide, by decide⟩
      · exact ⟨"Média", by decide, "Fatal", by decide, by decide⟩
      · exact ⟨"Alta", by decide, "Grave", by decide, by decide⟩
      · exact ⟨"Alta", by decide, "Fatal", by decide, by decide⟩
  · intro p s v h
    obtain ⟨a, b, ha, hb, rfl⟩ := valorRisco_eq_some h
    obtain ⟨-, ha1, ha3⟩ := MATRIZ_PROBABILIDADE_eq_some ha
    obtain ⟨-, hb1, hb4⟩ := MATRIZ_SEVERIDADE_eq_some hb
    interval_cases a <;> interval_cases b <;> decide

/-- Instance of C3: the score of (Alta, Grave) is the product 3 * 3 and lies in 1..12. -/
theorem valorRisco_produto_witness :
    valorRisco "Alta" "Grave" = some (3 * 3) ∧ 1 ≤ 9 ∧ 9 ≤ 12 :=
  ⟨valorRisco_produto.2.2.1 "Alta" "Grave" 3 3 (by decide) (by decide),
   (valorRisco_produto.2.2.2.2 "Alta" "Grave" 9 (by decide)).1,
   (valorRisco_produto.2.2.2.2 "Alta" "Grave" 9 (by decide)).2.1⟩

/-! ## Ordering of the inventory -/

theorem valorRisco_of_valido {r : Risco} (h : valido r = true) :
    valorRisco r.probabilidade r.severidade = some (pontuacao r) ∧ 1 ≤ pontuacao r := by
  simp only [valido, Bool.and_eq_true, decide_eq_true_eq] at h
  obtain ⟨hp, hs⟩ := h
  rw [mem_probabilidades] at hp
  rw [mem_severidades] at hs
  unfold pontuacao
  rcases hp with hp | hp | hp <;> rcases hs with hs | hs | hs | hs <;>
    · rw [hp, hs]
      decide

theorem valido_of_valorRisco {r : Risco} {v : Nat}
    (h : valorRisco r.probabilidade r.severidade = some v) : valido r = true := by
  obtain ⟨a, b, ha, hb, -⟩ := valorRisco_eq_some h
  simp [valido, (MATRIZ_PROBABILIDADE_eq_some ha).1, (MATRIZ_SEVERIDADE_eq_some hb).1]

theorem compararRiscos_le_iff {a b : Risco} (ha : valido a = true) (hb : valido b = true) :
    compararRiscos a b ≤ 0 ↔ pontuacao b ≤ pontuacao a := by
  unfold compararRiscos
  rw [(valorRisco_of_valido ha).1, (valorRisco_of_valido hb).1]
  simp only
  omega

theorem orderedInsert_congr {α : Type} (r r' : α → α → Prop) [DecidableRel r] [DecidableRel r']
    (a : α) (l : List α) (h : ∀ b ∈ l, r a b ↔ r' a b) :
    l.orderedInsert r a = l.orderedInsert r' a := by
  induction l with
  | nil => rfl
  | cons b l ih =>
    have hb : r a b ↔ r' a b := h b (List.mem_cons_self _ _)
    have ih' := ih (fun c hc => h c (List.mem_cons_of_mem _ hc))
    by_cases hr : r a b
    · simp [List.orderedInsert, hr, hb.mp hr]
    · have hr' : ¬ r' a b := fun h' => hr (hb.mpr h')
      simp [List.orderedInsert, hr, hr', ih']

theorem insertionSort_congr {α : Type} (r r' : α → α → Prop) [DecidableRel r] [DecidableRel r']
    (l : List α) (h : ∀ a ∈ l, ∀ b ∈ l, r a b ↔ r' a b) :
    l.insertionSort r = l.insertionSort r' := by
  induction l with
  | nil => rfl
  | cons a l ih =>
    have ih' := ih (fun x hx y hy => h x (List.mem_cons_of_mem _ hx) y (List.mem_cons_of_mem _ hy))
    simp only [List.insertionSort]
    rw [ih']
    apply orderedInsert_congr
    intro b hb
    have hb' : b ∈ l := ((List.perm_insertionSort r' l).mem_iff).mp hb
    exact h a (List.mem_cons_self _ _) b (List.mem_cons_of_mem _ hb')

theorem sort_eq_of_forall {α : Type} (f : α → Nat) (cmp : α → α → Int) (l : List α)
    (h : ∀ a ∈ l, ∀ b ∈ l, cmp a b ≤ 0 ↔ f b ≤ f a) :
    sort cmp l = l.insertionSort (fun a b => f b ≤ f a) :=
  insertionSort_congr _ _ l h

theorem pairwise_insertionSort_key {α : Type} (f : α → Nat) (l : List α) :
    (l.insertionSort (fun a b => f b ≤ f a)).Pairwise (fun a b => f b ≤ f a) := by
  haveI : IsTotal α (fun a b => f b ≤ f a) := ⟨fun a b => le_total (f b) (f a)⟩
  haveI : IsTrans α (fun a b => f b ≤ f a) := ⟨fun a b c hab hbc => le_trans hbc hab⟩
  exact List.sorted_insertionSort (fun a b => f b ≤ f a) l

theorem filter_insertionSort_key {α : Type} (f : α → Nat) (l : List α) (v : Nat) :
    (l.insertionSort (fun a b => f b ≤ f a)).filter (fun a => f a == v) =
      l.filter (fun a => f a == v) := by
  have hpw : (l.filter (fun a => f a == v)).Pairwise (fun a b => f b ≤ f a) := by
    rw [List.pairwise_iff_forall_sublist]
    intro a b hab
    have ha : a ∈ l.filter (fun a => f a == v) := hab.subset (by simp)
    have hb : b ∈ l.filter (fun a => f a == v) := hab.subset (by simp)
    simp only [List.mem_filter, beq_iff_eq] at ha hb
    omega
  have hsub : (l.filter (fun a => f a == v)).Sublist (l.insertionSort (fun a b => f b ≤ f a)) :=
    List.sublist_insertionSort hpw (List.filter_sublist l)
  have hsub' := hsub.filter (fun a => f a == v)
  rw [List.filter_filter] at hsub'
  simp only [Bool.and_self] at hsub'
  have hlen : (l.filter (fun a => f a == v)).length =
      ((l.insertionSort (fun a b => f b ≤ f a)).filter (fun a => f a == v)).length :=
    ((List.perm_insertionSort (fun a b => f b ≤ f a) l).filter _).length_eq.symm
  exact (hsub'.eq_of_length hlen).symm

theorem riscosOrdenados_perm (riscos : List Risco) : (riscosOrdenados riscos).Perm riscos :=
  List.perm_insertionSort _ _

/-- C4: the ordering step of `gerarPlanoAcao` returns a permutation of the inventory; when
the entries hold values of the two enumerations, the scores of the result are
non-increasing and the sort is stable: for every score, the entries with that score
appear in the order they have in the inventory, and an entry placed before another one
with the same score still precedes it in the result. -/
theorem riscosOrdenados_estavel (riscos : List Risco) :
    (riscosOrdenados riscos).Perm riscos ∧
    ((∀ r ∈ riscos, valido r = true) →
      (riscosOrdenados riscos).Pairwise (fun a b => pontuacao b ≤ pontuacao a) ∧
      (∀ v, (riscosOrdenados riscos).filter (fun r => pontuacao r == v) =
        riscos.filter (fun r => pontuacao r == v)) ∧
      (∀ a b, pontuacao a = pontuacao b → [a, b].Sublist riscos →
        [a, b].Sublist (riscosOrdenados riscos))) := by
  refine ⟨riscosOrdenados_perm riscos, fun hv => ?_⟩
  have heq : riscosOrdenados riscos = riscos.insertionSort (fun a b => pontuacao b ≤ pontuacao a) :=
    sort_eq_of_forall pontuacao compararRiscos riscos
      (fun a ha b hb => compararRiscos_le_iff (hv a ha) (hv b hb))
  rw [heq]
  refine ⟨pairwise_insertionSort_key pontuacao riscos, filter_insertionSort_key pontuacao riscos, ?_⟩
  intro a b hab hsub
  exact List.pair_sublist_insertionSort (le_of_eq hab.symm) hsub

/-- Instance of C4: A (score 4) was inserted before B (score 4) and C (score 12) last;
the sorted list is C, A, B, so A still precedes B. -/
theorem riscosOrdenados_estavel_witness :
    riscosOrdenados
      [{ novoRisco 1 with atividade := "A" },
       { novoRisco 2 with atividade := "B", probabilidade := "Baixa", severidade := "Fatal" },
       riscoExemplo 3] =
      [riscoExemplo 3,
       { novoRisco 1 with atividade := "A" },
       { novoRisco 2 with atividade := "B", probabilidade := "Baixa", severidade := "Fatal" }] ∧
    [{ novoRisco 1 with atividade := "A" },
     { novoRisco 2 with atividade := "B", probabilidade := "Baixa", severidade := "Fatal" }].Sublist
      (riscosOrdenados
        [{ novoRisco 1 with atividade := "A" },
         { novoRisco 2 with atividade := "B", probabilidade := "Baixa", severidade := "Fatal" },
         riscoExemplo 3]) :=
  ⟨by decide,
   ((riscosOrdenados_estavel _).2 (by decide)).2.2 _ _ (by decide)
     (List.Sublist.cons₂ _ (List.Sublist.cons₂ _ (List.nil_sublist _)))⟩

/-! ## Action items -/

/-- C5: `gerarAcaoParaRisco` gives priority Imediata and deadline 24-48 horas for tier
Alto, Urgente and 7-15 dias corridos for tier Médio, Programada and 30-60 dias corridos
for tier Baixo; priority and deadline are the same for any two calls whose
classifications have the same tier, whatever the entries. -/
theorem gerarAcaoParaRisco_prioridade_prazo (risco : Risco) (classificacao : Classificacao) :
    (classificacao.nivel = "Alto" →
      (gerarAcaoParaRisco risco classificacao).prioridade = "Imediata" ∧
      (gerarAcaoParaRisco risco classificacao).prazo = "24-48 horas") ∧
    (classificacao.nivel = "Médio" →
      (gerarAcaoParaRisco risco classificacao).prioridade = "Urgente" ∧
      (gerarAcaoParaRisco risco classificacao).prazo = "7-15 dias corridos") ∧
    (classificacao.nivel = "Baixo" →
      (gerarAcaoParaRisco risco classificacao).prioridade = "Programada" ∧
      (gerarAcaoParaRisco risco classificacao).prazo = "30-60 dias corridos") ∧
    (∀ (risco' : Risco) (classificacao' : Classificacao),
      classificacao'.nivel = classificacao.nivel →
      (gerarAcaoParaRisco risco' classificacao').prioridade =
        (gerarAcaoParaRisco risco classificacao).prioridade ∧
      (gerarAcaoParaRisco risco' classificacao').prazo =
        (gerarAcaoParaRisco risco classificacao).prazo) := by
  refine ⟨fun h => ?_, fun h => ?_, fun h => ?_, fun risco' classificacao' h => ?_⟩
  · simp [gerarAcaoParaRisco, h]
  · simp [gerarAcaoParaRisco, h]
  · simp [gerarAcaoParaRisco, h]
  · unfold gerarAcaoParaRisco
    rw [h]
    split_ifs <;> simp

/-- Instance of C5: the example entry (Alta, Fatal) has tier Alto and its item is
Imediata with deadline 24-48 horas. -/
theorem gerarAcaoParaRisco_prioridade_prazo_witness :
    (gerarAcaoParaRisco (riscoExemplo 1)
      { nivel := "Alto", classe := "alto", cor := "#ef4444" }).prioridade = "Imediata" ∧
    (gerarAcaoParaRisco (riscoExemplo 1)
      { nivel := "Alto", classe := "alto", cor := "#ef4444" }).prazo = "24-48 horas" :=
  (gerarAcaoParaRisco_prioridade_prazo (riscoExemplo 1)
    { nivel := "Alto", classe := "alto", cor := "#ef4444" }).1 rfl

/-! ## Plan generation on an empty inventory -/

/-- C7: on an empty risk list `gerarPlanoAcao` is rejected with the alert of the empty
inventory; no exception is raised and the whole state (`riscos`, `contadorRiscos`,
`planoAcaoGerado`, `dadosModificados`, the inventory rows, the rendered plan and the
panel) is the one it started from. -/
theorem gerarPlanoAcao_vazio (e : Estado) (confirmado : Bool) (h : e.riscos = []) :
    (gerarPlanoAcao e confirmado).estado = e ∧
    (gerarPlanoAcao e confirmado).alerta =
      some "Não há riscos cadastrados.\n\nAdicione pelo menos um risco ao inventário antes de gerar o plano de ação." ∧
    (gerarPlanoAcao e confirmado).excecao = false := by
  simp [gerarPlanoAcao, h]

/-- Instance of C7: an empty inventory that still shows a plan row keeps that row. -/
theorem gerarPlanoAcao_vazio_witness :
    (gerarPlanoAcao
      { estadoInicial with
        planoAcaoGerado := true,
        corpoPlanoAcao := [gerarAcaoParaRisco (riscoExemplo 1)
          { nivel := "Alto", classe := "alto", cor := "#ef4444" }] } true).estado =
      { estadoInicial with
        planoAcaoGerado := true,
        corpoPlanoAcao := [gerarAcaoParaRisco (riscoExemplo 1)
          { nivel := "Alto", classe := "alto", cor := "#ef4444" }] } :=
  (gerarPlanoAcao_vazio _ true rfl).1

/-! ## Updates addressed to an id that is not in the store -/

theorem alterarPrimeiro_of_forall_not {α : Type} (p : α → Bool) (f : α → α) (l : List α)
    (h : ∀ a ∈ l, p a = false) : alterarPrimeiro p f l = l := by
  induction l with
  | nil => rfl
  | cons a l ih =>
    have ha : p a = false := h a (List.mem_cons_self _ _)
    simp [alterarPrimeiro, ha, ih (fun b hb => h b (List.mem_cons_of_mem _ hb))]

/-- C10: when no stored entry has the id, `salvarAlteracoesRisco(id, tr)` returns the
state it was given, and `recalcularNivelRisco(id, tr)` leaves the state as it was too;
`salvarAlteracoesRisco` cannot raise, and `recalcularNivelRisco` raises nothing when
the two selects of the row hold values of their enumerations. -/
theorem atualizar_id_ausente (e : Estado) (riscoId : Nat) (tr : Linha)
    (h : ∀ r ∈ e.riscos, r.id ≠ riscoId) :
    salvarAlteracoesRisco e riscoId tr = e ∧
    (recalcularNivelRisco e riscoId tr).estado = e ∧
    (tr.probabilidade ∈ probabilidades → tr.severidade ∈ severidades →
      (recalcularNivelRisco e riscoId tr).excecao = false) := by
  have hnone : ∀ r ∈ e.riscos, (fun r : Risco => r.id == riscoId) r = false := by
    intro r hr
    simpa using h r hr
  refine ⟨?_, ?_, ?_⟩
  · unfold salvarAlteracoesRisco
    rw [alterarPrimeiro_of_forall_not _ _ _ hnone]
  · unfold recalcularNivelRisco
    split
    · rfl
    · simp only
      rw [alterarPrimeiro_of_forall_not _ _ _ hnone]
  · intro hp hs
    obtain ⟨c, hc, -⟩ := classificar_some_of_mem hp hs
    simp [recalcularNivelRisco, hc]

/-- Instance of C10: the store holds the example entry with id 1; an update addressed
to id 7 changes nothing. -/
theorem atualizar_id_ausente_witness :
    salvarAlteracoesRisco (adicionarRiscoExemplo estadoInicial).estado 7
        (linhaDoRisco (novoRisco 7)) = (adicionarRiscoExemplo estadoInicial).estado ∧
    (recalcularNivelRisco (adicionarRiscoExemplo estadoInicial).estado 7
        (linhaDoRisco (novoRisco 7))).estado = (adicionarRiscoExemplo estadoInicial).estado :=
  ⟨(atualizar_id_ausente _ 7 _ (by decide)).1, (atualizar_id_ausente _ 7 _ (by decide)).2.1⟩

/-! ## Refreshing the entries from the rows -/

theorem alterarPrimeiro_map {α β : Type} (p : α → Bool) (f : α → α) (g : α → β)
    (hg : ∀ a, g (f a) = g a) (l : List α) : (alterarPrimeiro p f l).map g = l.map g := by
  induction l with
  | nil => rfl
  | cons a l ih =>
    by_cases ha : p a = true
    · simp [alterarPrimeiro, ha, hg]
    · simp [alterarPrimeiro, ha, ih]

theorem alterarPrimeiro_eq_self {α : Type} (p : α → Bool) (f : α → α) (l : List α)
    (h : ∀ a, l.find? p = some a → f a = a) : alterarPrimeiro p f l = l := by
  induction l with
  | nil => rfl
  | cons a l ih =>
    by_cases ha : p a = true
    · have : f a = a := h a (by simp [List.find?, ha])
      simp [alterarPrimeiro, ha, this]
    · have ih' := ih (fun b hb => h b (by simpa [List.find?, ha] using hb))
      simp [alterarPrimeiro, ha, ih']

theorem alterarPrimeiro_idem {α : Type} (p : α → Bool) (f : α → α)
    (hp : ∀ a, p (f a) = p a) (hf : ∀ a, f (f a) = f a) (l : List α) :
    alterarPrimeiro p f (alterarPrimeiro p f l) = alterarPrimeiro p f l := by
  induction l with
  | nil => rfl
  | cons a l ih =>
    by_cases ha : p a = true
    · simp [alterarPrimeiro, ha, hp, hf]
    · simp [alterarPrimeiro, ha, ih]

theorem alterarPrimeiro_comm {α : Type} (p q : α → Bool) (f g : α → α)
    (hpq : ∀ a, p a = true → q a = false)
    (hpg : ∀ a, p (g a) = p a) (hqf : ∀ a, q (f a) = q a) (l : List α) :
    alterarPrimeiro p f (alterarPrimeiro q g l) = alterarPrimeiro q g (alterarPrimeiro p f l) := by
  induction l with
  | nil => rfl
  | cons a l ih =>
    by_cases ha : p a = true
    · have hq : q a = false := hpq a ha
      simp [alterarPrimeiro, ha, hq, hqf]
    · by_cases hq : q a = true
      · simp [alterarPrimeiro, ha, hq, hpg]
      · simp [alterarPrimeiro, ha, hq, ih]

theorem salvarCampos_id (tr : Linha) (r : Risco) : (salvarCampos tr r).id = r.id := rfl

theorem salvarCampos_idem (tr : Linha) (r : Risco) :
    salvarCampos tr (salvarCampos tr r) = salvarCampos tr r := rfl

theorem sincronizarRisco_eq (e : Estado) (id : Nat) :
    sincronizarRisco e id = { e with riscos := (sincronizarRisco e id).riscos } := by
  unfold sincronizarRisco
  split <;> rfl

theorem sincronizarRisco_linhas (e : Estado) (id : Nat) :
    (sincronizarRisco e id).corpoInventarioRiscos = e.corpoInventarioRiscos := by
  rw [sincronizarRisco_eq]

theorem sincronizarRisco_ids (e : Estado) (id : Nat) :
    (sincronizarRisco e id).riscos.map (fun r => r.id) = e.riscos.map (fun r => r.id) := by
  unfold sincronizarRisco
  split
  · exact alterarPrimeiro_map _ _ _ (salvarCampos_id _) _
  · rfl

theorem sincronizarRisco_idem (e : Estado) (a : Nat) :
    sincronizarRisco (sincronizarRisco e a) a = sincronizarRisco e a := by
  unfold sincronizarRisco
  cases h : querySelector e.corpoInventarioRiscos a with
  | none => simp [h]
  | some tr =>
    simp only [salvarAlteracoesRisco, h]
    rw [alterarPrimeiro_idem _ _ (fun r => by simp [salvarCampos_id]) (salvarCampos_idem tr)]

theorem sincronizarRisco_comm (e : Estado) (a b : Nat) :
    sincronizarRisco (sincronizarRisco e a) b = sincronizarRisco (sincronizarRisco e b) a := by
  by_cases hab : a = b
  · rw [hab]
  unfold sincronizarRisco
  cases ha : querySelector e.corpoInventarioRiscos a with
  | none =>
    cases hb : querySelector e.corpoInventarioRiscos b with
    | none => simp [ha, hb]
    | some trb => simp [ha, hb, salvarAlteracoesRisco]
  | some tra =>
    cases hb : querySelector e.corpoInventarioRiscos b with
    | none => simp [ha, hb, salvarAlteracoesRisco]
    | some trb =>
      simp only [salvarAlteracoesRisco, ha, hb]
      rw [alterarPrimeiro_comm (fun r : Risco => r.id == b) (fun r : Risco => r.id == a)]
      · intro r hr
        have : r.id = b := by simpa using hr
        simp [this]
        exact fun h => hab h.symm
      · intro r
        simp [salvarCampos_id]
      · intro r
        simp [salvarCampos_id]

theorem foldl_comm_step {σ ι : Type} (f : σ → ι → σ)
    (hcomm : ∀ s a b, f (f s a) b = f (f s b) a) (l : List ι) (s : σ) (a : ι) :
    f (l.foldl f s) a = l.foldl f (f s a) := by
  induction l generalizing s with
  | nil => rfl
  | cons b l ih =>
    simp only [List.foldl_cons]
    rw [ih, hcomm]

theorem foldl_idem {σ ι : Type} (f : σ → ι → σ)
    (hcomm : ∀ s a b, f (f s a) b = f (f s b) a) (hidem : ∀ s a, f (f s a) a = f s a)
    (l : List ι) (s : σ) : l.foldl f (l.foldl f s) = l.foldl f s := by
  induction l generalizing s with
  | nil => rfl
  | cons a l ih =>
    simp only [List.foldl_cons]
    rw [foldl_comm_step f hcomm, hidem, ih]

theorem exceto_riscos_trans {e₁ e₂ e₃ : Estado} (h₁₂ : e₂ = { e₁ with riscos := e₂.riscos })
    (h₂₃ : e₃ = { e₂ with riscos := e₃.riscos }) : e₃ = { e₁ with riscos := e₃.riscos } := by
  cases e₁
  cases e₂
  cases e₃
  simp_all

theorem foldl_sincronizarRisco_eq (ids : List Nat) (e : Estado) :
    ids.foldl sincronizarRisco e =
      { e with riscos := (ids.foldl sincronizarRisco e).riscos } ∧
    (ids.foldl sincronizarRisco e).riscos.map (fun r => r.id) = e.riscos.map (fun r => r.id) := by
  induction ids generalizing e with
  | nil => exact ⟨rfl, rfl⟩
  | cons a ids ih =>
    simp only [List.foldl_cons]
    obtain ⟨h1, h2⟩ := ih (sincronizarRisco e a)
    exact ⟨exceto_riscos_trans (sincronizarRisco_eq e a) h1, by rw [h2, sincronizarRisco_ids]⟩

theorem sincronizarRiscos_eq (e : Estado) :
    sincronizarRiscos e = { e with riscos := (sincronizarRiscos e).riscos } :=
  (foldl_sincronizarRisco_eq _ e).1

theorem sincronizarRiscos_ids (e : Estado) :
    (sincronizarRiscos e).riscos.map (fun r => r.id) = e.riscos.map (fun r => r.id) :=
  (foldl_sincronizarRisco_eq _ e).2

theorem sincronizarRiscos_length (e : Estado) :
    (sincronizarRiscos e).riscos.length = e.riscos.length := by
  have h := congrArg List.length (sincronizarRiscos_ids e)
  simpa using h

theorem sincronizarRiscos_idem (e : Estado) :
    sincronizarRiscos (sincronizarRiscos e) = sincronizarRiscos e := by
  unfold sincronizarRiscos
  rw [(foldl_sincronizarRisco_eq _ e).2]
  exact foldl_idem sincronizarRisco sincronizarRisco_comm sincronizarRisco_idem _ e

theorem sincronizarRisco_congr (e e' : Estado) (a : Nat) (hr : e.riscos = e'.riscos)
    (hl : e.corpoInventarioRiscos = e'.corpoInventarioRiscos) :
    (sincronizarRisco e a).riscos = (sincronizarRisco e' a).riscos := by
  unfold sincronizarRisco
  rw [← hl]
  cases querySelector e.corpoInventarioRiscos a with
  | none => exact hr
  | some tr => simp [salvarAlteracoesRisco, hr]

theorem foldl_sincronizarRisco_congr (ids : List Nat) (e e' : Estado) (hr : e.riscos = e'.riscos)
    (hl : e.corpoInventarioRiscos = e'.corpoInventarioRiscos) :
    (ids.foldl sincronizarRisco e).riscos = (ids.foldl sincronizarRisco e').riscos := by
  induction ids generalizing e e' with
  | nil => exact hr
  | cons a ids ih =>
    simp only [List.foldl_cons]
    apply ih
    · exact sincronizarRisco_congr e e' a hr hl
    · rw [sincronizarRisco_linhas, sincronizarRisco_linhas, hl]

theorem sincronizarRiscos_congr (e e' : Estado) (hr : e.riscos = e'.riscos)
    (hl : e.corpoInventarioRiscos = e'.corpoInventarioRiscos) :
    (sincronizarRiscos e).riscos = (sincronizarRiscos e').riscos := by
  unfold sincronizarRiscos
  rw [← hr]
  exact foldl_sincronizarRisco_congr _ e e' hr hl

theorem sincronizarRiscos_riscos_idem (e : Estado) :
    (sincronizarRiscos { e with riscos := (sincronizarRiscos e).riscos }).riscos =
      (sincronizarRiscos e).riscos := by
  rw [← sincronizarRiscos_eq, sincronizarRiscos_idem]

/-! ## Plan generation -/

theorem acaoDoRisco_of_valido {r : Risco} (h : valido r = true) :
    ∃ acao, acaoDoRisco r = some acao := by
  simp only [valido, Bool.and_eq_true, decide_eq_true_eq] at h
  obtain ⟨c, hc, -⟩ := classificar_some_of_mem h.1 h.2
  exact ⟨gerarAcaoParaRisco r c, by simp [acaoDoRisco, hc]⟩

theorem renderizarAcoes_of_valido (l : List Risco) (corpo : List Acao)
    (h : ∀ r ∈ l, valido r = true) :
    renderizarAcoes corpo l = (corpo ++ l.filterMap acaoDoRisco, false) := by
  induction l generalizing corpo with
  | nil => simp [renderizarAcoes]
  | cons r l ih =>
    obtain ⟨acao, hacao⟩ := acaoDoRisco_of_valido (h r (List.mem_cons_self _ _))
    simp only [renderizarAcoes, hacao]
    rw [ih _ (fun x hx => h x (List.mem_cons_of_mem _ hx))]
    simp [List.filterMap_cons, hacao]

theorem map_some_filterMap_acaoDoRisco (l : List Risco) (h : ∀ r ∈ l, valido r = true) :
    (l.filterMap acaoDoRisco).map some = l.map acaoDoRisco := by
  induction l with
  | nil => rfl
  | cons r l ih =>
    obtain ⟨acao, hacao⟩ := acaoDoRisco_of_valido (h r (List.mem_cons_self _ _))
    simp [List.filterMap_cons, hacao, ih (fun x hx => h x (List.mem_cons_of_mem _ hx))]

theorem gerarPlanoAcao_eq (e : Estado) (confirmado : Bool) (hne : e.riscos ≠ [])
    (hconf : e.planoAcaoGerado = true → confirmado = true)
    (hval : ∀ r ∈ (sincronizarRiscos e).riscos, valido r = true) :
    gerarPlanoAcao e confirmado =
      { estado := { e with
          riscos := (sincronizarRiscos e).riscos,
          corpoPlanoAcao := (riscosOrdenados (sincronizarRiscos e).riscos).filterMap acaoDoRisco,
          planoAcaoGerado := true },
        alerta := none, excecao := false } := by
  have hlen : ¬ e.riscos.length = 0 := by
    simpa [List.length_eq_zero] using hne
  have hguard : (e.planoAcaoGerado && !confirmado) = false := by
    cases hp : e.planoAcaoGerado
    · rfl
    · simp [hconf hp]
  have hrs : (sincronizarRiscos { e with corpoPlanoAcao := [] }).riscos =
      (sincronizarRiscos e).riscos := sincronizarRiscos_congr _ _ rfl rfl
  have hsync : sincronizarRiscos { e with corpoPlanoAcao := [] } =
      { e with corpoPlanoAcao := [], riscos := (sincronizarRiscos e).riscos } := by
    rw [sincronizarRiscos_eq { e with corpoPlanoAcao := [] }, hrs]
  have hvalo : ∀ r ∈ riscosOrdenados (sincronizarRiscos e).riscos, valido r = true := by
    intro r hr
    exact hval r (((riscosOrdenados_perm _).mem_iff).mp hr)
  unfold gerarPlanoAcao
  rw [if_neg hlen, hguard]
  simp only [Bool.false_eq_true, if_false]
  rw [hsync]
  simp only []
  rw [renderizarAcoes_of_valido _ _ hvalo]
  simp

theorem salvarCampos_eq_self_iff (tr : Linha) (r : Risco) :
    salvarCampos tr r = r ↔
      (tr.atividade = r.atividade ∧ tr.perigo = r.perigo ∧ tr.tipoRisco = r.tipoRisco ∧
        tr.fonte = r.fonte ∧ tr.consequencias = r.consequencias ∧
        tr.probabilidade = r.probabilidade ∧ tr.severidade = r.severidade) := by
  cases r
  simp [salvarCampos]

theorem sincronizado_iff (e : Estado) :
    sincronizado e = true ↔
      (∀ r ∈ e.riscos, r.id ≤ e.contadorRiscos) ∧
      (∀ tr ∈ e.corpoInventarioRiscos, tr.riscoId ≤ e.contadorRiscos) ∧
      (∀ tr ∈ e.corpoInventarioRiscos, ∀ r,
        e.riscos.find? (fun r => r.id == tr.riscoId) = some r → salvarCampos tr r = r) := by
  unfold sincronizado
  simp only [Bool.and_eq_true, List.all_eq_true, decide_eq_true_eq]
  constructor
  · rintro ⟨⟨h1, h2⟩, h3⟩
    refine ⟨h1, h2, fun tr htr r hr => ?_⟩
    have := h3 tr htr
    rw [hr] at this
    exact (salvarCampos_eq_self_iff tr r).mpr (by simpa using this)
  · rintro ⟨h1, h2, h3⟩
    refine ⟨⟨h1, h2⟩, fun tr htr => ?_⟩
    cases hr : e.riscos.find? (fun r => r.id == tr.riscoId) with
    | none => rfl
    | some r =>
      have := (salvarCampos_eq_self_iff tr r).mp (h3 tr htr r hr)
      simpa using this

theorem sincronizarRisco_of_sincronizado (e : Estado) (id : Nat) (h : sincronizado e = true) :
    sincronizarRisco e id = e := by
  obtain ⟨-, -, h3⟩ := (sincronizado_iff e).mp h
  unfold sincronizarRisco
  cases hq : querySelector e.corpoInventarioRiscos id with
  | none => rfl
  | some tr =>
    have htr : tr ∈ e.corpoInventarioRiscos := List.mem_of_find?_eq_some hq
    have hid : tr.riscoId = id := by
      have := List.find?_some hq
      simpa using this
    simp only [salvarAlteracoesRisco]
    rw [alterarPrimeiro_eq_self]
    intro r hr
    exact h3 tr htr r (by rw [hid]; exact hr)

theorem sincronizarRiscos_of_sincronizado (e : Estado) (h : sincronizado e = true) :
    sincronizarRiscos e = e := by
  unfold sincronizarRiscos
  generalize e.riscos.map (fun risco => risco.id) = ids
  induction ids with
  | nil => rfl
  | cons a ids ih =>
    simp only [List.foldl_cons]
    rw [sincronizarRisco_of_sincronizado e a h]
    exact ih

/-- C6: for a non-empty inventory, with the confirmation given when a plan exists and
entries that hold values of the two enumerations once they are refreshed from their
rows, `gerarPlanoAcao` ends without exception and replaces the plan: the inventory it
leaves is the refreshed one (the inventory itself when the rows show the stored values),
the plan has one item per entry, item i is `gerarAcaoParaRisco` of the i-th entry of
the score-descending order with its classification, the result is the same whatever
plan was rendered before, and generating again gives the same result. -/
theorem gerarPlanoAcao_substitui (e : Estado) (confirmado : Bool) (hne : e.riscos ≠ [])
    (hconf : e.planoAcaoGerado = true → confirmado = true)
    (hval : ∀ r ∈ (sincronizarRiscos e).riscos, valido r = true) :
    (gerarPlanoAcao e confirmado).excecao = false ∧
    (gerarPlanoAcao e confirmado).estado.planoAcaoGerado = true ∧
    (gerarPlanoAcao e confirmado).estado.riscos = (sincronizarRiscos e).riscos ∧
    (sincronizado e = true → (gerarPlanoAcao e confirmado).estado.riscos = e.riscos) ∧
    (gerarPlanoAcao e confirmado).estado.corpoPlanoAcao.length = e.riscos.length ∧
    (gerarPlanoAcao e confirmado).estado.corpoPlanoAcao.map some =
      (riscosOrdenados (gerarPlanoAcao e confirmado).estado.riscos).map acaoDoRisco ∧
    (∀ plano, gerarPlanoAcao { e with corpoPlanoAcao := plano } confirmado =
      gerarPlanoAcao e confirmado) ∧
    gerarPlanoAcao (gerarPlanoAcao e confirmado).estado true = gerarPlanoAcao e confirmado := by
  have hvalo : ∀ r ∈ riscosOrdenados (sincronizarRiscos e).riscos, valido r = true :=
    fun r hr => hval r (((riscosOrdenados_perm _).mem_iff).mp hr)
  have heq := gerarPlanoAcao_eq e confirmado hne hconf hval
  have hlen : (sincronizarRiscos e).riscos ≠ [] := by
    intro h0
    have h1 := sincronizarRiscos_length e
    rw [h0] at h1
    exact hne (List.length_eq_zero.mp h1.symm)
  refine ⟨by rw [heq], by rw [heq], by rw [heq], ?_, ?_, ?_, ?_, ?_⟩
  · intro hs
    rw [heq, sincronizarRiscos_of_sincronizado e hs]
  · rw [heq]
    have h1 := congrArg List.length (map_some_filterMap_acaoDoRisco _ hvalo)
    simp only [List.length_map] at h1
    simp only [h1, (riscosOrdenados_perm _).length_eq, sincronizarRiscos_length]
  · rw [heq]
    exact map_some_filterMap_acaoDoRisco _ hvalo
  · intro plano
    have hrs : (sincronizarRiscos { e with corpoPlanoAcao := plano }).riscos =
        (sincronizarRiscos e).riscos := sincronizarRiscos_congr _ _ rfl rfl
    rw [heq, gerarPlanoAcao_eq { e with corpoPlanoAcao := plano } confirmado hne hconf
      (by rw [hrs]; exact hval), hrs]
  · rw [heq]
    have hrs : (sincronizarRiscos { e with
          riscos := (sincronizarRiscos e).riscos,
          corpoPlanoAcao := (riscosOrdenados (sincronizarRiscos e).riscos).filterMap acaoDoRisco,
          planoAcaoGerado := true }).riscos = (sincronizarRiscos e).riscos := by
      refine Eq.trans
        (sincronizarRiscos_congr _ { e with riscos := (sincronizarRiscos e).riscos } ?_ ?_)
        (sincronizarRiscos_riscos_idem e)
      · rfl
      · rfl
    show gerarPlanoAcao { e with
          riscos := (sincronizarRiscos e).riscos,
          corpoPlanoAcao := (riscosOrdenados (sincronizarRiscos e).riscos).filterMap acaoDoRisco,
          planoAcaoGerado := true } true = _
    rw [gerarPlanoAcao_eq { e with
          riscos := (sincronizarRiscos e).riscos,
          corpoPlanoAcao := (riscosOrdenados (sincronizarRiscos e).riscos).filterMap acaoDoRisco,
          planoAcaoGerado := true } true hlen (fun _ => rfl) (by rw [hrs]; exact hval), hrs]

/-- Instance of C6: after the example entry (score 12) and a blank entry (score 4) are
added, the plan has two items, the first Imediata and the second Urgente, and a second
generation returns the same result. -/
theorem gerarPlanoAcao_substitui_witness :
    (gerarPlanoAcao (adicionarNovoRisco (adicionarRiscoExemplo estadoInicial).estado).estado
      false).estado.corpoPlanoAcao.map (fun a => a.prioridade) = ["Imediata", "Urgente"] ∧
    gerarPlanoAcao
      (gerarPlanoAcao (adicionarNovoRisco (adicionarRiscoExemplo estadoInicial).estado).estado
        false).estado true =
      gerarPlanoAcao (adicionarNovoRisco (adicionarRiscoExemplo estadoInicial).estado).estado
        false :=
  ⟨by decide,
   (gerarPlanoAcao_substitui
      (adicionarNovoRisco (adicionarRiscoExemplo estadoInicial).estado).estado false
      (by decide) (by decide) (by decide)).2.2.2.2.2.2.2⟩

/-! ## Adding entries -/

theorem atualizarEstatisticas_estado (e : Estado) :
    (atualizarEstatisticas e).estado =
      { sincronizarRiscos e with painel := (atualizarEstatisticas e).estado.painel } := by
  unfold atualizarEstatisticas
  simp only
  split <;> rfl

theorem atualizarEstatisticas_riscos (e : Estado) :
    (atualizarEstatisticas e).estado.riscos = (sincronizarRiscos e).riscos := by
  rw [atualizarEstatisticas_estado]

theorem atualizarEstatisticas_contador (e : Estado) :
    (atualizarEstatisticas e).estado.contadorRiscos = e.contadorRiscos := by
  rw [atualizarEstatisticas_estado, sincronizarRiscos_eq]

theorem adicionarNovoRisco_riscos (e : Estado) :
    (adicionarNovoRisco e).estado.riscos =
      (sincronizarRiscos { e with
        contadorRiscos := e.contadorRiscos + 1,
        riscos := e.riscos ++ [novoRisco (e.contadorRiscos + 1)],
        corpoInventarioRiscos :=
          e.corpoInventarioRiscos ++ [linhaDoRisco (novoRisco (e.contadorRiscos + 1))] }).riscos ∧
    (adicionarNovoRisco e).estado.contadorRiscos = e.contadorRiscos + 1 := by
  have hc : classificar (novoRisco (e.contadorRiscos + 1)).probabilidade
      (novoRisco (e.contadorRiscos + 1)).severidade =
      some { nivel := "Médio", classe := "medio", cor := "#f59e0b" } := rfl
  unfold adicionarNovoRisco
  simp only [renderizarRisco, hc]
  split <;> simp [atualizarEstatisticas_riscos, atualizarEstatisticas_contador]

theorem adicionarRiscoExemplo_riscos (e : Estado) :
    (adicionarRiscoExemplo e).estado.riscos =
      (sincronizarRiscos { e with
        contadorRiscos := e.contadorRiscos + 1,
        riscos := e.riscos ++ [riscoExemplo (e.contadorRiscos + 1)],
        corpoInventarioRiscos :=
          e.corpoInventarioRiscos ++ [linhaDoRisco (riscoExemplo (e.contadorRiscos + 1))] }).riscos ∧
    (adicionarRiscoExemplo e).estado.contadorRiscos = e.contadorRiscos + 1 := by
  have hc : classificar (riscoExemplo (e.contadorRiscos + 1)).probabilidade
      (riscoExemplo (e.contadorRiscos + 1)).severidade =
      some { nivel := "Alto", classe := "alto", cor := "#ef4444" } := rfl
  unfold adicionarRiscoExemplo
  simp only [renderizarRisco, hc]
  simp [atualizarEstatisticas_riscos, atualizarEstatisticas_contador]

theorem adicionarNovoRisco_ids (e : Estado) :
    (adicionarNovoRisco e).estado.riscos.map (fun r => r.id) =
      e.riscos.map (fun r => r.id) ++ [e.contadorRiscos + 1] := by
  rw [(adicionarNovoRisco_riscos e).1, sincronizarRiscos_ids]
  simp [novoRisco]

theorem adicionarRiscoExemplo_ids (e : Estado) :
    (adicionarRiscoExemplo e).estado.riscos.map (fun r => r.id) =
      e.riscos.map (fun r => r.id) ++ [e.contadorRiscos + 1] := by
  rw [(adicionarRiscoExemplo_riscos e).1, sincronizarRiscos_ids]
  simp [riscoExemplo]

theorem find?_append_of_forall_ne (riscos : List Risco) (novo : Risco) (id : Nat)
    (h : novo.id ≠ id) :
    (riscos ++ [novo]).find? (fun r => r.id == id) = riscos.find? (fun r => r.id == id) := by
  rw [List.find?_append]
  cases riscos.find? (fun r => r.id == id) with
  | some r => rfl
  | none =>
    have hb : (novo.id == id) = false := by simpa using h
    simp [List.find?, hb]

theorem sincronizado_adicionar (e : Estado) (novo : Risco) (h : sincronizado e = true)
    (hid : novo.id = e.contadorRiscos + 1) (hp : novo.probabilidade ∈ probabilidades)
    (hs : novo.severidade ∈ severidades) (ht : novo.tipoRisco ∈ tiposRisco) :
    sincronizado { e with
      contadorRiscos := e.contadorRiscos + 1,
      riscos := e.riscos ++ [novo],
      corpoInventarioRiscos := e.corpoInventarioRiscos ++ [linhaDoRisco novo] } = true := by
  obtain ⟨h1, h2, h3⟩ := (sincronizado_iff e).mp h
  rw [sincronizado_iff]
  refine ⟨?_, ?_, ?_⟩
  · intro r hr
    simp only [List.mem_append, List.mem_singleton] at hr
    rcases hr with hr | rfl
    · exact Nat.le_succ_of_le (h1 r hr)
    · exact le_of_eq hid
  · intro tr htr
    simp only [List.mem_append, List.mem_singleton] at htr
    rcases htr with htr | rfl
    · exact Nat.le_succ_of_le (h2 tr htr)
    · exact le_of_eq hid
  · intro tr htr r hr
    simp only [List.mem_append, List.mem_singleton] at htr
    rcases htr with htr | rfl
    · have hne : novo.id ≠ tr.riscoId := by
        have := h2 tr htr
        omega
      simp only at hr
      rw [find?_append_of_forall_ne _ _ _ hne] at hr
      exact h3 tr htr r hr
    · have hnone : e.riscos.find? (fun r => r.id == (linhaDoRisco novo).riscoId) = none := by
        rw [List.find?_eq_none]
        intro x hx
        have := h1 x hx
        simp only [linhaDoRisco, beq_iff_eq]
        omega
      simp only at hr
      rw [List.find?_append, hnone] at hr
      simp only [Option.none_or, List.find?, linhaDoRisco, beq_self_eq_true] at hr
      have hr' : novo = r := Option.some.inj hr
      subst hr'
      rw [salvarCampos_eq_self_iff]
      simp [linhaDoRisco, valorSelect, hp, hs, ht]

/-- C8 (as amended): `adicionarNovoRisco` raises `contadorRiscos` by one and appends one
entry at the end of the list, whose id is the previous `contadorRiscos` plus one, the
earlier entries keeping their ids and their order; when every row of the inventory
table shows the values of its stored entry and no id exceeds the counter, the new entry
is blank with tipoRisco Acidente, probabilidade Média, severidade Moderada and no
photo, and the entries stored before are unchanged. -/
theorem adicionarNovoRisco_acrescenta (e : Estado) :
    (adicionarNovoRisco e).estado.contadorRiscos = e.contadorRiscos + 1 ∧
    (adicionarNovoRisco e).estado.riscos.map (fun r => r.id) =
      e.riscos.map (fun r => r.id) ++ [e.contadorRiscos + 1] ∧
    (sincronizado e = true →
      (adicionarNovoRisco e).estado.riscos =
        e.riscos ++ [{ id := e.contadorRiscos + 1, atividade := "", perigo := "",
                       tipoRisco := "Acidente", fonte := "", consequencias := "",
                       probabilidade := "Média", severidade := "Moderada", foto := none }]) := by
  refine ⟨(adicionarNovoRisco_riscos e).2, adicionarNovoRisco_ids e, fun h => ?_⟩
  rw [(adicionarNovoRisco_riscos e).1]
  have hs := sincronizado_adicionar e (novoRisco (e.contadorRiscos + 1)) h rfl
    (by simp [novoRisco, probabilidades]) (by simp [novoRisco, severidades])
    (by simp [novoRisco, tiposRisco])
  rw [sincronizarRiscos_of_sincronizado _ hs]
  rfl

/-- Instance of C8 (as amended): after the example entry, the blank entry gets id 2 and
the example entry is untouched. -/
theorem adicionarNovoRisco_acrescenta_witness :
    (adicionarNovoRisco (adicionarRiscoExemplo estadoInicial).estado).estado.riscos =
      (adicionarRiscoExemplo estadoInicial).estado.riscos ++
        [{ id := (adicionarRiscoExemplo estadoInicial).estado.contadorRiscos + 1,
           atividade := "", perigo := "", tipoRisco := "Acidente", fonte := "",
           consequencias := "", probabilidade := "Média", severidade := "Moderada",
           foto := none }] :=
  (adicionarNovoRisco_acrescenta (adicionarRiscoExemplo estadoInicial).estado).2.2 (by decide)

/-- C8 fails as stated: in `estadoCampoEditado` the store holds the example entry while
its row shows the activity text "Concretagem"; `adicionarNovoRisco` appends the blank
entry with id 2 and, through `atualizarEstatisticas`, copies the row into the entry
stored before, so the result is not the old list with one entry appended. -/
theorem adicionarNovoRisco_altera_anterior :
    estadoCampoEditado.riscos = [riscoExemplo 1] ∧
    (adicionarNovoRisco estadoCampoEditado).estado.riscos =
      [{ riscoExemplo 1 with atividade := "Concretagem" }, novoRisco 2] ∧
    ¬ ∃ novo, (adicionarNovoRisco estadoCampoEditado).estado.riscos =
      estadoCampoEditado.riscos ++ [novo] := by
  have h1 : estadoCampoEditado.riscos = [riscoExemplo 1] := by decide
  have h2 : (adicionarNovoRisco estadoCampoEditado).estado.riscos =
      [{ riscoExemplo 1 with atividade := "Concretagem" }, novoRisco 2] := by decide
  refine ⟨h1, h2, ?_⟩
  rintro ⟨novo, h⟩
  rw [h1, h2] at h
  have h3 : ({ riscoExemplo 1 with atividade := "Concretagem" } : Risco) = riscoExemplo 1 :=
    (List.cons.inj h).1
  exact absurd h3 (by decide)

/-! ## Ids along a sequence of operations -/

theorem getLast?_map_id (l : List Risco) :
    l.getLast?.map (fun r => r.id) = (l.map (fun r => r.id)).getLast? := by
  induction l with
  | nil => rfl
  | cons a l ih =>
    cases l with
    | nil => rfl
    | cons b l =>
      simp only [List.map_cons, List.getLast?_cons_cons] at ih ⊢
      exact ih

theorem getLast?_map_id_of_map_eq (l : List Risco) (ids : List Nat) (x : Nat)
    (h : l.map (fun r => r.id) = ids ++ [x]) : l.getLast?.map (fun r => r.id) = some x := by
  rw [getLast?_map_id, h]
  simp

theorem removerRisco_ids (e : Estado) (riscoId : Nat) (confirmado : Bool) :
    ((removerRisco e riscoId confirmado).estado.riscos.map (fun r => r.id)).Sublist
      (e.riscos.map (fun r => r.id)) ∧
    (removerRisco e riscoId confirmado).estado.contadorRiscos = e.contadorRiscos := by
  unfold removerRisco
  cases confirmado with
  | false => exact ⟨List.Sublist.refl _, rfl⟩
  | true =>
    simp only [Bool.not_true, Bool.false_eq_true, if_false]
    have hsub : ((e.riscos.filter (fun r => r.id != riscoId)).map (fun r => r.id)).Sublist
        (e.riscos.map (fun r => r.id)) := (List.filter_sublist _).map _
    split
    · rw [atualizarEstatisticas_riscos, sincronizarRiscos_ids, atualizarEstatisticas_contador]
      exact ⟨hsub, rfl⟩
    · simp only
      rw [atualizarEstatisticas_riscos, sincronizarRiscos_ids, atualizarEstatisticas_contador]
      exact ⟨hsub, rfl⟩

theorem recalcularNivelRisco_ids (e : Estado) (riscoId : Nat) (tr : Linha) :
    (recalcularNivelRisco e riscoId tr).estado.riscos.map (fun r => r.id) =
      e.riscos.map (fun r => r.id) ∧
    (recalcularNivelRisco e riscoId tr).estado.contadorRiscos = e.contadorRiscos := by
  unfold recalcularNivelRisco
  split
  · exact ⟨rfl, rfl⟩
  · refine ⟨?_, rfl⟩
    simp only
    apply alterarPrimeiro_map
    intro r
    rfl

theorem executar_ids (e : Estado) (op : Operacao) :
    (executar e op).contadorRiscos = e.contadorRiscos + (if ehAdicao op = true then 1 else 0) ∧
    (if ehAdicao op = true then
      (executar e op).riscos.map (fun r => r.id) =
        e.riscos.map (fun r => r.id) ++ [e.contadorRiscos + 1]
    else
      ((executar e op).riscos.map (fun r => r.id)).Sublist (e.riscos.map (fun r => r.id))) := by
  cases op with
  | exemplo => exact ⟨(adicionarRiscoExemplo_riscos e).2, adicionarRiscoExemplo_ids e⟩
  | novo => exact ⟨(adicionarNovoRisco_riscos e).2, adicionarNovoRisco_ids e⟩
  | editarLinha tr => exact ⟨rfl, List.Sublist.refl _⟩
  | salvar riscoId tr =>
    refine ⟨rfl, ?_⟩
    simp only [ehAdicao, Bool.false_eq_true, if_false, executar, salvarAlteracoesRisco]
    rw [alterarPrimeiro_map _ _ _ (salvarCampos_id tr)]
  | recalcular riscoId tr =>
    refine ⟨(recalcularNivelRisco_ids e riscoId tr).2, ?_⟩
    simp only [ehAdicao, Bool.false_eq_true, if_false, executar]
    rw [(recalcularNivelRisco_ids e riscoId tr).1]
  | estatisticas =>
    refine ⟨atualizarEstatisticas_contador e, ?_⟩
    simp only [ehAdicao, Bool.false_eq_true, if_false, executar]
    rw [atualizarEstatisticas_riscos, sincronizarRiscos_ids]
  | modificado => exact ⟨rfl, List.Sublist.refl _⟩
  | remover riscoId confirmado =>
    exact ⟨(removerRisco_ids e riscoId confirmado).2, (removerRisco_ids e riscoId confirmado).1⟩

theorem idAtribuido_eq (e : Estado) (op : Operacao) :
    idAtribuido e op = if ehAdicao op = true then some (e.contadorRiscos + 1) else none := by
  cases op with
  | exemplo => exact getLast?_map_id_of_map_eq _ _ _ (adicionarRiscoExemplo_ids e)
  | novo => exact getLast?_map_id_of_map_eq _ _ _ (adicionarNovoRisco_ids e)
  | editarLinha tr => rfl
  | salvar riscoId tr => rfl
  | recalcular riscoId tr => rfl
  | estatisticas => rfl
  | modificado => rfl
  | remover riscoId confirmado => rfl

theorem executar_idsValidos (e : Estado) (op : Operacao) (h : IdsValidos e) :
    IdsValidos (executar e op) := by
  obtain ⟨hnd, hle⟩ := h
  obtain ⟨hc, hids⟩ := executar_ids e op
  have hle' : ∀ i ∈ e.riscos.map (fun r => r.id), i ≤ e.contadorRiscos := by
    intro i hi
    obtain ⟨r, hr, rfl⟩ := List.mem_map.mp hi
    exact hle r hr
  by_cases hop : ehAdicao op = true
  · rw [if_pos hop] at hc hids
    refine ⟨?_, fun r hr => ?_⟩
    · rw [hids]
      refine List.Nodup.append hnd (List.nodup_singleton _) ?_
      intro i hi hi'
      have h1 := hle' i hi
      have h2 : i = e.contadorRiscos + 1 := by simpa using hi'
      omega
    · have hm : r.id ∈ (executar e op).riscos.map (fun r => r.id) := List.mem_map_of_mem _ hr
      rw [hids] at hm
      rw [hc]
      rcases List.mem_append.mp hm with hm | hm
      · exact Nat.le_succ_of_le (hle' _ hm)
      · have : r.id = e.contadorRiscos + 1 := by simpa using hm
        omega
  · rw [if_neg hop] at hc hids
    refine ⟨hnd.sublist hids, fun r hr => ?_⟩
    have hm : r.id ∈ (executar e op).riscos.map (fun r => r.id) := List.mem_map_of_mem _ hr
    rw [hc]
    exact hle' _ (hids.subset hm)

theorem executarTodas_idsValidos (ops : List Operacao) (e : Estado) (h : IdsValidos e) :
    IdsValidos (executarTodas e ops) := by
  induction ops generalizing e with
  | nil => exact h
  | cons op ops ih => exact ih (executar e op) (executar_idsValidos e op h)

theorem idsAtribuidos_eq (ops : List Operacao) (e : Estado) :
    idsAtribuidos e ops = List.range' (e.contadorRiscos + 1) (ops.countP ehAdicao) := by
  induction ops generalizing e with
  | nil => rfl
  | cons op ops ih =>
    simp only [idsAtribuidos, idAtribuido_eq, ih, (executar_ids e op).1]
    by_cases hop : ehAdicao op = true
    · simp [hop, List.countP_cons_of_pos, List.range'_succ]
    · simp [hop, List.countP_cons_of_neg]

/-- C9: along every sequence of add, row-edit, field-update, statistics and remove
operations run from the initial empty state, the ids given to new entries are 1, 2, 3,
... in this order, one per add operation, so each is strictly greater than every id
given before, also after removals; the ids of the entries in the store at the end are
pairwise distinct and none exceeds `contadorRiscos`. -/
theorem ids_nunca_reutilizados (ops : List Operacao) :
    idsAtribuidos estadoInicial ops = List.range' 1 (ops.countP ehAdicao) ∧
    (idsAtribuidos estadoInicial ops).Pairwise (fun a b => a < b) ∧
    ((executarTodas estadoInicial ops).riscos.map (fun r => r.id)).Nodup ∧
    (∀ r ∈ (executarTodas estadoInicial ops).riscos,
      r.id ≤ (executarTodas estadoInicial ops).contadorRiscos) := by
  have h0 : IdsValidos estadoInicial := ⟨List.nodup_nil, fun r hr => by cases hr⟩
  have h1 := idsAtribuidos_eq ops estadoInicial
  have h2 := executarTodas_idsValidos ops estadoInicial h0
  refine ⟨h1, ?_, h2.1, h2.2⟩
  rw [h1]
  exact List.pairwise_lt_range' _ _

/-! ## Photo validation and attachment -/

/-- C12: the validation of `uploadFoto` accepts a file exactly when its MIME type is one
of image/jpeg, image/jpg, image/png, image/webp and its size is at most 5 * 1024 * 1024
bytes, and only then the read of the file is started; a file of exactly that size is
accepted, a file of 6 MiB is refused, a file of type image/gif is refused and a PNG
file of 1 MiB is accepted. -/
theorem validarArquivo_aceita (arquivo : Arquivo) :
    (validarArquivo arquivo = none ↔
      (arquivo.type ∈ ["image/jpeg", "image/jpg", "image/png", "image/webp"] ∧
        arquivo.size ≤ 5 * 1024 * 1024)) ∧
    (∀ e riscoId, (uploadFoto e (some arquivo) riscoId).2.isSome = true ↔
      validarArquivo arquivo = none) ∧
    (∀ dataURL, validarArquivo
      { type := "image/png", size := 5 * 1024 * 1024, dataURL := dataURL } = none) ∧
    (∀ type dataURL, validarArquivo
      { type := type, size := 6 * 1024 * 1024, dataURL := dataURL } ≠ none) ∧
    (∀ size dataURL, validarArquivo
      { type := "image/gif", size := size, dataURL := dataURL } ≠ none) ∧
    (∀ dataURL, validarArquivo
      { type := "image/png", size := 1024 * 1024, dataURL := dataURL } = none) := by
  have hiff : validarArquivo arquivo = none ↔
      (arquivo.type ∈ ["image/jpeg", "image/jpg", "image/png", "image/webp"] ∧
        arquivo.size ≤ 5 * 1024 * 1024) := by
    unfold validarArquivo
    by_cases ht : arquivo.type ∈ ACCEPTED_IMAGE_TYPES
    · by_cases hs : arquivo.size > MAX_FILE_SIZE
      · have hs' : ¬ arquivo.size ≤ 5 * 1024 * 1024 := by
          simp only [MAX_FILE_SIZE] at hs
          omega
        simp [ht, hs, hs']
      · have hs' : arquivo.size ≤ 5 * 1024 * 1024 := by
          simp only [MAX_FILE_SIZE] at hs
          omega
        have ht' : arquivo.type ∈ ["image/jpeg", "image/jpg", "image/png", "image/webp"] := ht
        simp [ht, hs, hs', ht']
    · have ht' : ¬ arquivo.type ∈ ["image/jpeg", "image/jpg", "image/png", "image/webp"] := ht
      simp [ht, ht']
  refine ⟨hiff, ?_, ?_, ?_, ?_, ?_⟩
  · intro e riscoId
    unfold uploadFoto
    cases h : validarArquivo arquivo <;> simp [h]
  · intro dataURL
    simp [validarArquivo, ACCEPTED_IMAGE_TYPES, MAX_FILE_SIZE]
  · intro type dataURL
    unfold validarArquivo
    split_ifs <;> simp_all [MAX_FILE_SIZE]
  · intro size dataURL
    simp [validarArquivo, ACCEPTED_IMAGE_TYPES]
  · intro dataURL
    simp [validarArquivo, ACCEPTED_IMAGE_TYPES, MAX_FILE_SIZE]

theorem alterarPrimeiro_append_cons {α : Type} (p : α → Bool) (f : α → α) (pre pos : List α)
    (a : α) (hpre : ∀ x ∈ pre, p x = false) (ha : p a = true) :
    alterarPrimeiro p f (pre ++ a :: pos) = pre ++ f a :: pos := by
  induction pre with
  | nil => simp [alterarPrimeiro, ha]
  | cons x pre ih =>
    have hx : p x = false := hpre x (List.mem_cons_self _ _)
    simp [alterarPrimeiro, hx, ih (fun y hy => hpre y (List.mem_cons_of_mem _ hy))]

/-- C13: attaching a photo changes at most the `foto` of the first entry with the given
id.  `uploadFoto` itself leaves the state as it was and starts no read for a refused
file; when the read completes, `reader.onload` leaves the risk list as it was if no
entry has the id, and otherwise replaces that entry by the same entry with `foto` set to
the data it received, all other entries staying in place; the counter, the rows and
the plan are untouched. -/
theorem foto_altera_somente_foto (e : Estado) (arquivo : Option Arquivo) (riscoId : Nat)
    (result : String) :
    (uploadFoto e arquivo riscoId).1.estado = e ∧
    (∀ a, arquivo = some a → validarArquivo a ≠ none → (uploadFoto e arquivo riscoId).2 = none) ∧
    (∀ a, arquivo = some a → validarArquivo a = none →
      (uploadFoto e arquivo riscoId).2 = some (riscoId, a.dataURL)) ∧
    ((∀ r ∈ e.riscos, r.id ≠ riscoId) → (readerOnload e riscoId result).estado.riscos = e.riscos) ∧
    (∀ pre r pos, e.riscos = pre ++ r :: pos → r.id = riscoId → (∀ x ∈ pre, x.id ≠ riscoId) →
      (readerOnload e riscoId result).estado.riscos =
        pre ++ { r with foto := some result } :: pos) ∧
    (readerOnload e riscoId result).estado.contadorRiscos = e.contadorRiscos ∧
    (readerOnload e riscoId result).estado.corpoInventarioRiscos = e.corpoInventarioRiscos ∧
    (readerOnload e riscoId result).estado.corpoPlanoAcao = e.corpoPlanoAcao := by
  have hriscos : (readerOnload e riscoId result).estado.riscos =
      alterarPrimeiro (fun r => r.id == riscoId)
        (fun risco => { risco with foto := some result }) e.riscos := by
    unfold readerOnload
    simp only
    split <;> rfl
  refine ⟨?_, ?_, ?_, ?_, ?_, ?_, ?_, ?_⟩
  · unfold uploadFoto
    cases arquivo with
    | none => rfl
    | some a => cases h : validarArquivo a <;> simp [h]
  · intro a ha hv
    subst ha
    unfold uploadFoto
    cases h : validarArquivo a with
    | none => exact absurd h hv
    | some m => simp [h]
  · intro a ha hv
    subst ha
    simp [uploadFoto, hv]
  · intro h
    rw [hriscos]
    apply alterarPrimeiro_of_forall_not
    intro r hr
    simpa using h r hr
  · intro pre r pos hdec hid hpre
    rw [hriscos, hdec]
    apply alterarPrimeiro_append_cons
    · intro x hx
      simpa using hpre x hx
    · simpa using hid
  · unfold readerOnload
    simp only
    split <;> rfl
  · unfold readerOnload
    simp only
    split <;> rfl
  · unfold readerOnload
    simp only
    split <;> rfl

/-- Instance of C13: a PNG of 1 MiB attached to the example entry (id 1), a blank entry
(id 2) being stored after it; the example entry gets the data URL and the blank entry
is as before. -/
theorem foto_altera_somente_foto_witness :
    (readerOnload (adicionarNovoRisco (adicionarRiscoExemplo estadoInicial).estado).estado 1
      "data:image/png;base64,iVBORw0KGgo=").estado.riscos =
      [] ++ { riscoExemplo 1 with foto := some "data:image/png;base64,iVBORw0KGgo=" } ::
        [novoRisco 2] :=
  (foto_altera_somente_foto (adicionarNovoRisco (adicionarRiscoExemplo estadoInicial).estado).estado
    (some { type := "image/png", size := 1024 * 1024,
            dataURL := "data:image/png;base64,iVBORw0KGgo=" }) 1
    "data:image/png;base64,iVBORw0KGgo=").2.2.2.2.1 [] (riscoExemplo 1) [novoRisco 2]
    (by decide) rfl (by simp)
/-! ## Statistics -/

theorem nivelDoRisco_of_valido {r : Risco} (h : valido r = true) :
    nivelDoRisco r = some "Alto" ∨ nivelDoRisco r = some "Médio" ∨ nivelDoRisco r = some "Baixo" := by
  simp only [valido, Bool.and_eq_true, decide_eq_true_eq] at h
  obtain ⟨c, hc, hn⟩ := classificar_some_of_mem h.1 h.2
  unfold nivelDoRisco
  rw [hc]
  rcases hn with hn | hn | hn <;> simp [hn]

theorem contarNiveis_of_valido (l : List Risco) (a m b : Nat) (h : ∀ r ∈ l, valido r = true) :
    contarNiveis l (a, m, b) =
      some (a + l.countP (fun r => nivelDoRisco r == some "Alto"),
            m + l.countP (fun r => nivelDoRisco r == some "Médio"),
            b + l.countP (fun r => nivelDoRisco r == some "Baixo")) := by
  induction l generalizing a m b with
  | nil => simp [contarNiveis]
  | cons r l ih =>
    have hr := h r (List.mem_cons_self _ _)
    have hl : ∀ x ∈ l, valido x = true := fun x hx => h x (List.mem_cons_of_mem _ hx)
    have hv := hr
    simp only [valido, Bool.and_eq_true, decide_eq_true_eq] at hv
    obtain ⟨c, hc, hn⟩ := classificar_some_of_mem hv.1 hv.2
    have hnr : nivelDoRisco r = some c.nivel := by simp [nivelDoRisco, hc]
    rcases hn with hn | hn | hn <;>
      · simp [contarNiveis, hc, hn, hnr, ih _ _ _ hl, List.countP_cons]
        omega

theorem countP_niveis_of_valido (l : List Risco) (h : ∀ r ∈ l, valido r = true) :
    l.countP (fun r => nivelDoRisco r == some "Alto") +
      l.countP (fun r => nivelDoRisco r == some "Médio") +
      l.countP (fun r => nivelDoRisco r == some "Baixo") = l.length := by
  induction l with
  | nil => rfl
  | cons r l ih =>
    have hl := ih (fun x hx => h x (List.mem_cons_of_mem _ hx))
    simp only [List.countP_cons, List.length_cons]
    rcases nivelDoRisco_of_valido (h r (List.mem_cons_self _ _)) with hn | hn | hn <;>
      · rw [hn]
        simp
        omega

theorem atualizarEstatisticas_of_valido (e : Estado)
    (hval : ∀ r ∈ (sincronizarRiscos e).riscos, valido r = true) :
    atualizarEstatisticas e =
      { estado := { sincronizarRiscos e with painel :=
          { totalRiscos := (sincronizarRiscos e).riscos.length,
            riscosAltos := 0 + (sincronizarRiscos e).riscos.countP
              (fun r => nivelDoRisco r == some "Alto"),
            riscosMedios := 0 + (sincronizarRiscos e).riscos.countP
              (fun r => nivelDoRisco r == some "Médio"),
            riscosBaixos := 0 + (sincronizarRiscos e).riscos.countP
              (fun r => nivelDoRisco r == some "Baixo") } },
        alerta := none, excecao := false } := by
  have hc := contarNiveis_of_valido (sincronizarRiscos e).riscos 0 0 0 hval
  unfold atualizarEstatisticas
  simp only [hc]

/-- C14: when the entries, once refreshed from their rows, hold values of the two
enumerations, `atualizarEstatisticas` ends without exception and shows: total = number
of entries; Alto, Médio and Baixo counters = number of entries whose recomputed
classification has that `nivel`; the three counters add up to the total.  The entries
counted are the ones the function leaves in the store, which are the stored entries
when the rows show the stored values. -/
theorem atualizarEstatisticas_painel (e : Estado)
    (hval : ∀ r ∈ (sincronizarRiscos e).riscos, valido r = true) :
    (atualizarEstatisticas e).excecao = false ∧
    (atualizarEstatisticas e).estado.riscos = (sincronizarRiscos e).riscos ∧
    (sincronizado e = true → (atualizarEstatisticas e).estado.riscos = e.riscos) ∧
    (atualizarEstatisticas e).estado.painel.totalRiscos = e.riscos.length ∧
    (atualizarEstatisticas e).estado.painel.totalRiscos =
      (atualizarEstatisticas e).estado.riscos.length ∧
    (atualizarEstatisticas e).estado.painel.riscosAltos =
      (atualizarEstatisticas e).estado.riscos.countP (fun r => nivelDoRisco r == some "Alto") ∧
    (atualizarEstatisticas e).estado.painel.riscosMedios =
      (atualizarEstatisticas e).estado.riscos.countP (fun r => nivelDoRisco r == some "Médio") ∧
    (atualizarEstatisticas e).estado.painel.riscosBaixos =
      (atualizarEstatisticas e).estado.riscos.countP (fun r => nivelDoRisco r == some "Baixo") ∧
    (atualizarEstatisticas e).estado.painel.riscosAltos +
      (atualizarEstatisticas e).estado.painel.riscosMedios +
      (atualizarEstatisticas e).estado.painel.riscosBaixos =
      (atualizarEstatisticas e).estado.painel.totalRiscos := by
  have hsum := countP_niveis_of_valido (sincronizarRiscos e).riscos hval
  have heq := atualizarEstatisticas_of_valido e hval
  rw [heq]
  refine ⟨rfl, rfl, ?_, ?_, rfl, ?_, ?_, ?_, ?_⟩
  · intro hs
    simp only [sincronizarRiscos_of_sincronizado e hs]
  · exact sincronizarRiscos_length e
  · simp
  · simp
  · simp
  · simp only [Nat.zero_add]
    exact hsum

/-- Instance of C14: with the example entry (Alto) and a blank entry (Médio) the panel
shows 2 entries, 1 Alto, 1 Médio, 0 Baixo. -/
theorem atualizarEstatisticas_painel_witness :
    (atualizarEstatisticas
      (adicionarNovoRisco (adicionarRiscoExemplo estadoInicial).estado).estado).estado.painel =
      { totalRiscos := 2, riscosAltos := 1, riscosMedios := 1, riscosBaixos := 0 } ∧
    (atualizarEstatisticas
      (adicionarNovoRisco (adicionarRiscoExemplo estadoInicial).estado).estado).excecao = false :=
  ⟨by decide,
   (atualizarEstatisticas_painel
      (adicionarNovoRisco (adicionarRiscoExemplo estadoInicial).estado).estado (by decide)).1⟩
/-! ## Measure templates -/

theorem texto_entre_inj (antes depois x y : String)
    (h : antes ++ x ++ depois = antes ++ y ++ depois) : x = y := by
  have hd := congrArg String.data h
  rw [String.data_append, String.data_append, String.data_append, String.data_append] at hd
  exact String.ext (List.append_cancel_left (List.append_cancel_right hd))

theorem gerarMedidasProgramadas_prefixo (r : Risco) :
    ∃ s, gerarMedidasProgramadas r = Medida.texto s ∧ s.data.take 10 = "AÇÃO PROGR".data := by
  refine ⟨_, rfl, ?_⟩
  rw [String.data_append, String.data_append, List.append_assoc,
    List.take_append_of_le_length (by decide)]
  decide

theorem gerarMedidasMonitoramento_prefixo (r : Risco) :
    ∃ s, gerarMedidasMonitoramento r = Medida.texto s ∧ s.data.take 10 = "MONITORAME".data := by
  refine ⟨_, rfl, ?_⟩
  rw [String.data_append, String.data_append, List.append_assoc,
    List.take_append_of_le_length (by decide)]
  decide

theorem gerarMedidas_distintas (r r' : Risco) :
    gerarMedidasProgramadas r ≠ gerarMedidasMonitoramento r' := by
  intro h
  obtain ⟨s₁, hs₁, hp₁⟩ := gerarMedidasProgramadas_prefixo r
  obtain ⟨s₂, hs₂, hp₂⟩ := gerarMedidasMonitoramento_prefixo r'
  rw [hs₁, hs₂] at h
  have hs : s₁ = s₂ := Medida.texto.inj h
  subst hs
  exact absurd (hp₁.symm.trans hp₂) (by decide)

/-- C18: for a classification that is not Alto the measure depends on the tier and on
the activity text only: two entries whose classifications have the same `nivel` and
whose `atividade` is the same get the same measure, whatever their other fields.  The
tier Médio gets the scheduled-review text of `gerarMedidasProgramadas` ("AÇÃO
PROGRAMADA: ...") and the tier Baixo the monitoring text of `gerarMedidasMonitoramento`
("MONITORAMENTO CONTÍNUO: ..."), each written out below with the activity in its place.
The two texts differ for every pair of entries, so a Médio entry and a Baixo entry never
get the same measure, and within a tier two entries get the same measure exactly when
their activity is the same. -/
theorem medida_sem_categoria (r₁ r₂ : Risco) (c₁ c₂ : Classificacao)
    (hn : c₁.nivel = c₂.nivel) (hna : c₁.nivel ≠ "Alto") (ha : r₁.atividade = r₂.atividade) :
    (gerarAcaoParaRisco r₁ c₁).medida = (gerarAcaoParaRisco r₂ c₂).medida ∧
    (c₁.nivel = "Médio" → (gerarAcaoParaRisco r₁ c₁).medida =
      Medida.texto ("AÇÃO PROGRAMADA: 1) Revisar e atualizar Procedimento Operacional Padrão (POP) específico para " ++ r₁.atividade ++ ", incorporando melhores práticas de segurança; 2) Intensificar programa de treinamento e capacitação dos trabalhadores, com reciclagem periódica; 3) Implementar sinalização de segurança adequada e visível conforme NR-26; 4) Realizar inspeções periódicas programadas (semanal ou quinzenal) nas atividades e equipamentos envolvidos; 5) Verificar sistematicamente a adequação, disponibilidade e estado de conservação dos EPIs; 6) Implementar supervisão técnica contínua durante execução das atividades de risco; 7) Estabelecer sistema de registro de não-conformidades e incidentes; 8) Realizar reuniões periódicas da CIPA/equipe de SST para discussão do risco; 9) Avaliar tecnicamente a viabilidade de controles de engenharia adicionais; 10) Manter documentação atualizada e disponível para fiscalização.")) ∧
    (c₁.nivel = "Baixo" → (gerarAcaoParaRisco r₁ c₁).medida =
      Medida.texto ("MONITORAMENTO CONTÍNUO: 1) Manter programa de monitoramento sistemático das condições de " ++ r₁.atividade ++ "; 2) Realizar inspeções periódicas mensais para verificação da manutenção das condições seguras; 3) Executar manutenção preventiva regular de equipamentos, ferramentas e dispositivos de segurança; 4) Reforçar orientações de segurança em Diálogos Diários de Segurança (DDS); 5) Manter registro atualizado de treinamentos e capacitações; 6) Documentar adequadamente todas as atividades e inspeções realizadas; 7) Revisar periodicamente (semestral) a avaliação de risco considerando mudanças em processos ou tecnologias; 8) Manter canal de comunicação aberto para reporte de condições inseguras pelos trabalhadores; 9) Garantir disponibilidade permanente de EPIs adequados; 10) Integrar o monitoramento deste risco nas rotinas da equipe de SST e supervisão operacional.")) ∧
    (∀ r : Risco, gerarMedidasProgramadas r =
      Medida.texto ("AÇÃO PROGRAMADA: 1) Revisar e atualizar Procedimento Operacional Padrão (POP) específico para " ++ r.atividade ++ ", incorporando melhores práticas de segurança; 2) Intensificar programa de treinamento e capacitação dos trabalhadores, com reciclagem periódica; 3) Implementar sinalização de segurança adequada e visível conforme NR-26; 4) Realizar inspeções periódicas programadas (semanal ou quinzenal) nas atividades e equipamentos envolvidos; 5) Verificar sistematicamente a adequação, disponibilidade e estado de conservação dos EPIs; 6) Implementar supervisão técnica contínua durante execução das atividades de risco; 7) Estabelecer sistema de registro de não-conformidades e incidentes; 8) Realizar reuniões periódicas da CIPA/equipe de SST para discussão do risco; 9) Avaliar tecnicamente a viabilidade de controles de engenharia adicionais; 10) Manter documentação atualizada e disponível para fiscalização.")) ∧
    (∀ r : Risco, gerarMedidasMonitoramento r =
      Medida.texto ("MONITORAMENTO CONTÍNUO: 1) Manter programa de monitoramento sistemático das condições de " ++ r.atividade ++ "; 2) Realizar inspeções periódicas mensais para verificação da manutenção das condições seguras; 3) Executar manutenção preventiva regular de equipamentos, ferramentas e dispositivos de segurança; 4) Reforçar orientações de segurança em Diálogos Diários de Segurança (DDS); 5) Manter registro atualizado de treinamentos e capacitações; 6) Documentar adequadamente todas as atividades e inspeções realizadas; 7) Revisar periodicamente (semestral) a avaliação de risco considerando mudanças em processos ou tecnologias; 8) Manter canal de comunicação aberto para reporte de condições inseguras pelos trabalhadores; 9) Garantir disponibilidade permanente de EPIs adequados; 10) Integrar o monitoramento deste risco nas rotinas da equipe de SST e supervisão operacional.")) ∧
    (∀ r r' : Risco, gerarMedidasProgramadas r ≠ gerarMedidasMonitoramento r') ∧
    (∀ r r' : Risco, ∀ c c' : Classificacao, c.nivel = "Médio" → c'.nivel = "Baixo" →
      (gerarAcaoParaRisco r c).medida ≠ (gerarAcaoParaRisco r' c').medida) ∧
    (∀ r r' : Risco,
      gerarMedidasProgramadas r = gerarMedidasProgramadas r' ↔ r.atividade = r'.atividade) ∧
    (∀ r r' : Risco,
      gerarMedidasMonitoramento r = gerarMedidasMonitoramento r' ↔
        r.atividade = r'.atividade) := by
  have hna₂ : c₂.nivel ≠ "Alto" := hn ▸ hna
  have hmed : ∀ (r : Risco) (c : Classificacao), c.nivel = "Médio" →
      (gerarAcaoParaRisco r c).medida = gerarMedidasProgramadas r := by
    intro r c hm
    simp [gerarAcaoParaRisco, hm]
  have hbai : ∀ (r : Risco) (c : Classificacao), c.nivel = "Baixo" →
      (gerarAcaoParaRisco r c).medida = gerarMedidasMonitoramento r := by
    intro r c hb
    simp [gerarAcaoParaRisco, hb]
  refine ⟨?_, fun hm => hmed r₁ c₁ hm, fun hb => hbai r₁ c₁ hb, fun r => rfl, fun r => rfl,
    gerarMedidas_distintas, ?_, ?_, ?_⟩
  · unfold gerarAcaoParaRisco
    rw [← hn]
    by_cases hm : c₁.nivel = "Médio"
    · simp [hna, hm, gerarMedidasProgramadas, ha]
    · simp [hna, hm, gerarMedidasMonitoramento, ha]
  · intro r r' c c' hm hb
    rw [hmed r c hm, hbai r' c' hb]
    exact gerarMedidas_distintas r r'
  · intro r r'
    constructor
    · intro h
      exact texto_entre_inj _ _ _ _ (Medida.texto.inj h)
    · intro h
      unfold gerarMedidasProgramadas
      rw [h]
  · intro r r'
    constructor
    · intro h
      exact texto_entre_inj _ _ _ _ (Medida.texto.inj h)
    · intro h
      unfold gerarMedidasMonitoramento
      rw [h]

/-- Instance of C18: two Médio entries with the same activity "Pintura", one Químico
and one Ergonômico with different hazards, get the same measure, which is the
scheduled-review text with "Pintura" in it; as a Baixo entry the first one gets the
monitoring text with "Pintura" in it. -/
theorem medida_sem_categoria_witness :
    (gerarAcaoParaRisco { novoRisco 1 with atividade := "Pintura", tipoRisco := "Químico" }
      { nivel := "Médio", classe := "medio", cor := "#f59e0b" }).medida =
    (gerarAcaoParaRisco
      { novoRisco 2 with atividade := "Pintura", tipoRisco := "Ergonômico", perigo := "Postura" }
      { nivel := "Médio", classe := "medio", cor := "#f59e0b" }).medida ∧
    (gerarAcaoParaRisco { novoRisco 1 with atividade := "Pintura", tipoRisco := "Químico" }
      { nivel := "Médio", classe := "medio", cor := "#f59e0b" }).medida =
      Medida.texto "AÇÃO PROGRAMADA: 1) Revisar e atualizar Procedimento Operacional Padrão (POP) específico para Pintura, incorporando melhores práticas de segurança; 2) Intensificar programa de treinamento e capacitação dos trabalhadores, com reciclagem periódica; 3) Implementar sinalização de segurança adequada e visível conforme NR-26; 4) Realizar inspeções periódicas programadas (semanal ou quinzenal) nas atividades e equipamentos envolvidos; 5) Verificar sistematicamente a adequação, disponibilidade e estado de conservação dos EPIs; 6) Implementar supervisão técnica contínua durante execução das atividades de risco; 7) Estabelecer sistema de registro de não-conformidades e incidentes; 8) Realizar reuniões periódicas da CIPA/equipe de SST para discussão do risco; 9) Avaliar tecnicamente a viabilidade de controles de engenharia adicionais; 10) Manter documentação atualizada e disponível para fiscalização." ∧
    (gerarAcaoParaRisco { novoRisco 1 with atividade := "Pintura", tipoRisco := "Químico" }
      { nivel := "Baixo", classe := "baixo", cor := "#10b981" }).medida =
      Medida.texto "MONITORAMENTO CONTÍNUO: 1) Manter programa de monitoramento sistemático das condições de Pintura; 2) Realizar inspeções periódicas mensais para verificação da manutenção das condições seguras; 3) Executar manutenção preventiva regular de equipamentos, ferramentas e dispositivos de segurança; 4) Reforçar orientações de segurança em Diálogos Diários de Segurança (DDS); 5) Manter registro atualizado de treinamentos e capacitações; 6) Documentar adequadamente todas as atividades e inspeções realizadas; 7) Revisar periodicamente (semestral) a avaliação de risco considerando mudanças em processos ou tecnologias; 8) Manter canal de comunicação aberto para reporte de condições inseguras pelos trabalhadores; 9) Garantir disponibilidade permanente de EPIs adequados; 10) Integrar o monitoramento deste risco nas rotinas da equipe de SST e supervisão operacional." :=
  ⟨(medida_sem_categoria
      { novoRisco 1 with atividade := "Pintura", tipoRisco := "Químico" }
      { novoRisco 2 with atividade := "Pintura", tipoRisco := "Ergonômico", perigo := "Postura" }
      { nivel := "Médio", classe := "medio", cor := "#f59e0b" }
      { nivel := "Médio", classe := "medio", cor := "#f59e0b" } rfl (by decide) rfl).1,
   ((medida_sem_categoria
      { novoRisco 1 with atividade := "Pintura", tipoRisco := "Químico" }
      { novoRisco 2 with atividade := "Pintura", tipoRisco := "Ergonômico", perigo := "Postura" }
      { nivel := "Médio", classe := "medio", cor := "#f59e0b" }
      { nivel := "Médio", classe := "medio", cor := "#f59e0b" } rfl (by decide) rfl).2.1
      rfl).trans rfl,
   ((medida_sem_categoria
      { novoRisco 1 with atividade := "Pintura", tipoRisco := "Químico" }
      { novoRisco 2 with atividade := "Pintura", tipoRisco := "Ergonômico", perigo := "Postura" }
      { nivel := "Baixo", classe := "baixo", cor := "#10b981" }
      { nivel := "Baixo", classe := "baixo", cor := "#10b981" } rfl (by decide) rfl).2.2.1
      rfl).trans rfl⟩

theorem mem_tiposRisco {t : String} :
    t ∈ tiposRisco ↔
      t = "Acidente" ∨ t = "Físico" ∨ t = "Químico" ∨ t = "Biológico" ∨ t = "Ergonômico" := by
  simp [tiposRisco]

theorem gerarMedidasPrioritarias_prefixo (r : Risco) (h : r.tipoRisco ∈ tiposRisco) :
    ∃ s, gerarMedidasPrioritarias r = Medida.texto s ∧
      ((r.tipoRisco = "Acidente" ∧ s.data.take 10 = "AÇÃO IMEDI".data) ∨
       (r.tipoRisco = "Físico" ∧ s.data.take 10 = "CONTROLE I".data) ∨
       (r.tipoRisco = "Químico" ∧ s.data.take 10 = "MEDIDAS EM".data) ∨
       (r.tipoRisco = "Biológico" ∧ s.data.take 10 = "CONTROLE B".data) ∨
       (r.tipoRisco = "Ergonômico" ∧ s.data.take 10 = "INTERVENÇÃ".data)) := by
  rw [mem_tiposRisco] at h
  rcases h with h | h | h | h | h
  · refine ⟨_, by simp only [gerarMedidasPrioritarias, h]; rfl, Or.inl ⟨h, by decide⟩⟩
  · refine ⟨_, by simp only [gerarMedidasPrioritarias, h]; rfl, Or.inr (Or.inl ⟨h, ?_⟩)⟩
    rw [String.data_append, String.data_append, List.append_assoc,
      List.take_append_of_le_length (by decide)]
    decide
  · refine ⟨_, by simp only [gerarMedidasPrioritarias, h]; rfl,
      Or.inr (Or.inr (Or.inl ⟨h, by decide⟩))⟩
  · refine ⟨_, by simp only [gerarMedidasPrioritarias, h]; rfl,
      Or.inr (Or.inr (Or.inr (Or.inl ⟨h, by decide⟩)))⟩
  · refine ⟨_, by simp only [gerarMedidasPrioritarias, h]; rfl,
      Or.inr (Or.inr (Or.inr (Or.inr ⟨h, by decide⟩)))⟩

theorem gerarMedidasPrioritarias_fisico (r₁ r₂ : Risco) (h₁ : r₁.tipoRisco = "Físico")
    (h₂ : r₂.tipoRisco = "Físico")
    (h : gerarMedidasPrioritarias r₁ = gerarMedidasPrioritarias r₂) : r₁.fonte = r₂.fonte := by
  simp only [gerarMedidasPrioritarias, h₁, h₂] at h
  have h' := congrArg String.data (Medida.texto.inj h)
  rw [String.data_append, String.data_append, String.data_append, String.data_append] at h'
  have h'' := List.append_cancel_left (List.append_cancel_right h')
  exact String.ext h''

/-- C19 (as amended): for an entry of tier Alto whose category is one of the five, the
measure is the text that `gerarMedidasPrioritarias` keeps for that category.  Two such
entries of the same category get the same text whatever their other fields, except
that the text of Físico embeds the entry's `fonte`, so two Físico entries get the same
text exactly when their `fonte` is the same; entries of different categories always get
different texts. -/
theorem medidasPrioritarias_por_categoria (r₁ r₂ : Risco) (h₁ : r₁.tipoRisco ∈ tiposRisco)
    (h₂ : r₂.tipoRisco ∈ tiposRisco) :
    (∀ c : Classificacao, c.nivel = "Alto" →
      (gerarAcaoParaRisco r₁ c).medida = gerarMedidasPrioritarias r₁) ∧
    (r₁.tipoRisco = r₂.tipoRisco → r₁.tipoRisco ≠ "Físico" →
      gerarMedidasPrioritarias r₁ = gerarMedidasPrioritarias r₂) ∧
    (r₁.tipoRisco = "Físico" → r₂.tipoRisco = "Físico" →
      (gerarMedidasPrioritarias r₁ = gerarMedidasPrioritarias r₂ ↔ r₁.fonte = r₂.fonte)) ∧
    (r₁.tipoRisco ≠ r₂.tipoRisco →
      gerarMedidasPrioritarias r₁ ≠ gerarMedidasPrioritarias r₂) := by
  refine ⟨?_, ?_, ?_, ?_⟩
  · intro c hc
    simp [gerarAcaoParaRisco, hc]
  · intro heq hnf
    rw [mem_tiposRisco] at h₁
    have hnf₂ : r₂.tipoRisco ≠ "Físico" := heq ▸ hnf
    rcases h₁ with h | h | h | h | h
    · have h' : r₂.tipoRisco = "Acidente" := heq ▸ h
      simp only [gerarMedidasPrioritarias, h, h']
      rfl
    · exact absurd h hnf
    · have h' : r₂.tipoRisco = "Químico" := heq ▸ h
      simp only [gerarMedidasPrioritarias, h, h']
      rfl
    · have h' : r₂.tipoRisco = "Biológico" := heq ▸ h
      simp only [gerarMedidasPrioritarias, h, h']
      rfl
    · have h' : r₂.tipoRisco = "Ergonômico" := heq ▸ h
      simp only [gerarMedidasPrioritarias, h, h']
      rfl
  · intro hf₁ hf₂
    constructor
    · exact gerarMedidasPrioritarias_fisico r₁ r₂ hf₁ hf₂
    · intro hfonte
      simp only [gerarMedidasPrioritarias, hf₁, hf₂, hfonte]
      rfl
  · intro hne heq
    obtain ⟨s₁, hs₁, hp₁⟩ := gerarMedidasPrioritarias_prefixo r₁ h₁
    obtain ⟨s₂, hs₂, hp₂⟩ := gerarMedidasPrioritarias_prefixo r₂ h₂
    rw [hs₁, hs₂] at heq
    have hs : s₁ = s₂ := Medida.texto.inj heq
    subst hs
    rcases hp₁ with ⟨t₁, p₁⟩ | ⟨t₁, p₁⟩ | ⟨t₁, p₁⟩ | ⟨t₁, p₁⟩ | ⟨t₁, p₁⟩ <;>
      rcases hp₂ with ⟨t₂, p₂⟩ | ⟨t₂, p₂⟩ | ⟨t₂, p₂⟩ | ⟨t₂, p₂⟩ | ⟨t₂, p₂⟩ <;>
      first
        | exact hne (t₁.trans t₂.symm)
        | exact absurd (p₁.symm.trans p₂) (by decide)

/-- Instance of C19 (as amended): an Acidente entry and a Químico entry of tier Alto get
different measures. -/
theorem medidasPrioritarias_por_categoria_witness :
    gerarMedidasPrioritarias (riscoExemplo 1) ≠
      gerarMedidasPrioritarias { riscoExemplo 2 with tipoRisco := "Químico" } :=
  (medidasPrioritarias_por_categoria (riscoExemplo 1)
    { riscoExemplo 2 with tipoRisco := "Químico" } (by decide) (by decide)).2.2.2 (by decide)

/-- C19 fails as stated: two entries of tier Alto and category Físico that differ in
`fonte` only get different measure texts. -/
theorem medidasPrioritarias_fisico_fonte :
    classificar "Alta" "Fatal" = some { nivel := "Alto", classe := "alto", cor := "#ef4444" } ∧
    (gerarAcaoParaRisco { riscoExemplo 1 with tipoRisco := "Físico", fonte := "Compressor" }
      { nivel := "Alto", classe := "alto", cor := "#ef4444" }).medida ≠
    (gerarAcaoParaRisco { riscoExemplo 1 with tipoRisco := "Físico", fonte := "Betoneira" }
      { nivel := "Alto", classe := "alto", cor := "#ef4444" }).medida := by
  refine ⟨by decide, ?_⟩
  intro h
  have h' : gerarMedidasPrioritarias
      { riscoExemplo 1 with tipoRisco := "Físico", fonte := "Compressor" } =
      gerarMedidasPrioritarias
      { riscoExemplo 1 with tipoRisco := "Físico", fonte := "Betoneira" } := h
  have := gerarMedidasPrioritarias_fisico _ _ rfl rfl h'
  exact absurd this (by decide)

/-- C20 (as amended): for an entry of tier Alto whose category is none of the five and
is not the name of a member inherited from `Object.prototype`, the measure is the
generic text of `gerarMedidasPrioritarias` with the entry's activity in it; for the
tiers Médio and Baixo the measure is the template of the tier, whatever the category. -/
theorem medida_categoria_desconhecida (r : Risco) (c : Classificacao)
    (h₅ : r.tipoRisco ∉ tiposRisco) (hh : r.tipoRisco ∉ chavesHerdadas) :
    (c.nivel = "Alto" → (gerarAcaoParaRisco r c).medida =
      Medida.texto ("AÇÃO IMEDIATA: Implementar controles seguindo hierarquia da NR-01 (eliminação, substituição, controles de engenharia, controles administrativos, EPI). Realizar ART específica para intervenção técnica em " ++ r.atividade ++ ". Documentar integralmente todas as medidas implementadas.")) ∧
    (c.nivel = "Médio" → (gerarAcaoParaRisco r c).medida = gerarMedidasProgramadas r) ∧
    (c.nivel = "Baixo" → (gerarAcaoParaRisco r c).medida = gerarMedidasMonitoramento r) := by
  rw [mem_tiposRisco] at h₅
  simp only [not_or] at h₅
  obtain ⟨n₁, n₂, n₃, n₄, n₅⟩ := h₅
  refine ⟨fun hc => ?_, fun hc => ?_, fun hc => ?_⟩
  · simp only [gerarAcaoParaRisco, hc, if_true, gerarMedidasPrioritarias, n₁, n₂, n₃, n₄, n₅,
      hh, if_false]
  · simp [gerarAcaoParaRisco, hc]
  · simp [gerarAcaoParaRisco, hc]

/-- Instance of C20 (as amended): the example entry with the category "Outro". -/
theorem medida_categoria_desconhecida_witness :
    (gerarAcaoParaRisco { riscoExemplo 1 with tipoRisco := "Outro" }
      { nivel := "Alto", classe := "alto", cor := "#ef4444" }).medida =
      gerarMedidasPrioritarias { riscoExemplo 1 with tipoRisco := "Outro" } :=
  ((medida_categoria_desconhecida { riscoExemplo 1 with tipoRisco := "Outro" }
    { nivel := "Alto", classe := "alto", cor := "#ef4444" } (by decide) (by decide)).1 rfl).trans
    rfl

/-- C20 fails as stated: a blank entry (Média, Moderada, tier Médio) whose category is
"Outro", none of the five, gets the template of `gerarMedidasProgramadas`, not the
generic text of `gerarMedidasPrioritarias`. -/
theorem medida_categoria_desconhecida_media :
    ({ novoRisco 1 with tipoRisco := "Outro" } : Risco).tipoRisco ∉ tiposRisco ∧
    (acaoDoRisco { novoRisco 1 with tipoRisco := "Outro" }).map (fun a => a.medida) =
      some (gerarMedidasProgramadas { novoRisco 1 with tipoRisco := "Outro" }) ∧
    (acaoDoRisco { novoRisco 1 with tipoRisco := "Outro" }).map (fun a => a.medida) ≠
      some (gerarMedidasPrioritarias { novoRisco 1 with tipoRisco := "Outro" }) := by
  refine ⟨by decide, rfl, ?_⟩
  intro h
  have h' : gerarMedidasProgramadas { novoRisco 1 with tipoRisco := "Outro" } =
      gerarMedidasPrioritarias { novoRisco 1 with tipoRisco := "Outro" } := Option.some.inj h
  have h'' := congrArg (fun m => match m with
    | Medida.texto s => s.data.take 10
    | Medida.herdada _ => []) h'
  exact absurd h'' (by decide)

theorem gerarMedidasPrioritarias_chave_herdada :
    gerarMedidasPrioritarias { riscoExemplo 1 with tipoRisco := "constructor" } =
      Medida.herdada "constructor" := by
  decide
/-! ## Validation before export -/

theorem dropWhile_eq_nil_of_forall_mem {α : Type} (p : α → Bool) (l : List α)
    (h : ∀ x ∈ l.dropWhile p, p x = true) : l.dropWhile p = [] := by
  induction l with
  | nil => rfl
  | cons a l ih =>
    by_cases ha : p a = true
    · simp only [List.dropWhile_cons, ha, if_true] at h ⊢
      exact ih h
    · have h' := h a (by simp [List.dropWhile_cons, ha])
      exact absurd h' ha

theorem trim_eq_empty_iff (s : String) :
    trim s = "" ↔ ∀ c ∈ s.toList, espacoEmBranco c = true := by
  unfold trim
  generalize s.toList = l
  constructor
  · intro h
    have h1 : ((l.dropWhile espacoEmBranco).reverse.dropWhile espacoEmBranco).reverse = [] :=
      congrArg String.data h
    rw [List.reverse_eq_nil_iff, List.dropWhile_eq_nil_iff] at h1
    have h2 : l.dropWhile espacoEmBranco = [] :=
      dropWhile_eq_nil_of_forall_mem _ _ (fun x hx => h1 x (List.mem_reverse.mpr hx))
    exact List.dropWhile_eq_nil_iff.mp h2
  · intro h
    have h2 : l.dropWhile espacoEmBranco = [] := List.dropWhile_eq_nil_iff.mpr h
    rw [h2]
    rfl

/-- C15 (as amended): `validarDadosMinimos` returns true exactly when each of the five
required fields (razaoSocial, nomeObra, enderecoObra, nomeResponsavel, creaResponsavel)
is non-empty after `trim`, that is, holds a character that is not white space, and the
risk list is non-empty; the missing labels are the labels of the blank fields in the
order of the required-field list, and when there is one the function returns false
with the alert that lists them. -/
theorem validarDadosMinimos_iff (ap : Aplicacao) :
    ((validarDadosMinimos ap).1 = true ↔
      (trim ap.formulario.razaoSocial ≠ "" ∧ trim ap.formulario.nomeObra ≠ "" ∧
        trim ap.formulario.enderecoObra ≠ "" ∧ trim ap.formulario.nomeResponsavel ≠ "" ∧
        trim ap.formulario.creaResponsavel ≠ "" ∧ ap.estado.riscos ≠ [])) ∧
    (∀ s : String, trim s = "" ↔ ∀ c ∈ s.toList, espacoEmBranco c = true) ∧
    camposFaltantes ap.formulario =
      ((camposObrigatorios ap.formulario).filter (fun campo => trim campo.1 = "")).map
        (fun campo => campo.2) ∧
    (camposFaltantes ap.formulario).Sublist
      ["Razão Social", "Nome da Obra", "Endereço da Obra", "Nome do Responsável Técnico",
       "CREA do Responsável"] ∧
    (camposFaltantes ap.formulario ≠ [] →
      validarDadosMinimos ap =
        (false, some ("Preencha os campos obrigatórios:\n\n• " ++
          "\n• ".intercalate (camposFaltantes ap.formulario)))) := by
  have hfm : camposFaltantes ap.formulario =
      ((camposObrigatorios ap.formulario).filter (fun campo => trim campo.1 = "")).map
        (fun campo => campo.2) := by
    unfold camposFaltantes
    rw [← List.filterMap_eq_map, List.filterMap_filter]
    congr 1
    funext campo
    by_cases h : trim campo.1 = "" <;> simp [h, Option.guard]
  have hnil : camposFaltantes ap.formulario = [] ↔
      (trim ap.formulario.razaoSocial ≠ "" ∧ trim ap.formulario.nomeObra ≠ "" ∧
        trim ap.formulario.enderecoObra ≠ "" ∧ trim ap.formulario.nomeResponsavel ≠ "" ∧
        trim ap.formulario.creaResponsavel ≠ "") := by
    rw [hfm]
    simp [camposObrigatorios, List.filter_eq_nil_iff]
  refine ⟨?_, trim_eq_empty_iff, hfm, ?_, ?_⟩
  · unfold validarDadosMinimos
    by_cases hf : camposFaltantes ap.formulario = []
    · have hall := hnil.mp hf
      by_cases hr : ap.estado.riscos = []
      · simp [hf, hr]
      · have hlen : ¬ ap.estado.riscos.length = 0 := by
          simpa [List.length_eq_zero] using hr
        simp only [hf, List.length_nil, gt_iff_lt, lt_self_iff_false, if_false, hlen]
        simp [hall, hr]
    · have hpos : (camposFaltantes ap.formulario).length > 0 := List.length_pos.mpr hf
      have hnot : ¬ (trim ap.formulario.razaoSocial ≠ "" ∧ trim ap.formulario.nomeObra ≠ "" ∧
        trim ap.formulario.enderecoObra ≠ "" ∧ trim ap.formulario.nomeResponsavel ≠ "" ∧
        trim ap.formulario.creaResponsavel ≠ "") := fun h => hf (hnil.mpr h)
      simp only [hpos, if_true]
      constructor
      · intro h
        exact absurd h (by simp)
      · intro h
        exact absurd ⟨h.1, h.2.1, h.2.2.1, h.2.2.2.1, h.2.2.2.2.1⟩ hnot
  · rw [hfm]
    exact ((List.filter_sublist _).map _)
  · intro hf
    have hpos : (camposFaltantes ap.formulario).length > 0 := List.length_pos.mpr hf
    simp [validarDadosMinimos, hpos]

/-- Instance of C15 (as amended): a form whose site name and licence id are blank is
refused with these two labels, in this order. -/
theorem validarDadosMinimos_iff_witness :
    validarDadosMinimos
      { estado := (adicionarRiscoExemplo estadoInicial).estado,
        formulario :=
          { razaoSocial := "Construtora", cnpj := "", nomeObra := "", enderecoObra := "Rua A",
            cnae := "", grauRisco := "", numTrabalhadores := "", nomeResponsavel := "Ana",
            creaResponsavel := " ", artResponsavel := "", dataElaboracao := "",
            dataRevisao := "", versaoDocumento := "" },
        suporte := true, item := Armazenado.ausente } =
      (false, some ("Preencha os campos obrigatórios:\n\n• " ++
        "\n• ".intercalate ["Nome da Obra", "CREA do Responsável"])) :=
  (validarDadosMinimos_iff _).2.2.2.2 (by decide)

/-- C15 fails as stated: every required field is non-empty (the company name is a
single space) and the risk list is non-empty, yet `validarDadosMinimos` returns false,
because the fields are trimmed before they are tested. -/
theorem validarDadosMinimos_espaco :
    (" " : String) ≠ "" ∧
    (adicionarRiscoExemplo estadoInicial).estado.riscos ≠ [] ∧
    (validarDadosMinimos
      { estado := (adicionarRiscoExemplo estadoInicial).estado,
        formulario :=
          { razaoSocial := " ", cnpj := "", nomeObra := "Obra", enderecoObra := "Rua A",
            cnae := "", grauRisco := "", numTrabalhadores := "", nomeResponsavel := "Ana",
            creaResponsavel := "123", artResponsavel := "", dataElaboracao := "",
            dataRevisao := "", versaoDocumento := "" },
        suporte := true, item := Armazenado.ausente }).1 = false := by
  decide
/-! ## Saving and loading -/

theorem renumerar_ids (c : Nat) (l : List Risco) :
    (renumerar c l).map (fun r => r.id) = List.range' (c + 1) l.length := by
  induction l generalizing c with
  | nil => rfl
  | cons r l ih => simp [renumerar, ih, List.range'_succ]

theorem renumerar_length (c : Nat) (l : List Risco) : (renumerar c l).length = l.length := by
  have h := congrArg List.length (renumerar_ids c l)
  simpa using h

theorem renumerar_getElem? (c : Nat) (l : List Risco) (i : Nat) :
    (renumerar c l)[i]? = (l[i]?).map (fun r => { r with id := c + i + 1 }) := by
  induction l generalizing c i with
  | nil => simp [renumerar]
  | cons r l ih =>
    cases i with
    | zero => simp [renumerar]
    | succ i =>
      simp only [renumerar, List.getElem?_cons_succ, ih]
      congr 1
      funext x
      have : c + 1 + i + 1 = c + (i + 1) + 1 := by omega
      rw [this]

theorem renumerar_eq_self (c : Nat) (l : List Risco)
    (h : l.map (fun r => r.id) = List.range' (c + 1) l.length) : renumerar c l = l := by
  induction l generalizing c with
  | nil => rfl
  | cons r l ih =>
    simp only [List.map_cons, List.length_cons, List.range'_succ, List.cons.injEq] at h
    simp only [renumerar, ih (c + 1) h.2]
    cases r
    simp_all

theorem renumerar_forall (p : Risco → Bool) (hp : ∀ r i, p { r with id := i } = p r) (c : Nat)
    (l : List Risco) (h : ∀ r ∈ l, p r = true) : ∀ r ∈ renumerar c l, p r = true := by
  induction l generalizing c with
  | nil => intro r hr; cases hr
  | cons a l ih =>
    intro r hr
    simp only [renumerar, List.mem_cons] at hr
    rcases hr with rfl | hr
    · rw [hp]
      exact h a (List.mem_cons_self _ _)
    · exact ih (c + 1) (fun x hx => h x (List.mem_cons_of_mem _ hx)) r hr

theorem carregarRiscos_of_valido (l : List Risco) (e : Estado) (h : ∀ r ∈ l, valido r = true) :
    carregarRiscos e l =
      ({ e with
          contadorRiscos := e.contadorRiscos + l.length,
          riscos := e.riscos ++ renumerar e.contadorRiscos l,
          corpoInventarioRiscos :=
            e.corpoInventarioRiscos ++ (renumerar e.contadorRiscos l).map linhaDoRisco },
        false) := by
  induction l generalizing e with
  | nil => simp [carregarRiscos, renumerar]
  | cons r l ih =>
    have hr := h r (List.mem_cons_self _ _)
    simp only [valido, Bool.and_eq_true, decide_eq_true_eq] at hr
    obtain ⟨c, hc, -⟩ := classificar_some_of_mem hr.1 hr.2
    simp only [carregarRiscos, renderizarRisco, hc]
    rw [ih _ (fun x hx => h x (List.mem_cons_of_mem _ hx))]
    simp [renumerar, Nat.add_assoc, Nat.add_comm 1]

theorem salvarCampos_linhaDoRisco (r : Risco) (h : opcoesValidas r = true) :
    salvarCampos (linhaDoRisco r) r = r := by
  simp only [opcoesValidas, valido, Bool.and_eq_true, decide_eq_true_eq] at h
  rw [salvarCampos_eq_self_iff]
  simp [linhaDoRisco, valorSelect, h.1.1, h.1.2, h.2]

theorem sincronizado_of_linhas (e : Estado)
    (hnd : (e.riscos.map (fun r => r.id)).Nodup)
    (hle : ∀ r ∈ e.riscos, r.id ≤ e.contadorRiscos)
    (hl : e.corpoInventarioRiscos = e.riscos.map linhaDoRisco)
    (hv : ∀ r ∈ e.riscos, opcoesValidas r = true) : sincronizado e = true := by
  rw [sincronizado_iff]
  refine ⟨hle, ?_, ?_⟩
  · intro tr htr
    rw [hl] at htr
    obtain ⟨r, hr, rfl⟩ := List.mem_map.mp htr
    exact hle r hr
  · intro tr htr r hr
    rw [hl] at htr
    obtain ⟨r', hr', rfl⟩ := List.mem_map.mp htr
    have hmem : r ∈ e.riscos := List.mem_of_find?_eq_some hr
    have hid : r.id = r'.id := by
      have := List.find?_some hr
      simpa [linhaDoRisco] using this
    have : r = r' := List.inj_on_of_nodup_map hnd hmem hr' hid
    subst this
    exact salvarCampos_linhaDoRisco r (hv r hmem)
theorem opcoesValidas_id (r : Risco) (i : Nat) :
    opcoesValidas { r with id := i } = opcoesValidas r := rfl

theorem valido_of_opcoesValidas {r : Risco} (h : opcoesValidas r = true) : valido r = true := by
  simp only [opcoesValidas, Bool.and_eq_true] at h
  exact h.1

theorem carregarDadosLocal_dados (ap : Aplicacao) (confirmado : Bool) (d : DadosSalvos)
    (hs : ap.suporte = true) (hi : ap.item = Armazenado.dados d)
    (hc : ap.estado.dadosModificados = true → confirmado = true)
    (hv : ∀ r ∈ d.riscos, opcoesValidas r = true) :
    (carregarDadosLocal ap confirmado).alerta = none ∧
    (carregarDadosLocal ap confirmado).app.estado.riscos = renumerar 0 d.riscos ∧
    (carregarDadosLocal ap confirmado).app.estado.contadorRiscos = d.riscos.length ∧
    (carregarDadosLocal ap confirmado).app.estado.corpoInventarioRiscos =
      (renumerar 0 d.riscos).map linhaDoRisco := by
  have hguard : (ap.estado.dadosModificados && !confirmado) = false := by
    cases hm : ap.estado.dadosModificados
    · rfl
    · simp [hc hm]
  have hvr : ∀ r ∈ renumerar 0 d.riscos, opcoesValidas r = true :=
    renumerar_forall opcoesValidas opcoesValidas_id 0 d.riscos hv
  have hload := carregarRiscos_of_valido d.riscos
    { ap.estado with corpoInventarioRiscos := [], riscos := [], contadorRiscos := 0 }
    (fun r hr => valido_of_opcoesValidas (hv r hr))
  simp only [List.nil_append, Nat.zero_add] at hload
  have hsinc : sincronizado
      { ap.estado with
        contadorRiscos := d.riscos.length,
        riscos := renumerar 0 d.riscos,
        corpoInventarioRiscos := (renumerar 0 d.riscos).map linhaDoRisco } = true := by
    apply sincronizado_of_linhas
    · simp only [renumerar_ids]
      exact List.nodup_range' _ _
    · intro r hr
      have hm : r.id ∈ (renumerar 0 d.riscos).map (fun r => r.id) := List.mem_map_of_mem _ hr
      rw [renumerar_ids, List.mem_range'_1] at hm
      simp only
      omega
    · rfl
    · exact hvr
  have hsync := sincronizarRiscos_of_sincronizado _ hsinc
  have hstat := atualizarEstatisticas_of_valido
    { ap.estado with
      contadorRiscos := d.riscos.length,
      riscos := renumerar 0 d.riscos,
      corpoInventarioRiscos := (renumerar 0 d.riscos).map linhaDoRisco }
    (by rw [hsync]; exact fun r hr => valido_of_opcoesValidas (hvr r hr))
  rw [hsync] at hstat
  unfold carregarDadosLocal
  simp only [hs, hi, hguard, Bool.not_true, Bool.false_eq_true, if_false, hload, hstat]
  simp

/-- C16 (as amended): when the entries hold option values in their three selects and
texts free of markup, saving with `salvarDadosLocal` and loading with
`carregarDadosLocal` gives a risk list of the same length and order in which every
entry has the saved atividade, perigo, tipoRisco, fonte, consequencias, probabilidade,
severidade and foto; the ids are given anew as 1, 2, 3, ... in list order, so the list
is the saved one exactly when the saved ids were already these. -/
theorem salvar_carregar (ap : Aplicacao) (agora : String) (confirmado : Bool)
    (hs : ap.suporte = true)
    (hv : ∀ r ∈ ap.estado.riscos, opcoesValidas r = true)
    (_ht : ∀ r ∈ ap.estado.riscos, textosSimples r = true) :
    (carregarDadosLocal (salvarDadosLocal ap agora true).app confirmado).alerta = none ∧
    (carregarDadosLocal (salvarDadosLocal ap agora true).app confirmado).app.estado.riscos =
      renumerar 0 ap.estado.riscos ∧
    (carregarDadosLocal (salvarDadosLocal ap agora true).app
      confirmado).app.estado.riscos.length = ap.estado.riscos.length ∧
    (∀ i, (carregarDadosLocal (salvarDadosLocal ap agora true).app
        confirmado).app.estado.riscos[i]? =
      (ap.estado.riscos[i]?).map (fun (r : Risco) => { r with id := i + 1 })) ∧
    (ap.estado.riscos.map (fun r => r.id) = List.range' 1 ap.estado.riscos.length →
      (carregarDadosLocal (salvarDadosLocal ap agora true).app confirmado).app.estado.riscos =
        ap.estado.riscos) := by
  have happ : (salvarDadosLocal ap agora true).app =
      { ap with
        item := Armazenado.dados
          { formulario := coletarDadosFormulario ap, riscos := ap.estado.riscos,
            versao := VERSION, dataSalvamento := agora },
        estado := { ap.estado with dadosModificados := false } } := by
    simp [salvarDadosLocal, hs]
  obtain ⟨h1, h2, -, -⟩ := carregarDadosLocal_dados (salvarDadosLocal ap agora true).app
    confirmado
    { formulario := coletarDadosFormulario ap, riscos := ap.estado.riscos,
      versao := VERSION, dataSalvamento := agora }
    (by rw [happ]; exact hs) (by rw [happ]) (by rw [happ]; intro h; simp at h) hv
  refine ⟨h1, h2, ?_, ?_, ?_⟩
  · rw [h2, renumerar_length]
  · intro i
    rw [h2, renumerar_getElem?]
    simp
  · intro hids
    rw [h2]
    exact renumerar_eq_self 0 _ hids

/-- Instance of C16 (as amended): three entries stored with ids 1, 2, 3, the second
with a photo, are read back as they were saved. -/
theorem salvar_carregar_witness :
    (carregarDadosLocal (salvarDadosLocal
      { estado := (readerOnload (adicionarNovoRisco (adicionarNovoRisco
          (adicionarRiscoExemplo estadoInicial).estado).estado).estado 2
          "data:image/png;base64,iVBORw0KGgo=").estado,
        formulario := formularioVazio, suporte := true, item := Armazenado.ausente }
      "2024-01-01T00:00:00.000Z" true).app true).app.estado.riscos =
      [riscoExemplo 1,
       { novoRisco 2 with foto := some "data:image/png;base64,iVBORw0KGgo=" },
       novoRisco 3] :=
  ((salvar_carregar
    { estado := (readerOnload (adicionarNovoRisco (adicionarNovoRisco
        (adicionarRiscoExemplo estadoInicial).estado).estado).estado 2
        "data:image/png;base64,iVBORw0KGgo=").estado,
      formulario := formularioVazio, suporte := true, item := Armazenado.ausente }
    "2024-01-01T00:00:00.000Z" true rfl (by decide) (by decide)).2.2.2.2 (by decide)).trans
    (by decide)

/-- C16 fails as stated: after the example entry (id 1) is removed the store holds the
blank entry with id 2; saved and loaded, this entry comes back with id 1. -/
theorem salvar_carregar_renumera :
    (removerRisco (adicionarNovoRisco (adicionarRiscoExemplo estadoInicial).estado).estado
      1 true).estado.riscos = [novoRisco 2] ∧
    (carregarDadosLocal (salvarDadosLocal
      { estado := (removerRisco
          (adicionarNovoRisco (adicionarRiscoExemplo estadoInicial).estado).estado 1 true).estado,
        formulario := formularioVazio, suporte := true, item := Armazenado.ausente }
      "2024-01-01T00:00:00.000Z" true).app true).app.estado.riscos = [novoRisco 1] ∧
    novoRisco 1 ≠ novoRisco 2 := by
  decide

/-- C17, the two cases on the code.  A stored text that `JSON.parse` rejects leaves the
application as it was and shows the load-error alert.  Stored data whose only entry has
the probability "Altíssima" also ends in that alert, but the store, which held the
example entry with `contadorRiscos` = 1, now holds the invalid entry instead, and the
inventory table is empty. -/
theorem carregarDadosLocal_corrompido :
    (∀ (ap : Aplicacao) (confirmado : Bool), ap.item = Armazenado.malformado →
      (carregarDadosLocal ap confirmado).app = ap) ∧
    (carregarDadosLocal
      { estado := (adicionarRiscoExemplo estadoInicial).estado,
        formulario := formularioVazio, suporte := true,
        item := Armazenado.dados
          { formulario := formularioVazio,
            riscos := [{ novoRisco 5 with probabilidade := "Altíssima" }],
            versao := "2.0", dataSalvamento := "2024-01-01T00:00:00.000Z" } } true).alerta =
      some "Erro ao carregar dados.\n\nO arquivo pode estar corrompido." ∧
    (adicionarRiscoExemplo estadoInicial).estado.riscos = [riscoExemplo 1] ∧
    (carregarDadosLocal
      { estado := (adicionarRiscoExemplo estadoInicial).estado,
        formulario := formularioVazio, suporte := true,
        item := Armazenado.dados
          { formulario := formularioVazio,
            riscos := [{ novoRisco 5 with probabilidade := "Altíssima" }],
            versao := "2.0", dataSalvamento := "2024-01-01T00:00:00.000Z" } } true).app.estado.riscos =
      [{ novoRisco 1 with probabilidade := "Altíssima" }] ∧
    (carregarDadosLocal
      { estado := (adicionarRiscoExemplo estadoInicial).estado,
        formulario := formularioVazio, suporte := true,
        item := Armazenado.dados
          { formulario := formularioVazio,
            riscos := [{ novoRisco 5 with probabilidade := "Altíssima" }],
            versao := "2.0", dataSalvamento := "2024-01-01T00:00:00.000Z" } }
      true).app.estado.corpoInventarioRiscos = [] := by
  refine ⟨?_, by decide, by decide, by decide, by decide⟩
  intro ap confirmado hi
  unfold carregarDadosLocal
  rw [hi]
  simp only
  split_ifs <;> rfl
/-! ## Removing entries -/

theorem atualizarEstatisticas_cases (e : Estado) :
    (contarNiveis (sincronizarRiscos e).riscos (0, 0, 0) = none ∧
      atualizarEstatisticas e =
        { estado := sincronizarRiscos e, alerta := none, excecao := true }) ∨
    (∃ a m b, contarNiveis (sincronizarRiscos e).riscos (0, 0, 0) = some (a, m, b) ∧
      atualizarEstatisticas e =
        { estado := { sincronizarRiscos e with painel :=
            { totalRiscos := (sincronizarRiscos e).riscos.length, riscosAltos := a,
              riscosMedios := m, riscosBaixos := b } },
          alerta := none, excecao := false }) := by
  cases h : contarNiveis (sincronizarRiscos e).riscos (0, 0, 0) with
  | none =>
    refine Or.inl ⟨rfl, ?_⟩
    unfold atualizarEstatisticas
    simp only [h]
  | some t =>
    obtain ⟨a, m, b⟩ := t
    refine Or.inr ⟨a, m, b, rfl, ?_⟩
    unfold atualizarEstatisticas
    simp only [h]

theorem eraseP_forall_not {α : Type} (p : α → Bool) (l : List α) (h : l.countP p ≤ 1) :
    ∀ a ∈ l.eraseP p, p a = false := by
  induction l with
  | nil => intro a ha; cases ha
  | cons x l ih =>
    by_cases hx : p x = true
    · simp only [List.eraseP_cons_of_pos hx]
      have h0 : l.countP p = 0 := by
        simp only [List.countP_cons, hx, if_true] at h
        omega
      intro a ha
      have := (List.countP_eq_zero.mp h0) a ha
      simpa using this
    · simp only [List.eraseP_cons_of_neg hx]
      have h1 : l.countP p ≤ 1 := by
        simpa [List.countP_cons, hx] using h
      intro a ha
      rcases List.mem_cons.mp ha with rfl | ha
      · simpa using hx
      · exact ih h1 a ha

theorem eraseP_eq_self_of_forall_not {α : Type} (p : α → Bool) (l : List α)
    (h : ∀ a ∈ l, p a = false) : l.eraseP p = l := by
  induction l with
  | nil => rfl
  | cons x l ih =>
    have hx : ¬ p x = true := by simp [h x (List.mem_cons_self _ _)]
    rw [List.eraseP_cons_of_neg hx, ih (fun a ha => h a (List.mem_cons_of_mem _ ha))]

theorem find?_filter_ne (riscos : List Risco) (riscoId id : Nat) (h : id ≠ riscoId) :
    (riscos.filter (fun r => r.id != riscoId)).find? (fun r => r.id == id) =
      riscos.find? (fun r => r.id == id) := by
  induction riscos with
  | nil => rfl
  | cons r l ih =>
    by_cases hr : r.id = riscoId
    · have h1 : (r.id != riscoId) = false := by simp [hr]
      have h2 : (r.id == id) = false := by
        simp only [beq_eq_false_iff_ne, ne_eq]
        intro h'
        exact h (h'.symm.trans hr)
      simp only [List.filter_cons, h1, Bool.false_eq_true, if_false, List.find?_cons, h2, ih]
    · have h1 : (r.id != riscoId) = true := by simp [hr]
      simp only [List.filter_cons, h1, if_true, List.find?_cons, ih]

theorem sincronizado_remover (e : Estado) (riscoId : Nat) (h : sincronizado e = true) :
    sincronizado { e with
      riscos := e.riscos.filter (fun r => r.id != riscoId),
      corpoInventarioRiscos :=
        e.corpoInventarioRiscos.eraseP (fun tr => tr.riscoId == riscoId) } = true := by
  obtain ⟨h1, h2, h3⟩ := (sincronizado_iff e).mp h
  rw [sincronizado_iff]
  refine ⟨fun r hr => h1 r (List.mem_of_mem_filter hr),
    fun tr htr => h2 tr (List.mem_of_mem_eraseP htr), ?_⟩
  intro tr htr r hr
  have htr' : tr ∈ e.corpoInventarioRiscos := List.mem_of_mem_eraseP htr
  by_cases hid : tr.riscoId = riscoId
  · have hmem := List.mem_of_find?_eq_some hr
    have hrid := List.find?_some hr
    simp only [List.mem_filter, bne_iff_ne, ne_eq] at hmem
    simp only [beq_iff_eq] at hrid
    exact absurd (hrid.trans hid) hmem.2
  · simp only at hr
    rw [find?_filter_ne _ _ _ hid] at hr
    exact h3 tr htr' r hr

theorem removerRisco_estado_riscos (e : Estado) (riscoId : Nat) :
    (removerRisco e riscoId true).estado.riscos =
      (sincronizarRiscos { e with
        riscos := e.riscos.filter (fun r => r.id != riscoId),
        corpoInventarioRiscos :=
          e.corpoInventarioRiscos.eraseP (fun tr => tr.riscoId == riscoId) }).riscos := by
  unfold removerRisco
  simp only [Bool.not_true, Bool.false_eq_true, if_false]
  split
  · rw [atualizarEstatisticas_riscos]
  · simp only
    rw [atualizarEstatisticas_riscos]

theorem removerRisco_fixo (y : Estado) (riscoId : Nat)
    (hr : ∀ r ∈ y.riscos, r.id ≠ riscoId)
    (hl : ∀ tr ∈ y.corpoInventarioRiscos, tr.riscoId ≠ riscoId)
    (hs : sincronizarRiscos y = y) :
    (contarNiveis y.riscos (0, 0, 0) = none ∧
      removerRisco y riscoId true = { estado := y, alerta := none, excecao := true }) ∨
    (∃ a m b, contarNiveis y.riscos (0, 0, 0) = some (a, m, b) ∧
      removerRisco y riscoId true =
        { estado := { y with
            painel := { totalRiscos := y.riscos.length, riscosAltos := a,
                        riscosMedios := m, riscosBaixos := b },
            dadosModificados := true, planoAcaoGerado := false },
          alerta := none, excecao := false }) := by
  have hf : y.riscos.filter (fun r => r.id != riscoId) = y.riscos := by
    rw [List.filter_eq_self]
    intro r hr'
    simpa using hr r hr'
  have he : y.corpoInventarioRiscos.eraseP (fun tr => tr.riscoId == riscoId) =
      y.corpoInventarioRiscos :=
    eraseP_eq_self_of_forall_not _ _ (fun tr htr => by simpa using hl tr htr)
  have hrem : removerRisco y riscoId true =
      if (atualizarEstatisticas y).excecao = true then atualizarEstatisticas y
      else { estado := { (atualizarEstatisticas y).estado with
               dadosModificados := true, planoAcaoGerado := false },
             alerta := none, excecao := false } := by
    unfold removerRisco
    simp only [Bool.not_true, Bool.false_eq_true, if_false, hf, he]
  rcases atualizarEstatisticas_cases y with ⟨hn, h1⟩ | ⟨a, m, b, hc, h1⟩
  · rw [hs] at hn h1
    exact Or.inl ⟨hn, by rw [hrem, h1]; rfl⟩
  · rw [hs] at hc h1
    exact Or.inr ⟨a, m, b, hc, by rw [hrem, h1]; rfl⟩
theorem sincronizarRiscos_fixo_of (y s : Estado) (hr : y.riscos = s.riscos)
    (hl : y.corpoInventarioRiscos = s.corpoInventarioRiscos) (hs : sincronizarRiscos s = s) :
    sincronizarRiscos y = y := by
  have h := sincronizarRiscos_congr y s hr hl
  rw [hs, ← hr] at h
  rw [sincronizarRiscos_eq y, h]

theorem removerRisco_idem (e : Estado) (riscoId : Nat)
    (hrow : e.corpoInventarioRiscos.countP (fun tr => tr.riscoId == riscoId) ≤ 1) :
    removerRisco (removerRisco e riscoId true).estado riscoId true =
      removerRisco e riscoId true := by
  have hsx := sincronizarRiscos_eq { e with
      riscos := e.riscos.filter (fun r => r.id != riscoId),
      corpoInventarioRiscos :=
        e.corpoInventarioRiscos.eraseP (fun tr => tr.riscoId == riscoId) }
  have hidx := sincronizarRiscos_ids { e with
      riscos := e.riscos.filter (fun r => r.id != riscoId),
      corpoInventarioRiscos :=
        e.corpoInventarioRiscos.eraseP (fun tr => tr.riscoId == riscoId) }
  have hidem := sincronizarRiscos_idem { e with
      riscos := e.riscos.filter (fun r => r.id != riscoId),
      corpoInventarioRiscos :=
        e.corpoInventarioRiscos.eraseP (fun tr => tr.riscoId == riscoId) }
  have hcases := atualizarEstatisticas_cases { e with
      riscos := e.riscos.filter (fun r => r.id != riscoId),
      corpoInventarioRiscos :=
        e.corpoInventarioRiscos.eraseP (fun tr => tr.riscoId == riscoId) }
  have hrem : removerRisco e riscoId true =
      if (atualizarEstatisticas { e with
          riscos := e.riscos.filter (fun r => r.id != riscoId),
          corpoInventarioRiscos :=
            e.corpoInventarioRiscos.eraseP (fun tr => tr.riscoId == riscoId) }).excecao = true
      then atualizarEstatisticas { e with
          riscos := e.riscos.filter (fun r => r.id != riscoId),
          corpoInventarioRiscos :=
            e.corpoInventarioRiscos.eraseP (fun tr => tr.riscoId == riscoId) }
      else { estado := { (atualizarEstatisticas { e with
                riscos := e.riscos.filter (fun r => r.id != riscoId),
                corpoInventarioRiscos :=
                  e.corpoInventarioRiscos.eraseP (fun tr => tr.riscoId == riscoId) }).estado with
               dadosModificados := true, planoAcaoGerado := false },
             alerta := none, excecao := false } := by
    unfold removerRisco
    simp only [Bool.not_true, Bool.false_eq_true, if_false]
  generalize hx : ({ e with
      riscos := e.riscos.filter (fun r => r.id != riscoId),
      corpoInventarioRiscos :=
        e.corpoInventarioRiscos.eraseP (fun tr => tr.riscoId == riscoId) } : Estado) = x
    at hsx hidx hidem hcases hrem
  have hxr : x.riscos = e.riscos.filter (fun r => r.id != riscoId) := by rw [← hx]
  have hxl : x.corpoInventarioRiscos =
      e.corpoInventarioRiscos.eraseP (fun tr => tr.riscoId == riscoId) := by rw [← hx]
  have hsr : ∀ r ∈ (sincronizarRiscos x).riscos, r.id ≠ riscoId := by
    intro r hr
    have hm : r.id ∈ (sincronizarRiscos x).riscos.map (fun r => r.id) := List.mem_map_of_mem _ hr
    rw [hidx, hxr] at hm
    obtain ⟨r', hr', hid⟩ := List.mem_map.mp hm
    have := (List.mem_filter.mp hr').2
    rw [← hid]
    simpa using this
  have hsl : ∀ tr ∈ (sincronizarRiscos x).corpoInventarioRiscos, tr.riscoId ≠ riscoId := by
    intro tr htr
    rw [hsx] at htr
    simp only [hxl] at htr
    have := eraseP_forall_not _ _ hrow tr htr
    simpa using this
  rcases hcases with ⟨hn, h1⟩ | ⟨a, m, b, hc, h1⟩
  · have hr1 : removerRisco e riscoId true =
        { estado := sincronizarRiscos x, alerta := none, excecao := true } := by
      rw [hrem, h1]
      rfl
    rw [hr1]
    rcases removerRisco_fixo (sincronizarRiscos x) riscoId hsr hsl hidem with
      ⟨-, h2⟩ | ⟨a, m, b, hc, -⟩
    · exact h2
    · rw [hn] at hc
      cases hc
  · have hr1 : removerRisco e riscoId true =
        { estado := { sincronizarRiscos x with
            painel := { totalRiscos := (sincronizarRiscos x).riscos.length, riscosAltos := a,
                        riscosMedios := m, riscosBaixos := b },
            dadosModificados := true, planoAcaoGerado := false },
          alerta := none, excecao := false } := by
      rw [hrem, h1]
      rfl
    rw [hr1]
    rcases removerRisco_fixo { sincronizarRiscos x with
            painel := { totalRiscos := (sincronizarRiscos x).riscos.length, riscosAltos := a,
                        riscosMedios := m, riscosBaixos := b },
            dadosModificados := true, planoAcaoGerado := false } riscoId hsr hsl
        (sincronizarRiscos_fixo_of _ (sincronizarRiscos x) rfl rfl hidem) with
      ⟨hn, -⟩ | ⟨a', m', b', hc', h2⟩
    · have hn' : contarNiveis (sincronizarRiscos x).riscos (0, 0, 0) = none := hn
      rw [hc] at hn'
      cases hn'
    · have hc'' : contarNiveis (sincronizarRiscos x).riscos (0, 0, 0) = some (a', m', b') := hc'
      rw [hc] at hc''
      have ht : (a, m, b) = (a', m', b') := Option.some.inj hc''
      simp only [Prod.mk.injEq] at ht
      obtain ⟨rfl, rfl, rfl⟩ := ht
      exact h2

theorem removerRisco_confirmado (e : Estado) (riscoId : Nat) :
    removerRisco e riscoId true =
      if (atualizarEstatisticas { e with
          riscos := e.riscos.filter (fun r => r.id != riscoId),
          corpoInventarioRiscos :=
            e.corpoInventarioRiscos.eraseP (fun tr => tr.riscoId == riscoId) }).excecao = true
      then atualizarEstatisticas { e with
          riscos := e.riscos.filter (fun r => r.id != riscoId),
          corpoInventarioRiscos :=
            e.corpoInventarioRiscos.eraseP (fun tr => tr.riscoId == riscoId) }
      else { estado := { (atualizarEstatisticas { e with
                riscos := e.riscos.filter (fun r => r.id != riscoId),
                corpoInventarioRiscos :=
                  e.corpoInventarioRiscos.eraseP (fun tr => tr.riscoId == riscoId) }).estado with
               dadosModificados := true, planoAcaoGerado := false },
             alerta := none, excecao := false } := by
  unfold removerRisco
  simp only [Bool.not_true, Bool.false_eq_true, if_false]

theorem removerRisco_of_valido (e : Estado) (riscoId : Nat)
    (hval : ∀ r ∈ (removerRisco e riscoId true).estado.riscos, valido r = true) :
    (removerRisco e riscoId true).excecao = false ∧
    (removerRisco e riscoId true).estado.painel =
      { totalRiscos := (removerRisco e riscoId true).estado.riscos.length,
        riscosAltos := (removerRisco e riscoId true).estado.riscos.countP
          (fun r => nivelDoRisco r == some "Alto"),
        riscosMedios := (removerRisco e riscoId true).estado.riscos.countP
          (fun r => nivelDoRisco r == some "Médio"),
        riscosBaixos := (removerRisco e riscoId true).estado.riscos.countP
          (fun r => nivelDoRisco r == some "Baixo") } := by
  have hrs := removerRisco_estado_riscos e riscoId
  rw [hrs] at hval
  rw [hrs]
  have h := atualizarEstatisticas_of_valido _ hval
  have hrem := removerRisco_confirmado e riscoId
  rw [h] at hrem
  simp only [Bool.false_eq_true, if_false, Nat.zero_add] at hrem
  rw [hrem]
  exact ⟨rfl, rfl⟩

theorem removerRisco_excecao (e : Estado) (riscoId : Nat)
    (hex : (removerRisco e riscoId true).excecao = true) :
    (removerRisco e riscoId true).estado.painel = e.painel ∧
    (removerRisco e riscoId true).estado.dadosModificados = e.dadosModificados ∧
    (removerRisco e riscoId true).estado.planoAcaoGerado = e.planoAcaoGerado := by
  have hrem := removerRisco_confirmado e riscoId
  rcases atualizarEstatisticas_cases { e with
      riscos := e.riscos.filter (fun r => r.id != riscoId),
      corpoInventarioRiscos :=
        e.corpoInventarioRiscos.eraseP (fun tr => tr.riscoId == riscoId) } with
    ⟨-, h1⟩ | ⟨a, m, b, -, h1⟩
  · rw [h1] at hrem
    simp only [if_true] at hrem
    rw [hrem]
    simp only
    rw [sincronizarRiscos_eq]
    exact ⟨rfl, rfl, rfl⟩
  · rw [h1] at hrem
    simp only [Bool.false_eq_true, if_false] at hrem
    rw [hrem] at hex
    cases hex

theorem removerRisco_total (e : Estado) (riscoId : Nat)
    (hex : (removerRisco e riscoId true).excecao = false) :
    (removerRisco e riscoId true).estado.painel.totalRiscos =
      (removerRisco e riscoId true).estado.riscos.length := by
  have hrem := removerRisco_confirmado e riscoId
  rcases atualizarEstatisticas_cases { e with
      riscos := e.riscos.filter (fun r => r.id != riscoId),
      corpoInventarioRiscos :=
        e.corpoInventarioRiscos.eraseP (fun tr => tr.riscoId == riscoId) } with
    ⟨-, h1⟩ | ⟨a, m, b, -, h1⟩
  · rw [h1] at hrem
    simp only [if_true] at hrem
    rw [hrem] at hex
    cases hex
  · rw [h1] at hrem
    simp only [Bool.false_eq_true, if_false] at hrem
    rw [hrem]

/-- C11 (as amended): with the confirmation given, `removerRisco` leaves no entry with
the id in the store, the other entries keeping their ids and order (and their values
when the rows show the stored values); it takes out of the table the first row that
carries the id and leaves the other rows as they are; and it recomputes the statistics
over the entries that remain: when these hold values of the two enumerations there is no
exception, the total shown is their number and the Alto, Médio and Baixo counters are
the numbers of remaining entries of each tier, which add up to the total.  When the
table has at most one row for the id, removing the same id again gives the same result
as removing it once.  Removing an id that no stored entry has leaves the risk list, the
rows, the counter and the rendered plan as they were when the rows show the stored
values and none of them carries the id, but, as every confirmed removal that does not
raise, it sets `dadosModificados` and clears `planoAcaoGerado`.  A removal that raises
leaves the panel and the two flags as they were; without the confirmation nothing
changes. -/
theorem removerRisco_remove (e : Estado) (riscoId : Nat) :
    (∀ r ∈ (removerRisco e riscoId true).estado.riscos, r.id ≠ riscoId) ∧
    (removerRisco e riscoId true).estado.riscos.map (fun r => r.id) =
      (e.riscos.map (fun r => r.id)).filter (fun i => i != riscoId) ∧
    (sincronizado e = true →
      (removerRisco e riscoId true).estado.riscos =
        e.riscos.filter (fun r => r.id != riscoId)) ∧
    (e.corpoInventarioRiscos.countP (fun tr => tr.riscoId == riscoId) ≤ 1 →
      removerRisco (removerRisco e riscoId true).estado riscoId true =
        removerRisco e riscoId true) ∧
    ((∀ r ∈ e.riscos, r.id ≠ riscoId) → sincronizado e = true →
      (removerRisco e riscoId true).estado.riscos = e.riscos) ∧
    ((∀ tr ∈ e.corpoInventarioRiscos, tr.riscoId ≠ riscoId) →
      (removerRisco e riscoId true).estado.corpoInventarioRiscos = e.corpoInventarioRiscos) ∧
    (removerRisco e riscoId true).estado.contadorRiscos = e.contadorRiscos ∧
    (removerRisco e riscoId true).estado.corpoPlanoAcao = e.corpoPlanoAcao ∧
    ((removerRisco e riscoId true).excecao = false →
      (removerRisco e riscoId true).estado.dadosModificados = true ∧
      (removerRisco e riscoId true).estado.planoAcaoGerado = false) ∧
    (removerRisco e riscoId true).estado.corpoInventarioRiscos =
      e.corpoInventarioRiscos.eraseP (fun tr => tr.riscoId == riscoId) ∧
    (∀ (antes : List Linha) (tr : Linha) (depois : List Linha),
      e.corpoInventarioRiscos = antes ++ tr :: depois → tr.riscoId = riscoId →
      (∀ x ∈ antes, x.riscoId ≠ riscoId) →
      (removerRisco e riscoId true).estado.corpoInventarioRiscos = antes ++ depois) ∧
    ((∀ r ∈ (removerRisco e riscoId true).estado.riscos, valido r = true) →
      (removerRisco e riscoId true).excecao = false ∧
      (removerRisco e riscoId true).estado.painel.totalRiscos =
        (removerRisco e riscoId true).estado.riscos.length ∧
      (removerRisco e riscoId true).estado.painel.riscosAltos =
        (removerRisco e riscoId true).estado.riscos.countP
          (fun r => nivelDoRisco r == some "Alto") ∧
      (removerRisco e riscoId true).estado.painel.riscosMedios =
        (removerRisco e riscoId true).estado.riscos.countP
          (fun r => nivelDoRisco r == some "Médio") ∧
      (removerRisco e riscoId true).estado.painel.riscosBaixos =
        (removerRisco e riscoId true).estado.riscos.countP
          (fun r => nivelDoRisco r == some "Baixo") ∧
      (removerRisco e riscoId true).estado.painel.riscosAltos +
        (removerRisco e riscoId true).estado.painel.riscosMedios +
        (removerRisco e riscoId true).estado.painel.riscosBaixos =
        (removerRisco e riscoId true).estado.painel.totalRiscos) ∧
    ((removerRisco e riscoId true).excecao = false →
      (removerRisco e riscoId true).estado.painel.totalRiscos =
        (removerRisco e riscoId true).estado.riscos.length ∧
      (removerRisco e riscoId true).estado.painel.totalRiscos =
        (e.riscos.filter (fun r => r.id != riscoId)).length) ∧
    ((removerRisco e riscoId true).excecao = true →
      (removerRisco e riscoId true).estado.painel = e.painel ∧
      (removerRisco e riscoId true).estado.dadosModificados = e.dadosModificados ∧
      (removerRisco e riscoId true).estado.planoAcaoGerado = e.planoAcaoGerado) ∧
    removerRisco e riscoId false = { estado := e, alerta := none, excecao := false } := by
  have hids : (removerRisco e riscoId true).estado.riscos.map (fun r => r.id) =
      (e.riscos.map (fun r => r.id)).filter (fun i => i != riscoId) := by
    rw [removerRisco_estado_riscos, sincronizarRiscos_ids]
    simp only [List.filter_map]
    rfl
  have hfilt : sincronizado e = true →
      (removerRisco e riscoId true).estado.riscos =
        e.riscos.filter (fun r => r.id != riscoId) := by
    intro hs
    rw [removerRisco_estado_riscos,
      sincronizarRiscos_of_sincronizado _ (sincronizado_remover e riscoId hs)]
  have hresto : (removerRisco e riscoId true).estado =
      { (removerRisco e riscoId true).estado with
        contadorRiscos := e.contadorRiscos,
        corpoInventarioRiscos :=
          e.corpoInventarioRiscos.eraseP (fun tr => tr.riscoId == riscoId),
        corpoPlanoAcao := e.corpoPlanoAcao } := by
    unfold removerRisco
    simp only [Bool.not_true, Bool.false_eq_true, if_false]
    split
    · rw [atualizarEstatisticas_estado, sincronizarRiscos_eq]
    · simp only
      rw [atualizarEstatisticas_estado, sincronizarRiscos_eq]
  have hlinhas : (removerRisco e riscoId true).estado.corpoInventarioRiscos =
      e.corpoInventarioRiscos.eraseP (fun tr => tr.riscoId == riscoId) := by
    rw [hresto]
  refine ⟨?_, hids, hfilt, removerRisco_idem e riscoId, ?_, ?_, ?_, ?_, ?_, hlinhas, ?_, ?_, ?_,
    removerRisco_excecao e riscoId, rfl⟩
  · intro r hr
    have hm : r.id ∈ (removerRisco e riscoId true).estado.riscos.map (fun r => r.id) :=
      List.mem_map_of_mem _ hr
    rw [hids] at hm
    simpa using (List.mem_filter.mp hm).2
  · intro habs hs
    rw [hfilt hs, List.filter_eq_self]
    intro r hr
    simpa using habs r hr
  · intro habs
    rw [hlinhas]
    exact eraseP_eq_self_of_forall_not _ _ (fun tr htr => by simpa using habs tr htr)
  · rw [hresto]
  · rw [hresto]
  · intro hex
    unfold removerRisco at hex ⊢
    simp only [Bool.not_true, Bool.false_eq_true, if_false] at hex ⊢
    split
    · rename_i h
      rw [if_pos h] at hex
      rw [h] at hex
      cases hex
    · exact ⟨rfl, rfl⟩
  · intro antes tr depois hl htr hantes
    rw [hlinhas, hl,
      List.eraseP_append_right _ (fun x hx => by simpa using hantes x hx),
      List.eraseP_cons_of_pos (by simpa using htr)]
  · intro hval
    obtain ⟨hex, hp⟩ := removerRisco_of_valido e riscoId hval
    have hsum := countP_niveis_of_valido _ hval
    rw [hp]
    exact ⟨hex, rfl, rfl, rfl, rfl, hsum⟩
  · intro hex
    have ht := removerRisco_total e riscoId hex
    refine ⟨ht, ?_⟩
    have hl := congrArg List.length hids
    rw [List.length_map, List.filter_map, List.length_map] at hl
    rw [ht, hl]
    rfl

/-- Instance of C11 (as amended): with the example entry (Alto) and a blank entry
(Médio) stored, removing id 1 twice gives the result of removing it once; the removal
leaves the blank entry and its row only, raises nothing, and the panel shows 1 entry, 0
Alto, 1 Médio, 0 Baixo. -/
theorem removerRisco_remove_witness :
    removerRisco (removerRisco
      (adicionarNovoRisco (adicionarRiscoExemplo estadoInicial).estado).estado 1 true).estado
      1 true =
    removerRisco (adicionarNovoRisco (adicionarRiscoExemplo estadoInicial).estado).estado
      1 true ∧
    (adicionarNovoRisco (adicionarRiscoExemplo estadoInicial).estado).estado.corpoInventarioRiscos =
      [linhaDoRisco (riscoExemplo 1), linhaDoRisco (novoRisco 2)] ∧
    (removerRisco (adicionarNovoRisco (adicionarRiscoExemplo estadoInicial).estado).estado
      1 true).estado.corpoInventarioRiscos = [linhaDoRisco (novoRisco 2)] ∧
    (removerRisco (adicionarNovoRisco (adicionarRiscoExemplo estadoInicial).estado).estado
      1 true).estado.riscos = [novoRisco 2] ∧
    (adicionarNovoRisco (adicionarRiscoExemplo estadoInicial).estado).estado.painel =
      { totalRiscos := 2, riscosAltos := 1, riscosMedios := 1, riscosBaixos := 0 } ∧
    (removerRisco (adicionarNovoRisco (adicionarRiscoExemplo estadoInicial).estado).estado
      1 true).estado.painel =
      { totalRiscos := 1, riscosAltos := 0, riscosMedios := 1, riscosBaixos := 0 } ∧
    (removerRisco (adicionarNovoRisco (adicionarRiscoExemplo estadoInicial).estado).estado
      1 true).excecao = false :=
  ⟨(removerRisco_remove (adicionarNovoRisco (adicionarRiscoExemplo estadoInicial).estado).estado
      1).2.2.2.1 (by decide),
   by decide,
   ((removerRisco_remove (adicionarNovoRisco (adicionarRiscoExemplo estadoInicial).estado).estado
      1).2.2.2.2.2.2.2.2.2.2.1 [] (linhaDoRisco (riscoExemplo 1)) [linhaDoRisco (novoRisco 2)]
      (by decide) rfl (by simp)),
   by decide,
   by decide,
   by decide,
   ((removerRisco_remove (adicionarNovoRisco (adicionarRiscoExemplo estadoInicial).estado).estado
      1).2.2.2.2.2.2.2.2.2.2.2.1 (by decide)).1⟩

/-- C11 fails as stated: a plan has been generated for the example entry, so
`planoAcaoGerado` is true; removing the id 7, which no stored entry has, is confirmed
and clears `planoAcaoGerado`, so the state is not the one before. -/
theorem removerRisco_id_ausente_altera :
    (∀ r ∈ (gerarPlanoAcao (adicionarRiscoExemplo estadoInicial).estado false).estado.riscos,
      r.id ≠ 7) ∧
    (gerarPlanoAcao (adicionarRiscoExemplo estadoInicial).estado
      false).estado.planoAcaoGerado = true ∧
    (removerRisco (gerarPlanoAcao (adicionarRiscoExemplo estadoInicial).estado false).estado
      7 true).estado.planoAcaoGerado = false ∧
    (removerRisco (gerarPlanoAcao (adicionarRiscoExemplo estadoInicial).estado false).estado
      7 true).estado ≠
      (gerarPlanoAcao (adicionarRiscoExemplo estadoInicial).estado false).estado := by
  have h2 : (gerarPlanoAcao (adicionarRiscoExemplo estadoInicial).estado
      false).estado.planoAcaoGerado = true := by decide
  have h3 : (removerRisco
      (gerarPlanoAcao (adicionarRiscoExemplo estadoInicial).estado false).estado
      7 true).estado.planoAcaoGerado = false := by decide
  refine ⟨by decide, h2, h3, fun h => ?_⟩
  rw [h, h2] at h3
  cases h3

/-! ## Priorities and the risk summary -/

theorem mem_niveis {n : String} : n ∈ niveis ↔ n = "Baixo" ∨ n = "Médio" ∨ n = "Alto" := by
  simp [niveis]

/-- C21 (as amended): on the three tiers the map tier → priority of `gerarAcaoParaRisco`
is one-to-one and its values are exactly Imediata, Urgente and Programada: two
classifications give the same priority exactly when they have the same tier, each of
the three priorities is the priority of one tier, and the badge class of a generated
item is never `prioridade-monitoramento`. -/
theorem prioridade_injetiva (r₁ r₂ : Risco) (c₁ c₂ : Classificacao)
    (h₁ : c₁.nivel ∈ niveis) (h₂ : c₂.nivel ∈ niveis) :
    ((gerarAcaoParaRisco r₁ c₁).prioridade = (gerarAcaoParaRisco r₂ c₂).prioridade ↔
      c₁.nivel = c₂.nivel) ∧
    (gerarAcaoParaRisco r₁ c₁).prioridade ∈ ["Imediata", "Urgente", "Programada"] ∧
    (∀ p ∈ ["Imediata", "Urgente", "Programada"], ∃ n ∈ niveis,
      ∀ (r : Risco) (c : Classificacao), c.nivel = n → (gerarAcaoParaRisco r c).prioridade = p) ∧
    classePrioridade (gerarAcaoParaRisco r₁ c₁).prioridade ≠ "prioridade-monitoramento" := by
  rw [mem_niveis] at h₁ h₂
  refine ⟨?_, ?_, ?_, ?_⟩
  · rcases h₁ with h₁ | h₁ | h₁ <;> rcases h₂ with h₂ | h₂ | h₂ <;>
      simp [gerarAcaoParaRisco, h₁, h₂]
  · rcases h₁ with h₁ | h₁ | h₁ <;> simp [gerarAcaoParaRisco, h₁]
  · intro p hp
    simp only [List.mem_cons, List.mem_singleton, List.not_mem_nil, or_false] at hp
    rcases hp with rfl | rfl | rfl
    · exact ⟨"Alto", by decide, fun r c hc => by simp [gerarAcaoParaRisco, hc]⟩
    · exact ⟨"Médio", by decide, fun r c hc => by simp [gerarAcaoParaRisco, hc]⟩
    · exact ⟨"Baixo", by decide, fun r c hc => by simp [gerarAcaoParaRisco, hc]⟩
  · rcases h₁ with h₁ | h₁ | h₁ <;> simp [gerarAcaoParaRisco, h₁, classePrioridade]

/-- Instance of C21 (as amended): the tiers Alto and Baixo give different priorities. -/
theorem prioridade_injetiva_witness :
    ¬ (gerarAcaoParaRisco (riscoExemplo 1)
        { nivel := "Alto", classe := "alto", cor := "#ef4444" }).prioridade =
      (gerarAcaoParaRisco (riscoErgonomicoBaixo 2)
        { nivel := "Baixo", classe := "baixo", cor := "#10b981" }).prioridade :=
  fun h => absurd ((prioridade_injetiva (riscoExemplo 1) (riscoErgonomicoBaixo 2)
    { nivel := "Alto", classe := "alto", cor := "#ef4444" }
    { nivel := "Baixo", classe := "baixo", cor := "#10b981" }
    (by decide) (by decide)).1.mp h) (by decide)

/-- C21 fails as stated: no entry and no classification make `gerarAcaoParaRisco` produce
a priority that `renderizarAcao` shows with the fourth badge class,
`prioridade-monitoramento`; in particular the priority "Monitoramento" is the priority
of no tier, so the map from the three tiers is not onto the four priorities. -/
theorem prioridade_monitoramento_ausente :
    classePrioridade "Monitoramento" = "prioridade-monitoramento" ∧
    (¬ ∃ (r : Risco) (c : Classificacao),
      (gerarAcaoParaRisco r c).prioridade = "Monitoramento") ∧
    (¬ ∃ (r : Risco) (c : Classificacao),
      classePrioridade (gerarAcaoParaRisco r c).prioridade = "prioridade-monitoramento") := by
  refine ⟨by decide, ?_, ?_⟩
  · rintro ⟨r, c, h⟩
    unfold gerarAcaoParaRisco at h
    split_ifs at h <;> simp at h
  · rintro ⟨r, c, h⟩
    unfold gerarAcaoParaRisco at h
    split_ifs at h <;> simp [classePrioridade] at h

/-- C22 (as amended): the field `risco` of the item that `gerarAcaoParaRisco` returns is
the entry's activity text, the separator " - " and the entry's hazard text, in this
order; it depends on no other field and not on the classification. -/
theorem gerarAcaoParaRisco_risco (risco : Risco) (classificacao : Classificacao) :
    (gerarAcaoParaRisco risco classificacao).risco =
      risco.atividade ++ " - " ++ risco.perigo := by
  unfold gerarAcaoParaRisco
  split_ifs <;> rfl

/-- C22 fails as stated: for the example entry the field `risco` is not the activity
text followed directly by the hazard text, because the separator " - " stands between
them. -/
theorem gerarAcaoParaRisco_risco_separador :
    (gerarAcaoParaRisco (riscoExemplo 1)
      { nivel := "Alto", classe := "alto", cor := "#ef4444" }).risco =
      "Trabalho em Altura - Montagem de Estruturas Metálicas - Queda de diferença de nível superior a 2,00m" ∧
    (gerarAcaoParaRisco (riscoExemplo 1)
      { nivel := "Alto", classe := "alto", cor := "#ef4444" }).risco ≠
      (riscoExemplo 1).atividade ++ (riscoExemplo 1).perigo := by
  decide

/-! ## Saving the fields of a row -/

/-- C26: when an entry of the store has the id, `salvarAlteracoesRisco` replaces the
first such entry by the same entry with atividade, perigo, tipoRisco, fonte,
consequencias, probabilidade and severidade taken from the row, its id and foto being
kept; every other entry, the length and order of the list and every other part of the
state, `contadorRiscos` included, are unchanged. -/
theorem salvarAlteracoesRisco_campos (e : Estado) (riscoId : Nat) (tr : Linha)
    (pre pos : List Risco) (r : Risco) (hdec : e.riscos = pre ++ r :: pos)
    (hid : r.id = riscoId) (hpre : ∀ x ∈ pre, x.id ≠ riscoId) :
    salvarAlteracoesRisco e riscoId tr =
      { e with riscos := pre ++
          { id := r.id, atividade := tr.atividade, perigo := tr.perigo,
            tipoRisco := tr.tipoRisco, fonte := tr.fonte, consequencias := tr.consequencias,
            probabilidade := tr.probabilidade, severidade := tr.severidade,
            foto := r.foto } :: pos } ∧
    (salvarAlteracoesRisco e riscoId tr).riscos.length = e.riscos.length ∧
    (salvarAlteracoesRisco e riscoId tr).contadorRiscos = e.contadorRiscos := by
  have h : salvarAlteracoesRisco e riscoId tr =
      { e with riscos := pre ++ salvarCampos tr r :: pos } := by
    unfold salvarAlteracoesRisco
    rw [hdec, alterarPrimeiro_append_cons _ _ _ _ _ (fun x hx => by simpa using hpre x hx)
      (by simpa using hid)]
  refine ⟨h, ?_, ?_⟩
  · rw [h, hdec]
    simp
  · rw [h]

/-- Instance of C26: the row of the blank entry (id 2) holds new values; the example
entry stored before it is untouched. -/
theorem salvarAlteracoesRisco_campos_witness :
    (salvarAlteracoesRisco
      (adicionarNovoRisco (adicionarRiscoExemplo estadoInicial).estado).estado 2
      (linhaDoRisco (riscoErgonomicoBaixo 2))).riscos =
      [riscoExemplo 1, riscoErgonomicoBaixo 2] :=
  (congrArg Estado.riscos
    (salvarAlteracoesRisco_campos
      (adicionarNovoRisco (adicionarRiscoExemplo estadoInicial).estado).estado 2
      (linhaDoRisco (riscoErgonomicoBaixo 2)) [riscoExemplo 1] [] (novoRisco 2)
      (by decide) rfl (by decide)).1).trans (by decide)
/-! ## What plan generation leaves in place -/

theorem gerarPlanoAcao_estado_cases (e : Estado) (confirmado : Bool) :
    (gerarPlanoAcao e confirmado).estado = e ∨
    ∃ corpo gerado, (gerarPlanoAcao e confirmado).estado =
      { e with
        riscos := (sincronizarRiscos e).riscos,
        corpoPlanoAcao := corpo,
        planoAcaoGerado := gerado } := by
  have hrs : (sincronizarRiscos { e with corpoPlanoAcao := [] }).riscos =
      (sincronizarRiscos e).riscos := sincronizarRiscos_congr _ _ rfl rfl
  have hsync : sincronizarRiscos { e with corpoPlanoAcao := [] } =
      { e with corpoPlanoAcao := [], riscos := (sincronizarRiscos e).riscos } := by
    rw [sincronizarRiscos_eq { e with corpoPlanoAcao := [] }, hrs]
  unfold gerarPlanoAcao
  by_cases h0 : e.riscos.length = 0
  · rw [if_pos h0]
    exact Or.inl rfl
  · rw [if_neg h0]
    by_cases hg : (e.planoAcaoGerado && !confirmado) = true
    · rw [if_pos hg]
      exact Or.inl rfl
    · rw [if_neg hg]
      right
      simp only [hsync]
      rcases hren : renderizarAcoes [] (riscosOrdenados (sincronizarRiscos e).riscos) with
        ⟨corpo, flag⟩
      cases flag
      · exact ⟨corpo, true, rfl⟩
      · exact ⟨corpo, e.planoAcaoGerado, rfl⟩

/-- C25 (as amended): whatever its outcome, `gerarPlanoAcao` keeps the length of the risk
list, the ids of the entries in their order, `contadorRiscos`, the inventory rows, the
panel and `dadosModificados`; the list it leaves is the one it was given or that list
refreshed from the rows, so the entries themselves are unchanged when the rows show the
stored values.  Only `planoAcaoGerado` and the plan change beside that refresh. -/
theorem gerarPlanoAcao_preserva (e : Estado) (confirmado : Bool) :
    (gerarPlanoAcao e confirmado).estado.riscos.map (fun r => r.id) =
      e.riscos.map (fun r => r.id) ∧
    (gerarPlanoAcao e confirmado).estado.riscos.length = e.riscos.length ∧
    ((gerarPlanoAcao e confirmado).estado.riscos = e.riscos ∨
      (gerarPlanoAcao e confirmado).estado.riscos = (sincronizarRiscos e).riscos) ∧
    (sincronizado e = true → (gerarPlanoAcao e confirmado).estado.riscos = e.riscos) ∧
    (gerarPlanoAcao e confirmado).estado.contadorRiscos = e.contadorRiscos ∧
    (gerarPlanoAcao e confirmado).estado.corpoInventarioRiscos = e.corpoInventarioRiscos ∧
    (gerarPlanoAcao e confirmado).estado.painel = e.painel ∧
    (gerarPlanoAcao e confirmado).estado.dadosModificados = e.dadosModificados := by
  rcases gerarPlanoAcao_estado_cases e confirmado with h | ⟨corpo, gerado, h⟩
  · rw [h]
    exact ⟨rfl, rfl, Or.inl rfl, fun _ => rfl, rfl, rfl, rfl, rfl⟩
  · rw [h]
    refine ⟨sincronizarRiscos_ids e, sincronizarRiscos_length e, Or.inr rfl, ?_, rfl, rfl, rfl, rfl⟩
    intro hs
    simp only [sincronizarRiscos_of_sincronizado e hs]

/-- Instance of C25 (as amended): with the example entry and a blank entry stored and
shown by their rows, generating the plan leaves the two entries as they were. -/
theorem gerarPlanoAcao_preserva_witness :
    (gerarPlanoAcao (adicionarNovoRisco (adicionarRiscoExemplo estadoInicial).estado).estado
      false).estado.riscos =
      (adicionarNovoRisco (adicionarRiscoExemplo estadoInicial).estado).estado.riscos :=
  (gerarPlanoAcao_preserva (adicionarNovoRisco (adicionarRiscoExemplo estadoInicial).estado).estado
    false).2.2.2.1 (by decide)

/-- C25 fails as stated: in `estadoCampoEditado` the store holds the example entry while
its row shows the activity text "Concretagem"; `gerarPlanoAcao` copies the row into the
entry before it sorts, so the inventory it leaves is not the one it was given. -/
theorem gerarPlanoAcao_altera_inventario :
    estadoCampoEditado.riscos = [riscoExemplo 1] ∧
    (gerarPlanoAcao estadoCampoEditado false).estado.riscos =
      [{ riscoExemplo 1 with atividade := "Concretagem" }] ∧
    (gerarPlanoAcao estadoCampoEditado false).estado.riscos ≠ estadoCampoEditado.riscos := by
  have h1 : estadoCampoEditado.riscos = [riscoExemplo 1] := by decide
  have h2 : (gerarPlanoAcao estadoCampoEditado false).estado.riscos =
      [{ riscoExemplo 1 with atividade := "Concretagem" }] := by decide
  refine ⟨h1, h2, ?_⟩
  rw [h1, h2]
  decide
/-! ## Order of the plan -/

theorem ordemPrioridade_acaoDoRisco {r : Risco} {a : Acao} (h : acaoDoRisco r = some a) :
    ordemPrioridade a.prioridade =
      (if 8 ≤ pontuacao r then 3 else if 3 ≤ pontuacao r then 2 else 1) ∧
    a.prioridade ∈ ["Imediata", "Urgente", "Programada"] := by
  have hc : ∃ c, classificar r.probabilidade r.severidade = some c := by
    unfold acaoDoRisco at h
    cases hcl : classificar r.probabilidade r.severidade with
    | none => simp [hcl] at h
    | some c => exact ⟨c, rfl⟩
  obtain ⟨c, hc⟩ := hc
  have hv : ∃ v, valorRisco r.probabilidade r.severidade = some v := by
    unfold classificar at hc
    cases hvr : valorRisco r.probabilidade r.severidade with
    | none => simp [hvr] at hc
    | some v => exact ⟨v, rfl⟩
  obtain ⟨v, hv⟩ := hv
  have hval := valido_of_valorRisco hv
  simp only [valido, Bool.and_eq_true, decide_eq_true_eq] at hval
  obtain ⟨hp, hs⟩ := hval
  rw [mem_probabilidades] at hp
  rw [mem_severidades] at hs
  have ha : a = gerarAcaoParaRisco r c := by
    simp only [acaoDoRisco, hc, Option.map_some', Option.some.injEq] at h
    exact h.symm
  subst ha
  rcases hp with hp | hp | hp <;> rcases hs with hs | hs | hs | hs <;>
    · simp only [classificar, valorRisco, hp, hs, MATRIZ_PROBABILIDADE, MATRIZ_SEVERIDADE,
        CLASSIFICACAO_RISCO] at hc
      simp at hc
      subst hc
      simp [gerarAcaoParaRisco, ordemPrioridade, pontuacao, valorRisco, hp, hs,
        MATRIZ_PROBABILIDADE, MATRIZ_SEVERIDADE]

/-- C24: for a non-empty inventory whose entries hold values of the two enumerations
(the confirmation being given when a plan exists), the plan of `gerarPlanoAcao` is
ordered Imediata, then Urgente, then Programada: no item stands before an item of a
higher tier.  With one Alto entry of category Acidente and one Baixo entry of category
Ergonômico, stored in either order, the plan has two items: first the Alto entry,
Imediata with deadline 24-48 horas, then the Baixo entry, Programada with deadline 30-60
dias corridos. -/
theorem plano_ordenado_por_nivel (e : Estado) (confirmado : Bool) (hne : e.riscos ≠ [])
    (hconf : e.planoAcaoGerado = true → confirmado = true)
    (hval : ∀ r ∈ (sincronizarRiscos e).riscos, valido r = true) :
    (gerarPlanoAcao e confirmado).estado.corpoPlanoAcao.Pairwise
      (fun a b => ordemPrioridade b.prioridade ≤ ordemPrioridade a.prioridade) ∧
    (∀ a ∈ (gerarPlanoAcao e confirmado).estado.corpoPlanoAcao,
      a.prioridade ∈ ["Imediata", "Urgente", "Programada"]) ∧
    (gerarPlanoAcao (estadoComRiscos [riscoExemplo 1, riscoErgonomicoBaixo 2])
      false).estado.corpoPlanoAcao.map (fun a => (a.risco, a.prioridade, a.prazo)) =
      [("Trabalho em Altura - Montagem de Estruturas Metálicas - Queda de diferença de nível superior a 2,00m",
        "Imediata", "24-48 horas"),
       ("Digitação - Postura inadequada", "Programada", "30-60 dias corridos")] ∧
    (gerarPlanoAcao (estadoComRiscos [riscoErgonomicoBaixo 1, riscoExemplo 2])
      false).estado.corpoPlanoAcao.map (fun a => (a.risco, a.prioridade, a.prazo)) =
      [("Trabalho em Altura - Montagem de Estruturas Metálicas - Queda de diferença de nível superior a 2,00m",
        "Imediata", "24-48 horas"),
       ("Digitação - Postura inadequada", "Programada", "30-60 dias corridos")] := by
  have heq := gerarPlanoAcao_eq e confirmado hne hconf hval
  have hsorted : (riscosOrdenados (sincronizarRiscos e).riscos).Pairwise
      (fun a b => pontuacao b ≤ pontuacao a) := by
    have h := sort_eq_of_forall pontuacao compararRiscos (sincronizarRiscos e).riscos
      (fun a ha b hb => compararRiscos_le_iff (hval a ha) (hval b hb))
    unfold riscosOrdenados
    rw [h]
    exact pairwise_insertionSort_key pontuacao _
  refine ⟨?_, ?_, by decide, by decide⟩
  · rw [heq]
    simp only
    rw [List.pairwise_filterMap]
    refine hsorted.imp ?_
    intro r₁ r₂ hle a₁ ha₁ a₂ ha₂
    rw [(ordemPrioridade_acaoDoRisco ha₁).1, (ordemPrioridade_acaoDoRisco ha₂).1]
    split_ifs <;> omega
  · intro a ha
    rw [heq] at ha
    simp only [List.mem_filterMap] at ha
    obtain ⟨r, -, hr⟩ := ha
    exact (ordemPrioridade_acaoDoRisco hr).2

/-- Instance of C24: the example entry (Alto) stored after a blank entry (Médio); the
plan is ordered, Imediata first. -/
theorem plano_ordenado_por_nivel_witness :
    (gerarPlanoAcao (estadoComRiscos [novoRisco 1, riscoExemplo 2])
      false).estado.corpoPlanoAcao.Pairwise
      (fun a b => ordemPrioridade b.prioridade ≤ ordemPrioridade a.prioridade) ∧
    (gerarPlanoAcao (estadoComRiscos [novoRisco 1, riscoExemplo 2])
      false).estado.corpoPlanoAcao.map (fun a => a.prioridade) = ["Imediata", "Urgente"] :=
  ⟨(plano_ordenado_por_nivel (estadoComRiscos [novoRisco 1, riscoExemplo 2]) false
    (by decide) (by decide) (by decide)).1, by decide⟩
/-! ## Ids along a session with saving and loading -/

theorem renderizarRisco_some {e e3 : Estado} {r : Risco} (h : renderizarRisco e r = some e3) :
    e3.riscos = e.riscos ∧ e3.contadorRiscos = e.contadorRiscos := by
  unfold renderizarRisco at h
  split at h
  · cases h
  · cases h
    exact ⟨rfl, rfl⟩

theorem carregarRiscos_ids (l : List Risco) (e : Estado) :
    ∃ k, (carregarRiscos e l).1.riscos.map (fun r => r.id) =
        e.riscos.map (fun r => r.id) ++ List.range' (e.contadorRiscos + 1) k ∧
      (carregarRiscos e l).1.contadorRiscos = e.contadorRiscos + k := by
  induction l generalizing e with
  | nil => exact ⟨0, by simp [carregarRiscos], by simp [carregarRiscos]⟩
  | cons r l ih =>
    simp only [carregarRiscos]
    cases hren : renderizarRisco
        { e with contadorRiscos := e.contadorRiscos + 1,
                 riscos := e.riscos ++ [{ r with id := e.contadorRiscos + 1 }] }
        { r with id := e.contadorRiscos + 1 } with
    | none =>
      refine ⟨1, ?_, ?_⟩
      · simp [List.range'_succ]
      · simp
    | some e3 =>
      obtain ⟨hr3, hc3⟩ := renderizarRisco_some hren
      obtain ⟨k, hk1, hk2⟩ := ih e3
      refine ⟨k + 1, ?_, ?_⟩
      · simp only
        rw [hk1, hr3, hc3]
        simp [List.range'_succ, Nat.add_comm 1 k]
      · simp only
        rw [hk2, hc3]
        simp only
        omega

theorem idsValidos_range (e : Estado) (k : Nat)
    (hids : e.riscos.map (fun r => r.id) = List.range' 1 k) (hc : e.contadorRiscos = k) :
    IdsValidos e := by
  refine ⟨by rw [hids]; exact List.nodup_range' _ _, fun r hr => ?_⟩
  have hm : r.id ∈ e.riscos.map (fun r => r.id) := List.mem_map_of_mem _ hr
  rw [hids, List.mem_range'_1] at hm
  omega

theorem carregarDadosLocal_ids (ap : Aplicacao) (confirmado : Bool) :
    (carregarDadosLocal ap confirmado).app.estado = ap.estado ∨
    ∃ k, (carregarDadosLocal ap confirmado).app.estado.riscos.map (fun r => r.id) =
        List.range' 1 k ∧
      (carregarDadosLocal ap confirmado).app.estado.contadorRiscos = k := by
  unfold carregarDadosLocal
  by_cases hs : ap.suporte = true
  · simp only [hs, Bool.not_true, Bool.false_eq_true, if_false]
    cases hi : ap.item with
    | ausente => exact Or.inl rfl
    | malformado =>
      simp only
      split_ifs <;> exact Or.inl rfl
    | dados d =>
      simp only
      by_cases hg : (ap.estado.dadosModificados && !confirmado) = true
      · rw [if_pos hg]
        exact Or.inl rfl
      · rw [if_neg hg]
        right
        obtain ⟨k, hk1, hk2⟩ := carregarRiscos_ids d.riscos
          { ap.estado with corpoInventarioRiscos := [], riscos := [], contadorRiscos := 0 }
        simp only [List.map_nil, List.nil_append, Nat.zero_add] at hk1 hk2
        rcases hload : carregarRiscos
            { ap.estado with corpoInventarioRiscos := [], riscos := [], contadorRiscos := 0 }
            d.riscos with ⟨e2, flag⟩
        rw [hload] at hk1 hk2
        simp only at hk1 hk2
        cases flag
        · simp only
          split_ifs
          · exact ⟨k, by simp only [atualizarEstatisticas_riscos, sincronizarRiscos_ids, hk1],
              by simp only [atualizarEstatisticas_contador, hk2]⟩
          · exact ⟨k, by simp only [atualizarEstatisticas_riscos, sincronizarRiscos_ids, hk1],
              by simp only [atualizarEstatisticas_contador, hk2]⟩
        · exact ⟨k, hk1, hk2⟩
  · have hs' : ap.suporte = false := by simpa using hs
    left
    simp [hs']

theorem readerOnload_ids (e : Estado) (riscoId : Nat) (result : String) :
    (readerOnload e riscoId result).estado.riscos.map (fun r => r.id) =
      e.riscos.map (fun r => r.id) ∧
    (readerOnload e riscoId result).estado.contadorRiscos = e.contadorRiscos := by
  unfold readerOnload
  simp only
  split
  · refine ⟨?_, rfl⟩
    simp only
    apply alterarPrimeiro_map
    intro r
    rfl
  · refine ⟨?_, rfl⟩
    simp only
    apply alterarPrimeiro_map
    intro r
    rfl

theorem executarApp_ids (ap : Aplicacao) (op : OperacaoApp) (h : ehCarga op = false) :
    ((executarApp ap op).estado.riscos.map (fun r => r.id) =
        ap.estado.riscos.map (fun r => r.id) ++ [ap.estado.contadorRiscos + 1] ∧
      (executarApp ap op).estado.contadorRiscos = ap.estado.contadorRiscos + 1) ∨
    (((executarApp ap op).estado.riscos.map (fun r => r.id)).Sublist
        (ap.estado.riscos.map (fun r => r.id)) ∧
      (executarApp ap op).estado.contadorRiscos = ap.estado.contadorRiscos) := by
  cases op with
  | inventario o =>
    obtain ⟨hc, hids⟩ := executar_ids ap.estado o
    by_cases ho : ehAdicao o = true
    · rw [if_pos ho] at hc hids
      exact Or.inl ⟨hids, hc⟩
    · rw [if_neg ho] at hc hids
      exact Or.inr ⟨hids, hc⟩
  | plano confirmado =>
    right
    have hst : (executarApp ap (OperacaoApp.plano confirmado)).estado =
        (gerarPlanoAcao ap.estado confirmado).estado := rfl
    rcases gerarPlanoAcao_estado_cases ap.estado confirmado with hp | ⟨corpo, gerado, hp⟩
    · rw [hst, hp]
      exact ⟨List.Sublist.refl _, rfl⟩
    · rw [hst, hp]
      refine ⟨?_, rfl⟩
      show ((sincronizarRiscos ap.estado).riscos.map (fun r => r.id)).Sublist _
      rw [sincronizarRiscos_ids]
  | foto riscoId result =>
    right
    have hst : (executarApp ap (OperacaoApp.foto riscoId result)).estado =
        (readerOnload ap.estado riscoId result).estado := rfl
    rw [hst, (readerOnload_ids ap.estado riscoId result).1,
      (readerOnload_ids ap.estado riscoId result).2]
    exact ⟨List.Sublist.refl _, rfl⟩
  | salvar agora gravado =>
    right
    have hst : (executarApp ap (OperacaoApp.salvar agora gravado)).estado =
        (salvarDadosLocal ap agora gravado).app.estado := rfl
    rw [hst]
    unfold salvarDadosLocal
    split_ifs
    · exact ⟨List.Sublist.refl _, rfl⟩
    · exact ⟨List.Sublist.refl _, rfl⟩
    · exact ⟨List.Sublist.refl _, rfl⟩
  | carregar confirmado => simp [ehCarga] at h

theorem executarApp_idsValidos (ap : Aplicacao) (op : OperacaoApp) (h : IdsValidos ap.estado) :
    IdsValidos (executarApp ap op).estado := by
  by_cases hop : ehCarga op = true
  · cases op with
    | carregar confirmado =>
      rcases carregarDadosLocal_ids ap confirmado with he | ⟨k, hk1, hk2⟩
      · simp only [executarApp, he]
        exact h
      · exact idsValidos_range _ k hk1 hk2
    | inventario o => simp [ehCarga] at hop
    | plano c => simp [ehCarga] at hop
    | foto i s => simp [ehCarga] at hop
    | salvar a g => simp [ehCarga] at hop
  · have hop' : ehCarga op = false := by simpa using hop
    obtain ⟨hnd, hle⟩ := h
    have hle' : ∀ i ∈ ap.estado.riscos.map (fun r => r.id), i ≤ ap.estado.contadorRiscos := by
      intro i hi
      obtain ⟨r, hr, rfl⟩ := List.mem_map.mp hi
      exact hle r hr
    rcases executarApp_ids ap op hop' with ⟨hids, hc⟩ | ⟨hids, hc⟩
    · refine ⟨?_, fun r hr => ?_⟩
      · rw [hids]
        refine List.Nodup.append hnd (List.nodup_singleton _) ?_
        intro i hi hi'
        have h1 := hle' i hi
        have h2 : i = ap.estado.contadorRiscos + 1 := by simpa using hi'
        omega
      · have hm : r.id ∈ (executarApp ap op).estado.riscos.map (fun r => r.id) :=
          List.mem_map_of_mem _ hr
        rw [hids] at hm
        rw [hc]
        rcases List.mem_append.mp hm with hm | hm
        · exact Nat.le_succ_of_le (hle' _ hm)
        · have : r.id = ap.estado.contadorRiscos + 1 := by simpa using hm
          omega
    · refine ⟨hnd.sublist hids, fun r hr => ?_⟩
      have hm : r.id ∈ (executarApp ap op).estado.riscos.map (fun r => r.id) :=
        List.mem_map_of_mem _ hr
      rw [hc]
      exact hle' _ (hids.subset hm)

theorem executarTodasApp_idsValidos (ops : List OperacaoApp) (ap : Aplicacao)
    (h : IdsValidos ap.estado) : IdsValidos (executarTodasApp ap ops).estado := by
  induction ops generalizing ap with
  | nil => exact h
  | cons op ops ih => exact ih (executarApp ap op) (executarApp_idsValidos ap op h)

/-- C23 (as amended): along every session that starts with distinct ids not above the
counter, the ids in the store stay pairwise distinct and at most `contadorRiscos`.
Every operation other than a load keeps the id of every entry that stays in the store:
it either appends one entry whose id is the counter plus one, raising the counter by
one, or leaves a sublist of the ids in their order with the counter as it was; so
between two loads no id is given twice.  A load either leaves the state as it was or
replaces the inventory by entries numbered 1, 2, ..., k with the counter at k, whatever
ids were saved or given before. -/
theorem ids_na_sessao (ap₀ : Aplicacao) (ops : List OperacaoApp) (h₀ : IdsValidos ap₀.estado) :
    IdsValidos (executarTodasApp ap₀ ops).estado ∧
    (∀ (ap : Aplicacao) (op : OperacaoApp), ehCarga op = false →
      ((executarApp ap op).estado.riscos.map (fun r => r.id) =
          ap.estado.riscos.map (fun r => r.id) ++ [ap.estado.contadorRiscos + 1] ∧
        (executarApp ap op).estado.contadorRiscos = ap.estado.contadorRiscos + 1) ∨
      (((executarApp ap op).estado.riscos.map (fun r => r.id)).Sublist
          (ap.estado.riscos.map (fun r => r.id)) ∧
        (executarApp ap op).estado.contadorRiscos = ap.estado.contadorRiscos)) ∧
    (∀ (ap : Aplicacao) (confirmado : Bool),
      (executarApp ap (OperacaoApp.carregar confirmado)).estado = ap.estado ∨
      ∃ k, (executarApp ap (OperacaoApp.carregar confirmado)).estado.riscos.map
            (fun r => r.id) = List.range' 1 k ∧
        (executarApp ap (OperacaoApp.carregar confirmado)).estado.contadorRiscos = k) :=
  ⟨executarTodasApp_idsValidos ops ap₀ h₀, executarApp_ids,
   fun ap confirmado => carregarDadosLocal_ids ap confirmado⟩

/-- Instance of C23 (as amended): after adding two entries, removing the first, saving
and loading, the ids in the store are distinct and not above the counter. -/
theorem ids_na_sessao_witness :
    IdsValidos (executarTodasApp aplicacaoInicial
      [OperacaoApp.inventario Operacao.exemplo, OperacaoApp.inventario Operacao.novo,
       OperacaoApp.inventario (Operacao.remover 1 true),
       OperacaoApp.salvar "2024-01-01T00:00:00.000Z" true,
       OperacaoApp.carregar true]).estado :=
  (ids_na_sessao aplicacaoInicial _ ⟨List.nodup_nil, fun r hr => by cases hr⟩).1

/-- C23 fails as stated: the example entry gets id 1 and the blank entry id 2; the
example entry is removed and the store is saved; after the load the blank entry, which
had id 2, has id 1, the id given earlier to the entry since deleted. -/
theorem carregar_reutiliza_id :
    (executarTodasApp aplicacaoInicial
      [OperacaoApp.inventario Operacao.exemplo]).estado.riscos = [riscoExemplo 1] ∧
    (executarTodasApp aplicacaoInicial
      [OperacaoApp.inventario Operacao.exemplo, OperacaoApp.inventario Operacao.novo,
       OperacaoApp.inventario (Operacao.remover 1 true),
       OperacaoApp.salvar "2024-01-01T00:00:00.000Z" true]).estado.riscos = [novoRisco 2] ∧
    (executarTodasApp aplicacaoInicial
      [OperacaoApp.inventario Operacao.exemplo, OperacaoApp.inventario Operacao.novo,
       OperacaoApp.inventario (Operacao.remover 1 true),
       OperacaoApp.salvar "2024-01-01T00:00:00.000Z" true,
       OperacaoApp.carregar true]).estado.riscos = [novoRisco 1] := by
  decide

end PGR
